import Mathlib

/-!
# DIFI source block: a shallow embedding of `lib/difi_source_cpp_impl.cc`

The block reads DIFI (VITA-49) packets from a TCP or UDP transport, decodes the
packet header, tracks the packet sequence number, decodes context packets and
copies I/Q samples to the output.

Conventions of the embedding.

* Bytes are natural numbers; every decoder reduces a byte modulo 256, so the
  decoded words are 32- or 64-bit values for every buffer content.
* Machine integers are `Nat` (unsigned) or `Int` (signed) with the C conversions
  written out (`to_int16`, `to_u64`, ...).  `Int.tdiv` and `Int.tmod` are the C
  operators `/` and `%` on `int`.
* The member variables of `difi_source_cpp_impl` are the fields of `State`; a
  member function is a function on `State` that returns the new state.
* `add_item_tag` appends to `State.tags`.  Log lines (`GR_LOG_WARN`,
  `GR_LOG_ERROR`) are not part of the model.
* The transports are external collaborators; they are modelled as a script that
  holds the outcome of every future `read` call.
* `double` and `float` values are exact rationals.
-/

namespace Difi

/-! ## Machine integers -/

/-- Conversion of an unsigned value to `int8_t` (twos complement). -/
def to_int8 (x : Nat) : Int :=
  if x % 2 ^ 8 < 2 ^ 7 then ((x % 2 ^ 8 : Nat) : Int) else ((x % 2 ^ 8 : Nat) : Int) - 2 ^ 8

/-- Conversion of an unsigned value to `int16_t` (twos complement). -/
def to_int16 (x : Nat) : Int :=
  if x % 2 ^ 16 < 2 ^ 15 then ((x % 2 ^ 16 : Nat) : Int) else ((x % 2 ^ 16 : Nat) : Int) - 2 ^ 16

/-- Conversion of an unsigned value to `int32_t` (twos complement). -/
def to_int32 (x : Nat) : Int :=
  if x % 2 ^ 32 < 2 ^ 31 then ((x % 2 ^ 32 : Nat) : Int) else ((x % 2 ^ 32 : Nat) : Int) - 2 ^ 32

/-- Conversion of an unsigned value to `int64_t` / `long` (twos complement). -/
def to_int64 (x : Nat) : Int :=
  if x % 2 ^ 64 < 2 ^ 63 then ((x % 2 ^ 64 : Nat) : Int) else ((x % 2 ^ 64 : Nat) : Int) - 2 ^ 64

/-- Conversion of a signed value to `uint32_t`. -/
def to_u32 (x : Int) : Nat := (x % 2 ^ 32).toNat

/-- Conversion of a signed value to `uint64_t`. -/
def to_u64 (x : Int) : Nat := (x % 2 ^ 64).toNat

/-! ## Constants -/

/-- The macro `NUM_BYTES_PER_WORD` of the source file. -/
def NUM_BYTES_PER_WORD : Nat := 4

/-- Modelled from the spec: `difi::DATA_START_IDX`, declared in a header that is not part of
the sources at hand.  The data packet layout of the spec puts the samples at `[28:end]`. -/
def DATA_START_IDX : Nat := 28

/-- Modelled from the spec: `VITA_PKT_MOD`, declared in a header that is not part of the
sources at hand.  The spec has the sequence number increment modulo 16. -/
def VITA_PKT_MOD : Int := 16

/-- Modelled from the spec: the enumeration `context_behavior`, declared in a header that is
not part of the sources at hand.  The source names `ignore`, `throw_exe` (the Abort policy of
the spec) and `warnings_forward` (WarnForward); the fourth value, the default policy WarnDrop
of the spec, is not named in the source file and is called `warnings_no_forward` here. -/
inductive context_behavior
  | ignore
  | throw_exe
  | warnings_forward
  | warnings_no_forward
  deriving DecidableEq

/-! ## Metadata values, tags, samples -/

/-- The `pmt` values the block builds. -/
inductive Pmt
  | from_long (v : Int)
  | from_uint64 (v : Nat)
  | from_double (v : ℚ)
  | from_float (v : ℚ)
  | init_s8vector (v : List Int)
  deriving DecidableEq

/-- A `pmt` dictionary: the entries in the order the calls of `pmt::dict_add` add them. -/
abbrev PmtDict := List (String × Pmt)

/-- The call `pmt::make_dict()`: the empty dictionary, which is a `pmt` object and not a null
pointer. -/
def make_dict : PmtDict := []

/-- The call `pmt::dict_add(dict, pmt::intern(key), value)`. -/
def dict_add (dict : PmtDict) (key : String) (value : Pmt) : PmtDict := dict ++ [(key, value)]

/-- The value of a stream tag: a dictionary or a single `pmt` value. -/
inductive TagValue
  | dict (d : PmtDict)
  | value (p : Pmt)
  deriving DecidableEq

/-- One call `add_item_tag(0, offset, pmt::intern(key), value)`. -/
structure Tag where
  offset : Nat
  key : String
  value : TagValue
  deriving DecidableEq

/-- A complex sample: the pair (I, Q). -/
abbrev Sample := Int × Int

/-! ## Packet records -/

/-- Modelled from the spec: the struct `header_data`, declared in a header that is not part of
the sources at hand (the PacketHeader of the spec; the fields are the ones `parse_header`
assigns). -/
structure header_data where
  type : Nat
  pkt_n : Nat
  header : Nat
  stream_num : Nat
  deriving DecidableEq

/-- Modelled from the spec: the struct `context_packet`, declared in a header that is not part
of the sources at hand (the ContextRecord of the spec; the fields are the ones
`unpack_context` assigns). -/
structure context_packet where
  class_id : Nat
  full : Nat
  frac : Nat
  cif : Nat
  ref_point : Nat
  bw : ℚ
  if_ref_freq : ℚ
  rf_ref_freq : ℚ
  if_band_offset : ℚ
  ref_lvl : ℚ
  rf_gain : ℚ
  if_gain : ℚ
  samp_rate : ℚ
  t_adj : Nat
  t_cal : Nat
  state_indicators : Nat
  payload_format : Nat
  deriving DecidableEq

/-! ## Transport collaborators -/

/-- The outcome of one `read` call of a transport. -/
inductive ReadResult
  /-- Bytes are available: `read` stores as many of them as were requested and returns the
  number of bytes stored. -/
  | data (bytes : List Nat)
  /-- The call fails: `read` stores nothing and returns `-1`. -/
  | error
  deriving DecidableEq

/-- Modelled from the spec: the transports `tcp_server` and `udp_socket`, which are not part of
the sources at hand (stream: `is_peer_connected() -> bool`, `read(buffer, exact_len) ->
bytes_read`; datagram: `read(buffer, max_len) -> bytes_read`, 0 meaning none ready).  The
constructor of the block creates exactly one of the two.  `script` lists the outcomes of the
future `read` calls, in order; when it is used up `read` returns 0. -/
inductive Transport
  | tcp (is_client_connected : Bool) (script : List ReadResult)
  | udp (script : List ReadResult)
  deriving DecidableEq

/-- What one `read` call gives: the value returned, the bytes stored, and the script left. -/
structure ReadOutcome where
  ret : Int
  bytes : List Nat
  rest : List ReadResult

/-- One call `read(ptr, len)` on a transport with the given script. -/
def read_script : List ReadResult → Nat → ReadOutcome
  | [], _ => ⟨0, [], []⟩
  | ReadResult.error :: rest, _ => ⟨-1, [], rest⟩
  | ReadResult.data bytes :: rest, len => ⟨((bytes.take len).length : Nat), bytes.take len, rest⟩

/-- The number of `read` outcomes a transport still holds. -/
def Transport.pending : Transport → Nat
  | Transport.tcp _ script => script.length
  | Transport.udp script => script.length

/-- Storing `bytes` into a buffer from index `off` on.  The buffer is a `std::vector` whose
size is fixed by the constructor (line 81), so its length never changes: the bytes that fit
are stored, and bytes that would land behind the end are not part of the vector (the source
writes them past the end of the vector, where the model does not follow it).  Statements about
the bytes stored assume that the write fits. -/
def write_at (buf : List Nat) (off : Nat) (bytes : List Nat) : List Nat :=
  buf.take off ++ bytes.take (buf.length - off) ++ buf.drop (off + bytes.length)

/-! ## The block -/

/-- The members of `difi_source_cpp_impl`, the tables of its header, and the part of the host
(GNU Radio) the block talks to. -/
structure State where
  /-- Constructor argument `stream_number`; `-1` switches the stream filter off. -/
  d_stream_number : Int
  d_behavior : context_behavior
  /-- Bytes per I or Q value: 1 in 8-bit mode, 2 in 16-bit mode. -/
  d_unpack_idx_size : Nat
  d_send : Bool
  /-- The pending context dictionary; `none` is `NULL`. -/
  d_context : Option PmtDict
  d_last_pkt_n : Int
  d_static_bits : Int
  d_last_full : Nat
  d_last_frac : Nat
  d_packet_buffer : List Nat
  /-- The value of `d_deque.size()`; the source file never changes `d_deque`. -/
  d_deque_size : Nat
  /-- The table `difi::CONTEXT_PACKET_OFFSETS` of the header, a parameter of the model. -/
  CONTEXT_PACKET_OFFSETS : List Nat
  /-- The table `difi::CONTEXT_PACKET_ALT_OFFSETS` of the header, a parameter of the model. -/
  CONTEXT_PACKET_ALT_OFFSETS : List Nat
  /-- The content of the local variable `context` of `make_context_dict` before any
  assignment: C++ leaves it indeterminate, the model takes it as a parameter. -/
  indeterminate_context : context_packet
  transport : Transport
  /-- The value of `nitems_written(0)`: the host updates it between calls of `work`. -/
  nitems_written : Nat
  /-- The tags added by `add_item_tag` so far, oldest first. -/
  tags : List Tag
  deriving DecidableEq

/-- The state the constructor builds (lines 54-88).  `PKT_BUF_SIZE`, the two offset tables,
the start values of the members the constructor does not set (`d_last_full`, `d_last_frac`,
`d_deque`) and the transport are parameters. -/
def difi_source_cpp_impl (stream_number : Int) (bit_depth : Int)
    (context_pkt_behavior : context_behavior) (PKT_BUF_SIZE : Nat)
    (offsets alt_offsets : List Nat) (transport : Transport) : State :=
  { d_stream_number := stream_number
    d_behavior := context_pkt_behavior
    d_unpack_idx_size := if bit_depth = 8 then 1 else 2
    d_send := true
    d_context := none
    d_last_pkt_n := -1
    d_static_bits := -1
    d_last_full := 0
    d_last_frac := 0
    d_packet_buffer := List.replicate PKT_BUF_SIZE 0
    d_deque_size := 0
    CONTEXT_PACKET_OFFSETS := offsets
    CONTEXT_PACKET_ALT_OFFSETS := alt_offsets
    indeterminate_context :=
      ⟨0, 0, 0, 0, 0, 0, 0, 0, 0, 0, 0, 0, 0, 0, 0, 0, 0⟩
    transport := transport
    nitems_written := 0
    tags := [] }

/-- The byte at index `i` of a buffer, as a value below 256. -/
def byte_at (buf : List Nat) (i : Nat) : Nat := buf.getD i 0 % 256

/-- The function `unpack_u32(&buf[i])`: the big-endian 32-bit word at `buf[i .. i+4]`
(lines 21-26). -/
def unpack_u32 (buf : List Nat) (i : Nat) : Nat :=
  byte_at buf i * 2 ^ 24 + byte_at buf (i + 1) * 2 ^ 16 + byte_at buf (i + 2) * 2 ^ 8
    + byte_at buf (i + 3)

/-- The function `unpack_u64(&buf[i])`: the big-endian 64-bit word at `buf[i .. i+8]`
(lines 27-32). -/
def unpack_u64 (buf : List Nat) (i : Nat) : Nat :=
  unpack_u32 buf i * 2 ^ 32 + unpack_u32 buf (i + 4)

/-- Modelled from the spec: `parse_vita_fixed_double`, declared in a header that is not part of
the sources at hand: a 64-bit twos-complement fixed-point value with 20 fractional bits is the
signed 64-bit integer divided by 2^20. -/
def parse_vita_fixed_double (bits : Nat) : ℚ := (to_int64 bits : ℚ) / 2 ^ 20

/-- Modelled from the spec: `parse_vita_fixed_float`, declared in a header that is not part of
the sources at hand: a 16-bit twos-complement fixed-point value with 7 fractional bits is the
signed 16-bit integer divided by 2^7. -/
def parse_vita_fixed_float (v : Int) : ℚ := (v : ℚ) / 2 ^ 7

/-- Modelled from the spec: `unpack_8`, declared in a header that is not part of the sources at
hand: 8-bit mode reads one signed byte each for I and Q. -/
def unpack_8 (buf : List Nat) (idx : Nat) : Sample :=
  (to_int8 (byte_at buf idx), to_int8 (byte_at buf (idx + 1)))

/-- Modelled from the spec: `unpack_16`, declared in a header that is not part of the sources
at hand: 16-bit mode reads one big-endian signed 16-bit value each for I and Q. -/
def unpack_16 (buf : List Nat) (idx : Nat) : Sample :=
  (to_int16 (byte_at buf idx * 2 ^ 8 + byte_at buf (idx + 1)),
   to_int16 (byte_at buf (idx + 2) * 2 ^ 8 + byte_at buf (idx + 3)))

/-- The member `d_unpacker` the constructor selects (lines 85-87). -/
def State.d_unpacker (s : State) (idx : Nat) : Sample :=
  if s.d_unpack_idx_size = 1 then unpack_8 s.d_packet_buffer idx
  else unpack_16 s.d_packet_buffer idx

/-! ## `parse_header` (lines 194-216) -/

/-- The function `parse_header`: decodes the header of the packet in `d_packet_buffer`; for a data packet
(type 1) it latches the timestamp and tags a change of the static header bits. -/
def parse_header (s : State) : header_data × State :=
  let header := unpack_u32 s.d_packet_buffer 0
  let stream_number := unpack_u32 s.d_packet_buffer 4
  let full := unpack_u32 s.d_packet_buffer 16
  let frac := unpack_u64 s.d_packet_buffer 20
  let data : header_data :=
    { type := header >>> 28
      pkt_n := (header >>> 16) &&& 0xf
      header := header
      stream_num := stream_number }
  let static_part : Int := to_int32 (header &&& 0xfff00000)
  if data.type = 1 then
    let s1 := { s with d_last_frac := frac, d_last_full := full }
    if s1.d_static_bits ≠ static_part then
      (data, { s1 with
        d_static_bits := static_part
        tags := s1.tags ++ [⟨s1.nitems_written, "static_change",
          TagValue.value (Pmt.from_uint64 (to_u64 static_part))⟩] })
    else (data, s1)
  else (data, s)

/-! ## `make_pkt_n_dict` (lines 218-229) -/

/-- The function `make_pkt_n_dict`: the dictionary of a `pck_n` tag. -/
def make_pkt_n_dict (s : State) (pkt_n : Int) (size_gotten : Int) : PmtDict :=
  let dict := make_dict
  let full := unpack_u32 s.d_packet_buffer 16
  let frac := unpack_u64 s.d_packet_buffer 20
  let dict := dict_add dict "pck_n" (Pmt.from_uint64 (to_u64 pkt_n))
  let dict := dict_add dict "data_len" (Pmt.from_uint64 (to_u64 size_gotten))
  let dict := dict_add dict "full" (Pmt.from_long full)
  let dict := dict_add dict "frac" (Pmt.from_uint64 frac)
  dict

/-! ## Context packets (lines 231-337) -/

/-- The function `unpack_context_alt`: the fields of the 72-byte layout (lines 301-314). -/
def unpack_context_alt (s : State) (context : context_packet) : context_packet :=
  let buf := s.d_packet_buffer
  let off := fun (idx : Nat) => s.CONTEXT_PACKET_ALT_OFFSETS.getD idx 0
  { context with
    class_id := unpack_u64 buf (off 0)
    cif := unpack_u32 buf (off 1)
    bw := parse_vita_fixed_double (unpack_u64 buf (off 2))
    if_ref_freq := parse_vita_fixed_double (unpack_u64 buf (off 3))
    rf_ref_freq := parse_vita_fixed_double (unpack_u64 buf (off 4))
    if_band_offset := parse_vita_fixed_double (unpack_u64 buf (off 5))
    samp_rate := parse_vita_fixed_double (unpack_u64 buf (off 6))
    state_indicators := unpack_u32 buf (off 7)
    payload_format := unpack_u64 buf (off 8) }

/-- The function `unpack_context`: the fields of the 108-byte layout (lines 315-337). -/
def unpack_context (s : State) (_context : context_packet) : context_packet :=
  let buf := s.d_packet_buffer
  let off := fun (idx : Nat) => s.CONTEXT_PACKET_OFFSETS.getD idx 0
  let gains := unpack_u32 buf (off 10)
  { class_id := unpack_u64 buf (off 0)
    full := unpack_u32 buf (off 1)
    frac := unpack_u64 buf (off 2)
    cif := unpack_u32 buf (off 3)
    ref_point := unpack_u32 buf (off 4)
    bw := parse_vita_fixed_double (unpack_u64 buf (off 5))
    if_ref_freq := parse_vita_fixed_double (unpack_u64 buf (off 6))
    rf_ref_freq := parse_vita_fixed_double (unpack_u64 buf (off 7))
    if_band_offset := parse_vita_fixed_double (unpack_u64 buf (off 8))
    ref_lvl := parse_vita_fixed_float (to_int16 (0xffff &&& unpack_u32 buf (off 9)))
    rf_gain := parse_vita_fixed_float (to_int16 (0xffff &&& gains))
    if_gain := parse_vita_fixed_float (to_int16 (gains >>> 16))
    samp_rate := parse_vita_fixed_double (unpack_u64 buf (off 11))
    t_adj := unpack_u64 buf (off 12)
    t_cal := unpack_u32 buf (off 13)
    state_indicators := unpack_u32 buf (off 14)
    payload_format := unpack_u64 buf (off 15) }

/-- The bytes `pmt::init_s8vector(size_gotten, &d_packet_buffer[0])` copies. -/
def raw_bytes (s : State) (size_gotten : Int) : List Int :=
  (List.range size_gotten.toNat).map (fun i => to_int8 (byte_at s.d_packet_buffer i))

/-- The dictionary `make_context_dict` builds for a 72-byte packet (lines 238-252). -/
def context_dict_alt (s : State) (header : header_data) (context : context_packet)
    (size_gotten : Int) : PmtDict :=
  let pmt_dict := make_dict
  let pmt_dict := dict_add pmt_dict "header" (Pmt.from_long header.header)
  let pmt_dict := dict_add pmt_dict "stream_num" (Pmt.from_uint64 header.stream_num)
  let pmt_dict := dict_add pmt_dict "class_id" (Pmt.from_long (to_int64 context.class_id))
  let pmt_dict := dict_add pmt_dict "full" (Pmt.from_long s.d_last_full)
  let pmt_dict := dict_add pmt_dict "frac" (Pmt.from_uint64 s.d_last_frac)
  let pmt_dict := dict_add pmt_dict "CIF" (Pmt.from_long context.cif)
  let pmt_dict := dict_add pmt_dict "bandwidth" (Pmt.from_double context.bw)
  let pmt_dict := dict_add pmt_dict "if_reference_frequency" (Pmt.from_double context.if_ref_freq)
  let pmt_dict := dict_add pmt_dict "rf_reference_frequency" (Pmt.from_double context.rf_ref_freq)
  let pmt_dict := dict_add pmt_dict "if_band_offset" (Pmt.from_double context.if_band_offset)
  let pmt_dict := dict_add pmt_dict "samp_rate" (Pmt.from_double context.samp_rate)
  let pmt_dict := dict_add pmt_dict "state_and_event_indicator"
    (Pmt.from_long context.state_indicators)
  let pmt_dict := dict_add pmt_dict "data_packet_payload_format"
    (Pmt.from_uint64 context.payload_format)
  let pmt_dict := dict_add pmt_dict "raw" (Pmt.init_s8vector (raw_bytes s size_gotten))
  pmt_dict

/-- The dictionary `make_context_dict` builds for a 108-byte packet (lines 256-276). -/
def context_dict_full (s : State) (header : header_data) (context : context_packet)
    (size_gotten : Int) : PmtDict :=
  let pmt_dict := make_dict
  let pmt_dict := dict_add pmt_dict "header" (Pmt.from_long header.header)
  let pmt_dict := dict_add pmt_dict "stream_num" (Pmt.from_uint64 header.stream_num)
  let pmt_dict := dict_add pmt_dict "class_id" (Pmt.from_long (to_int64 context.class_id))
  let pmt_dict := dict_add pmt_dict "full" (Pmt.from_long context.full)
  let pmt_dict := dict_add pmt_dict "frac" (Pmt.from_uint64 context.frac)
  let pmt_dict := dict_add pmt_dict "CIF" (Pmt.from_long context.cif)
  let pmt_dict := dict_add pmt_dict "reference_point" (Pmt.from_long context.ref_point)
  let pmt_dict := dict_add pmt_dict "bandwidth" (Pmt.from_double context.bw)
  let pmt_dict := dict_add pmt_dict "if_reference_frequency" (Pmt.from_double context.if_ref_freq)
  let pmt_dict := dict_add pmt_dict "rf_reference_frequency" (Pmt.from_double context.rf_ref_freq)
  let pmt_dict := dict_add pmt_dict "if_band_offset" (Pmt.from_double context.if_band_offset)
  let pmt_dict := dict_add pmt_dict "reference_level" (Pmt.from_float context.ref_lvl)
  let pmt_dict := dict_add pmt_dict "rf_gain" (Pmt.from_float context.rf_gain)
  let pmt_dict := dict_add pmt_dict "if_gain" (Pmt.from_float context.if_gain)
  let pmt_dict := dict_add pmt_dict "samp_rate" (Pmt.from_double context.samp_rate)
  let pmt_dict := dict_add pmt_dict "timestamp_adjustment" (Pmt.from_long (to_int64 context.t_adj))
  let pmt_dict := dict_add pmt_dict "timestamp_calibration_time" (Pmt.from_uint64 context.t_cal)
  let pmt_dict := dict_add pmt_dict "state_and_event_indicator"
    (Pmt.from_long context.state_indicators)
  let pmt_dict := dict_add pmt_dict "data_packet_payload_format"
    (Pmt.from_uint64 context.payload_format)
  let pmt_dict := dict_add pmt_dict "raw" (Pmt.init_s8vector (raw_bytes s size_gotten))
  pmt_dict

/-- Lines 234-282 of `make_context_dict`: the local `context` and the dictionary after the
dispatch on the packet length. -/
def decode_context (s : State) (header : header_data) (size_gotten : Int) :
    context_packet × PmtDict :=
  let context := s.indeterminate_context
  if size_gotten = 72 then
    let context := unpack_context_alt s context
    (context, context_dict_alt s header context size_gotten)
  else if size_gotten = 108 then
    let context := unpack_context s context
    (context, context_dict_full s header context size_gotten)
  else
    (context, make_dict)

/-- The local `r_bit_depth` of `make_context_dict` (line 283). -/
def r_bit_depth (context : context_packet) : Nat :=
  ((context.payload_format >>> 32) &&& 0x0000001f) + 1

/-- What a call of `make_context_dict` does. -/
inductive DictResult
  /-- The call returns `d` (`none` is `NULL`) and leaves the block in state `s`. -/
  | value (d : Option PmtDict) (s : State)
  /-- The call throws `std::runtime_error`; no member has been assigned. -/
  | runtime_error
  deriving DecidableEq

/-- The function `make_context_dict` (lines 231-299). -/
def make_context_dict (s : State) (header : header_data) (size_gotten : Int) : DictResult :=
  let decoded := decode_context s header size_gotten
  let context := decoded.1
  let pmt_dict := decoded.2
  if size_gotten ≠ 44 ∧ (r_bit_depth context ≠ s.d_unpack_idx_size * 8
      ∨ (size_gotten ≠ 108 ∧ size_gotten ≠ 72)) then
    if s.d_behavior = context_behavior.throw_exe then
      DictResult.runtime_error
    else
      DictResult.value none
        { s with d_send := decide (s.d_behavior = context_behavior.warnings_forward) }
  else
    DictResult.value (some pmt_dict) { s with d_send := true }

/-! ## `buffer_and_send` (lines 109-192) -/

/-- Lines 113-137 of `buffer_and_send`: one packet is read from the transport into
`d_packet_buffer`; the result is the local `size_gotten` and the new state. -/
def read_packet (s : State) : Int × State :=
  match s.transport with
  | Transport.tcp is_client_connected script =>
    if is_client_connected then
      -- read the first word to determine the size of the packet
      let r := read_script script NUM_BYTES_PER_WORD
      let s1 := { s with
        d_packet_buffer := write_at s.d_packet_buffer 0 r.bytes
        transport := Transport.tcp is_client_connected r.rest }
      if r.ret = NUM_BYTES_PER_WORD then
        let header := unpack_u32 s1.d_packet_buffer 0
        let pkt_size : Int := NUM_BYTES_PER_WORD * (header &&& 0xffff : Nat)
        let num_bytes_to_read : Int := pkt_size - NUM_BYTES_PER_WORD
        if num_bytes_to_read > 0 then
          let r2 := read_script r.rest num_bytes_to_read.toNat
          (r.ret + r2.ret, { s1 with
            d_packet_buffer := write_at s1.d_packet_buffer NUM_BYTES_PER_WORD r2.bytes
            transport := Transport.tcp is_client_connected r2.rest })
        else (r.ret, s1)
      else (r.ret, s1)
    else (-1, s)
  | Transport.udp script =>
    let r := read_script script s.d_packet_buffer.length
    (r.ret, { s with
      d_packet_buffer := write_at s.d_packet_buffer 0 r.bytes
      transport := Transport.udp r.rest })

/-- The `while` loop of lines 178-184; `out_items` and `size_gotten` are the two `int` bounds
after their conversion to `uint32_t`, the result is `items_written` and the samples stored in
`out`.  The first argument bounds the number of iterations; `size_gotten` iterations are never
used up, because `idx` grows by `2 * d_unpack_idx_size >= 2` in every iteration
(`unpack_loop_count`). -/
def unpack_loop (s : State) (out_items size_gotten : Nat) :
    Nat → Nat → Nat → List Sample → Nat × List Sample
  | 0, items_written, _, out => (items_written, out)
  | fuel + 1, items_written, idx, out =>
    if items_written < out_items ∧ idx < size_gotten then
      unpack_loop s out_items size_gotten fuel (items_written + 1)
        (idx + 2 * s.d_unpack_idx_size) (out ++ [s.d_unpacker idx])
    else (items_written, out)

/-- How one pass through the body of `buffer_and_send` ends. -/
inductive Step
  /-- The statement `return n`, with the samples stored in `out`. -/
  | ret (n : Int) (out : List Sample) (s : State)
  /-- The statement `return buffer_and_send(out, noutput_items)` of line 190. -/
  | recurse (s : State)
  /-- The exception `std::runtime_error` leaves the function; `s` is the state then. -/
  | runtime_error (s : State)
  deriving DecidableEq

/-- Lines 156-164 of `buffer_and_send`: the two places that add a `pck_n` tag. -/
def sequence_check (s : State) (header : header_data) (size_gotten : Int) : State :=
  let s :=
    if header.type = 1 ∧ s.d_last_pkt_n ≠ -1
        ∧ Int.tmod (s.d_last_pkt_n + 1) VITA_PKT_MOD ≠ header.pkt_n then
      { s with tags := s.tags ++ [⟨s.nitems_written, "pck_n",
          TagValue.dict (make_pkt_n_dict s header.pkt_n size_gotten)⟩] }
    else s
  let s :=
    if s.d_last_pkt_n = -1 ∧ header.type = 1 then
      { s with tags := s.tags ++ [⟨s.nitems_written, "pck_n",
          TagValue.dict (make_pkt_n_dict s header.pkt_n size_gotten)⟩] }
    else s
  s

/-- Lines 168-185 of `buffer_and_send`: the branch of a data packet while `d_send` holds. -/
def send_data (s : State) (header : header_data) (size_gotten : Int) (noutput_items : Int) :
    Step :=
  let out_items : Int := min (Int.tdiv (size_gotten - DATA_START_IDX) 2) noutput_items
  let s := { s with d_last_pkt_n := header.pkt_n }
  let s :=
    match s.d_context with
    | some context =>
      { s with
        tags := s.tags ++ [⟨s.nitems_written + s.d_deque_size, "context",
          TagValue.dict context⟩]
        d_context := none }
    | none => s
  -- start after the data header
  let r := unpack_loop s (to_u32 out_items) (to_u32 size_gotten) (to_u32 size_gotten)
    0 DATA_START_IDX []
  Step.ret r.1 r.2 s

/-- Lines 189-190 of `buffer_and_send`: the `else` branch. -/
def store_context (s : State) (header : header_data) (size_gotten : Int) : Step :=
  if s.d_behavior = context_behavior.ignore then
    let s := { s with d_context := none }
    if s.d_send = true then Step.recurse s else Step.ret 0 [] s
  else
    match make_context_dict s header size_gotten with
    | DictResult.runtime_error => Step.runtime_error s
    | DictResult.value d s =>
      let s := { s with d_context := d }
      if s.d_send = true then Step.recurse s else Step.ret 0 [] s

/-- The body of `buffer_and_send` (lines 112-191); the recursive call of line 190 is the
result `Step.recurse`.  `header.stream_num` is a `uint32_t`, so the comparison of line 151
converts `d_stream_number` to `uint32_t`. -/
def buffer_and_send_body (s : State) (noutput_items : Int) : Step :=
  let framed := read_packet s
  let size_gotten := framed.1
  let s := framed.2
  if size_gotten ≤ 0 then
    Step.ret 0 [] s
  else
    let parsed := parse_header s
    let header := parsed.1
    let s := parsed.2
    if s.d_stream_number ≠ -1 ∧ header.stream_num ≠ to_u32 s.d_stream_number then
      Step.ret 0 [] s
    else
      let s := sequence_check s header size_gotten
      if header.type = 1 ∧ s.d_send = true then
        -- one is a data packet (see DIFI spec)
        send_data s header size_gotten noutput_items
      else
        store_context s header size_gotten

/-- How a call of `buffer_and_send` ends. -/
inductive Outcome
  /-- The call returns `n`, with the samples stored in `out`. -/
  | returned (n : Int) (out : List Sample) (s : State)
  /-- The call throws `std::runtime_error`; `s` is the state then. -/
  | runtime_error (s : State)
  /-- The bound on the recursion depth was too small. -/
  | out_of_fuel
  deriving DecidableEq

/-- The function `buffer_and_send` with a bound on the depth of its recursion. -/
def buffer_and_send_fuel : Nat → State → Int → Outcome
  | 0, _, _ => Outcome.out_of_fuel
  | fuel + 1, s, noutput_items =>
    match buffer_and_send_body s noutput_items with
    | Step.ret n out s1 => Outcome.returned n out s1
    | Step.recurse s1 => buffer_and_send_fuel fuel s1 noutput_items
    | Step.runtime_error s1 => Outcome.runtime_error s1

/-- The function `buffer_and_send`.  A pass that ends in the recursive call has taken at least
one outcome off the script of the transport, so `pending + 1` passes are enough for every
state (`buffer_and_send_total`, `buffer_and_send_unfold`). -/
def buffer_and_send (s : State) (noutput_items : Int) : Outcome :=
  buffer_and_send_fuel (s.transport.pending + 1) s noutput_items

/-- The function `work` (lines 100-107). -/
def work (s : State) (noutput_items : Int) : Outcome :=
  buffer_and_send s noutput_items

/-- The state a pass through the body ends in. -/
def Step.state : Step → State
  | Step.ret _ _ s => s
  | Step.recurse s => s
  | Step.runtime_error s => s

/-! ## Vocabulary of the statements -/

/-- The local `size_gotten` of a call from state `s`: the length of the framed packet. -/
def framed_size (s : State) : Int := (read_packet s).1

/-- The header `parse_header` decodes in a call from state `s`. -/
def framed_header (s : State) : header_data := (parse_header (read_packet s).2).1

/-- The packet of a call from state `s` gets past the stream filter of line 151. -/
def passes_stream_filter (s : State) : Prop :=
  s.d_stream_number = -1 ∨ (framed_header s).stream_num = to_u32 s.d_stream_number

instance passes_stream_filter_decidable (s : State) : Decidable (passes_stream_filter s) := by
  unfold passes_stream_filter
  infer_instance

/-- The tags added on the way from state `s` to the later state `s1`. -/
def new_tags (s s1 : State) : List Tag := s1.tags.drop s.tags.length

/-- The tags of a list that carry the given key. -/
def tags_with_key (key : String) (tags : List Tag) : List Tag :=
  tags.filter (fun t => t.key = key)

/-- The `pck_n` tag of lines 159 and 163 for the packet of a call from state `s`. -/
def pck_n_tag (s : State) : Tag :=
  ⟨s.nitems_written, "pck_n",
    TagValue.dict (make_pkt_n_dict (read_packet s).2 (framed_header s).pkt_n (framed_size s))⟩

/-- The count and the samples a call returns; `none` when it throws. -/
def Outcome.samples : Outcome → Option (Int × List Sample)
  | Outcome.returned n out _ => some (n, out)
  | _ => none

/-- Whether a call of `make_context_dict` took the failure branch of lines 284-296, that is,
did not return a dictionary. -/
def DictResult.failed : DictResult → Bool
  | DictResult.value (some _) _ => false
  | _ => true

/-- The host calls `work` again and again; a call that returns `m` has produced `m` items,
so `nitems_written(0)` is `m` larger in the next call.  An exception ends the run. -/
def run_calls : Nat → State → Int → State
  | 0, s, _ => s
  | k + 1, s, noutput_items =>
    match work s noutput_items with
    | Outcome.returned m _ s1 =>
      run_calls k { s1 with nitems_written := s1.nitems_written + m.toNat } noutput_items
    | Outcome.runtime_error s1 => s1
    | Outcome.out_of_fuel => s

/-- A state with the sequence number and the tags blanked out: the part of the state that the
samples of the following calls depend on. -/
def State.erase_seq (s : State) : State := { s with d_last_pkt_n := 0, tags := [] }

/-- The result of a pass with `State.erase_seq` applied to its state. -/
def Step.erase_seq : Step → Step
  | Step.ret n out s => Step.ret n out s.erase_seq
  | Step.recurse s => Step.recurse s.erase_seq
  | Step.runtime_error s => Step.runtime_error s.erase_seq

/-- The result of `make_context_dict` with `State.erase_seq` applied to its state. -/
def DictResult.erase_seq : DictResult → DictResult
  | DictResult.value d s => DictResult.value d s.erase_seq
  | DictResult.runtime_error => DictResult.runtime_error

/-- The result of a call with `State.erase_seq` applied to its state. -/
def Outcome.erase_seq : Outcome → Outcome
  | Outcome.returned n out s => Outcome.returned n out s.erase_seq
  | Outcome.runtime_error s => Outcome.runtime_error s.erase_seq
  | Outcome.out_of_fuel => Outcome.out_of_fuel

/-! ## Example inputs -/

/-- The first 28 bytes of a packet with the given type and sequence number, stream number 7
and timestamp (5, 9). -/
def example_header (type pkt_n : Nat) : List Nat :=
  [type * 16, pkt_n, 0, 0, 0, 0, 0, 7, 0, 0, 0, 0, 0, 0, 0, 0, 0, 0, 0, 5, 0, 0, 0, 0, 0, 0, 0, 9]

/-- A datagram with a data packet (type 1). -/
def example_data_packet (pkt_n : Nat) (payload : List Nat) : ReadResult :=
  ReadResult.data (example_header 1 pkt_n ++ payload)

/-- A datagram with a 72-byte context packet (type 4) that declares the given bit depth. -/
def example_context_72 (depth : Nat) : ReadResult :=
  ReadResult.data (example_header 4 0 ++ List.replicate 36 0 ++ [0, 0, 0, depth - 1, 0, 0, 0, 0])

/-- A datagram with a 108-byte context packet (type 4) that declares the given bit depth. -/
def example_context_108 (depth : Nat) : ReadResult :=
  ReadResult.data (example_header 4 0 ++ List.replicate 72 0 ++ [0, 0, 0, depth - 1, 0, 0, 0, 0])

/-- A datagram with a 44-byte packet of type 4. -/
def example_flow_signal : ReadResult :=
  ReadResult.data (example_header 4 0 ++ List.replicate 16 0)

/-- A freshly constructed block without stream filter on a UDP socket that will deliver the
given datagrams; the offset tables are the field offsets of the DIFI context packet layouts. -/
def example_state (bit_depth : Int) (behavior : context_behavior) (script : List ReadResult) :
    State :=
  difi_source_cpp_impl (-1) bit_depth behavior 128
    [8, 16, 20, 28, 32, 36, 44, 52, 60, 68, 72, 76, 84, 92, 96, 100]
    [8, 16, 20, 28, 36, 44, 52, 60, 64] (Transport.udp script)

/-- The given state with `d_send` false. -/
def example_paused (s : State) : State := { s with d_send := false }

/-- Four data packets with the sequence numbers 0, 1, 2, 4. -/
def example_stream_0124 : State :=
  example_state 8 context_behavior.warnings_no_forward
    [example_data_packet 0 [1, 2, 3, 4], example_data_packet 1 [1, 2, 3, 4],
     example_data_packet 2 [1, 2, 3, 4], example_data_packet 4 [1, 2, 3, 4]]

/-- Two data packets with the sequence numbers 15, 0. -/
def example_stream_15_0 : State :=
  example_state 8 context_behavior.warnings_no_forward
    [example_data_packet 15 [1, 2, 3, 4], example_data_packet 0 [1, 2, 3, 4]]

/-- A 50-byte packet of type 4, a 44-byte data packet and a 32-byte data packet, with the
default policy. -/
def example_paused_stream : State :=
  example_state 8 context_behavior.warnings_no_forward
    [ReadResult.data (example_header 4 0 ++ List.replicate 22 0),
     example_data_packet 0 (List.replicate 16 1), example_data_packet 1 [1, 2, 3, 4]]


/-- A freshly constructed block with the stream filter set to 8 on a UDP socket; the packets
of `example_header` carry the stream number 7. -/
def example_filtered_state (bit_depth : Int) (behavior : context_behavior)
    (script : List ReadResult) : State :=
  difi_source_cpp_impl 8 bit_depth behavior 128
    [8, 16, 20, 28, 32, 36, 44, 52, 60, 68, 72, 76, 84, 92, 96, 100]
    [8, 16, 20, 28, 36, 44, 52, 60, 64] (Transport.udp script)

/-- A freshly constructed block without stream filter on a TCP server whose peer is connected
or not and whose `read` calls will have the given outcomes. -/
def example_tcp_state (bit_depth : Int) (behavior : context_behavior)
    (is_client_connected : Bool) (script : List ReadResult) : State :=
  difi_source_cpp_impl (-1) bit_depth behavior 128
    [8, 16, 20, 28, 32, 36, 44, 52, 60, 68, 72, 76, 84, 92, 96, 100]
    [8, 16, 20, 28, 36, 44, 52, 60, 64] (Transport.tcp is_client_connected script)

/-- Two data packets whose first words differ in bit 20 only (and in the sequence number). -/
def example_static_stream : State :=
  example_state 8 context_behavior.warnings_no_forward
    [example_data_packet 0 [1, 2, 3, 4], example_data_packet 17 [1, 2, 3, 4]]

/-- A 50-byte packet of type 4 and two 32-byte data packets with the sequence numbers 5 and
6, with the default policy. -/
def example_paused_data : State :=
  example_state 8 context_behavior.warnings_no_forward
    [ReadResult.data (example_header 4 0 ++ List.replicate 22 0),
     example_data_packet 5 [1, 2, 3, 4], example_data_packet 6 [1, 2, 3, 4]]

/-- The big-endian number held by the `len` bytes of a buffer from index `i` on, most
significant byte first: the reading of "big-endian word at bytes [i : i+len]" that the
decoders are compared with. -/
def big_endian_at (buf : List Nat) (i len : Nat) : Nat :=
  (List.range len).foldl (fun acc k => acc * 256 + buf.getD (i + k) 0) 0

/-- A block whose socket will deliver a 32-byte data packet with the first word 0x1AC30008,
the stream number 0x01020304 and the timestamp words 256 and 513. -/
def example_header_fields : State :=
  example_state 8 context_behavior.warnings_no_forward
    [ReadResult.data [0x1A, 0xC3, 0, 8, 1, 2, 3, 4, 0, 0, 0, 0, 0, 0, 0, 0, 0, 0, 1, 0,
      0, 0, 0, 0, 0, 0, 2, 1, 10, 20, 30, 40]]

/-- The lookup `pmt::dict_ref(dict, key)` of a key in a dictionary (none when absent). -/
def dict_ref (dict : PmtDict) (key : String) : Option Pmt := List.lookup key dict

/-- A block that has handled one data packet with the timestamp (5, 9) and will next receive
a 72-byte context packet of type 4 whose bytes 16 to 27 hold the words 77 and 88. -/
def example_latched : State :=
  run_calls 1 (example_state 8 context_behavior.warnings_no_forward
    [example_data_packet 0 [1, 2, 3, 4],
     ReadResult.data ([64, 0, 0, 0, 0, 0, 0, 7, 0, 0, 0, 0, 0, 0, 0, 0, 0, 0, 0, 77,
       0, 0, 0, 0, 0, 0, 0, 88] ++ List.replicate 36 0 ++ [0, 0, 0, 7, 0, 0, 0, 0])]) 10

/-- The value of a 16-bit pattern `x < 2^16` read as a twos-complement number, in the words of
the specification ("signed16"). -/
def signed16 (x : Nat) : Int := if x < 2 ^ 15 then (x : Int) else (x : Int) - 2 ^ 16

/-- The states the block can be in between two calls of `work`: the constructed state and
every state that calls of `work` lead to from it, whatever the transport delivers. -/
inductive Reachable : State → Prop
  /-- The state the constructor builds, for every choice of its arguments. -/
  | constructed (stream_number bit_depth : Int) (context_pkt_behavior : context_behavior)
      (PKT_BUF_SIZE : Nat) (offsets alt_offsets : List Nat) (transport : Transport) :
      Reachable (difi_source_cpp_impl stream_number bit_depth context_pkt_behavior PKT_BUF_SIZE
        offsets alt_offsets transport)
  /-- The state a call of `work` returns normally with. -/
  | returned (s : State) (noutput_items m : Int) (out : List Sample) (s1 : State) :
      Reachable s → work s noutput_items = Outcome.returned m out s1 → Reachable s1
  /-- The state a call of `work` leaves when it throws. -/
  | raised (s : State) (noutput_items : Int) (s1 : State) :
      Reachable s → work s noutput_items = Outcome.runtime_error s1 → Reachable s1
  /-- Between two calls the host advances the count of items written. -/
  | host (s : State) (nitems_written : Nat) :
      Reachable s → Reachable { s with nitems_written := nitems_written }

/-- A paused block (`d_send` false, default policy, 8-bit mode) with the stream filter set to
8 that will receive a 72-byte context packet of stream 7 that declares 8 bits. -/
def example_filtered_context : State :=
  example_paused (example_filtered_state 8 context_behavior.warnings_no_forward
    [example_context_72 8])

/-- A block with the policy `throw_exe` and the stream filter set to 8 that will receive a
50-byte packet of type 4 of stream 7. -/
def example_filtered_abort : State :=
  example_filtered_state 8 context_behavior.throw_exe
    [ReadResult.data (example_header 4 0 ++ List.replicate 22 0)]

/-! ## Lemmas -/

open context_behavior

set_option maxRecDepth 20000

/-! ### The transport: a framed packet takes outcomes off the script -/

theorem read_script_rest_le (script : List ReadResult) (len : Nat) :
    (read_script script len).rest.length ≤ script.length := by
  cases script with
  | nil => simp [read_script]
  | cons r rest => cases r <;> simp [read_script]

theorem read_script_rest_lt (script : List ReadResult) (len : Nat)
    (h : 0 < (read_script script len).ret) :
    (read_script script len).rest.length < script.length := by
  cases script with
  | nil => simp [read_script] at h
  | cons r rest => cases r <;> simp [read_script]

theorem read_packet_pending_lt (s : State) (h : 0 < (read_packet s).1) :
    (read_packet s).2.transport.pending < s.transport.pending := by
  unfold read_packet at h ⊢
  cases ht : s.transport with
  | udp script =>
    simp only [ht] at h ⊢
    simpa [Transport.pending] using read_script_rest_lt _ _ h
  | tcp c script =>
    simp only [ht] at h ⊢
    by_cases hc : c = true
    · simp only [hc, if_true] at h ⊢
      by_cases h4 : (read_script script NUM_BYTES_PER_WORD).ret = (NUM_BYTES_PER_WORD : Int)
      · have h1 : 0 < (read_script script NUM_BYTES_PER_WORD).ret := by
          rw [h4]; simp [NUM_BYTES_PER_WORD]
        have h2 := read_script_rest_lt _ _ h1
        simp only [h4, if_true]
        split
        · simp only [Transport.pending]
          exact lt_of_le_of_lt (read_script_rest_le _ _) h2
        · simpa [Transport.pending] using h2
      · simp only [h4, if_false] at h ⊢
        simpa [Transport.pending] using read_script_rest_lt _ _ h
    · simp [hc] at h

/-! ### What the parts of the body leave unchanged -/

theorem parse_header_fst (s : State) :
    (parse_header s).1 =
      { type := unpack_u32 s.d_packet_buffer 0 >>> 28
        pkt_n := (unpack_u32 s.d_packet_buffer 0 >>> 16) &&& 0xf
        header := unpack_u32 s.d_packet_buffer 0
        stream_num := unpack_u32 s.d_packet_buffer 4 } := by
  unfold parse_header
  simp only []
  split
  · split <;> rfl
  · rfl

theorem parse_header_frame (s : State) :
    (parse_header s).2 = { s with
      d_last_frac := (parse_header s).2.d_last_frac
      d_last_full := (parse_header s).2.d_last_full
      d_static_bits := (parse_header s).2.d_static_bits
      tags := (parse_header s).2.tags } := by
  unfold parse_header
  simp only []
  split
  · split <;> rfl
  · rfl

theorem parse_header_non_data (s : State) (h : (parse_header s).1.type ≠ 1) :
    (parse_header s).2 = s := by
  have h1 := parse_header_fst s
  rw [h1] at h
  unfold parse_header
  simp only [] at h ⊢
  rw [if_neg h]

theorem read_packet_frame (s : State) :
    (read_packet s).2 = { s with
      d_packet_buffer := (read_packet s).2.d_packet_buffer
      transport := (read_packet s).2.transport } := by
  unfold read_packet
  split
  · split
    · simp only []
      split
      · split <;> rfl
      · rfl
    · rfl
  · rfl

theorem sequence_check_frame (s : State) (header : header_data) (size_gotten : Int) :
    sequence_check s header size_gotten =
      { s with tags := (sequence_check s header size_gotten).tags } := by
  unfold sequence_check
  simp only []
  split <;> split <;> rfl

@[simp]
theorem parse_header_d_stream_number (s : State) :
    ((parse_header s).2).d_stream_number = s.d_stream_number := by
  rw [parse_header_frame]

@[simp]
theorem parse_header_d_behavior (s : State) :
    ((parse_header s).2).d_behavior = s.d_behavior := by
  rw [parse_header_frame]

@[simp]
theorem parse_header_d_unpack_idx_size (s : State) :
    ((parse_header s).2).d_unpack_idx_size = s.d_unpack_idx_size := by
  rw [parse_header_frame]

@[simp]
theorem parse_header_d_send (s : State) :
    ((parse_header s).2).d_send = s.d_send := by
  rw [parse_header_frame]

@[simp]
theorem parse_header_d_context (s : State) :
    ((parse_header s).2).d_context = s.d_context := by
  rw [parse_header_frame]

@[simp]
theorem parse_header_d_last_pkt_n (s : State) :
    ((parse_header s).2).d_last_pkt_n = s.d_last_pkt_n := by
  rw [parse_header_frame]

@[simp]
theorem parse_header_d_packet_buffer (s : State) :
    ((parse_header s).2).d_packet_buffer = s.d_packet_buffer := by
  rw [parse_header_frame]

@[simp]
theorem parse_header_d_deque_size (s : State) :
    ((parse_header s).2).d_deque_size = s.d_deque_size := by
  rw [parse_header_frame]

@[simp]
theorem parse_header_CONTEXT_PACKET_OFFSETS (s : State) :
    ((parse_header s).2).CONTEXT_PACKET_OFFSETS = s.CONTEXT_PACKET_OFFSETS := by
  rw [parse_header_frame]

@[simp]
theorem parse_header_CONTEXT_PACKET_ALT_OFFSETS (s : State) :
    ((parse_header s).2).CONTEXT_PACKET_ALT_OFFSETS = s.CONTEXT_PACKET_ALT_OFFSETS := by
  rw [parse_header_frame]

@[simp]
theorem parse_header_indeterminate_context (s : State) :
    ((parse_header s).2).indeterminate_context = s.indeterminate_context := by
  rw [parse_header_frame]

@[simp]
theorem parse_header_transport (s : State) :
    ((parse_header s).2).transport = s.transport := by
  rw [parse_header_frame]

@[simp]
theorem parse_header_nitems_written (s : State) :
    ((parse_header s).2).nitems_written = s.nitems_written := by
  rw [parse_header_frame]

@[simp]
theorem read_packet_d_stream_number (s : State) :
    ((read_packet s).2).d_stream_number = s.d_stream_number := by
  rw [read_packet_frame]

@[simp]
theorem read_packet_d_behavior (s : State) :
    ((read_packet s).2).d_behavior = s.d_behavior := by
  rw [read_packet_frame]

@[simp]
theorem read_packet_d_unpack_idx_size (s : State) :
    ((read_packet s).2).d_unpack_idx_size = s.d_unpack_idx_size := by
  rw [read_packet_frame]

@[simp]
theorem read_packet_d_send (s : State) :
    ((read_packet s).2).d_send = s.d_send := by
  rw [read_packet_frame]

@[simp]
theorem read_packet_d_context (s : State) :
    ((read_packet s).2).d_context = s.d_context := by
  rw [read_packet_frame]

@[simp]
theorem read_packet_d_last_pkt_n (s : State) :
    ((read_packet s).2).d_last_pkt_n = s.d_last_pkt_n := by
  rw [read_packet_frame]

@[simp]
theorem read_packet_d_static_bits (s : State) :
    ((read_packet s).2).d_static_bits = s.d_static_bits := by
  rw [read_packet_frame]

@[simp]
theorem read_packet_d_last_full (s : State) :
    ((read_packet s).2).d_last_full = s.d_last_full := by
  rw [read_packet_frame]

@[simp]
theorem read_packet_d_last_frac (s : State) :
    ((read_packet s).2).d_last_frac = s.d_last_frac := by
  rw [read_packet_frame]

@[simp]
theorem read_packet_d_deque_size (s : State) :
    ((read_packet s).2).d_deque_size = s.d_deque_size := by
  rw [read_packet_frame]

@[simp]
theorem read_packet_CONTEXT_PACKET_OFFSETS (s : State) :
    ((read_packet s).2).CONTEXT_PACKET_OFFSETS = s.CONTEXT_PACKET_OFFSETS := by
  rw [read_packet_frame]

@[simp]
theorem read_packet_CONTEXT_PACKET_ALT_OFFSETS (s : State) :
    ((read_packet s).2).CONTEXT_PACKET_ALT_OFFSETS = s.CONTEXT_PACKET_ALT_OFFSETS := by
  rw [read_packet_frame]

@[simp]
theorem read_packet_indeterminate_context (s : State) :
    ((read_packet s).2).indeterminate_context = s.indeterminate_context := by
  rw [read_packet_frame]

@[simp]
theorem read_packet_nitems_written (s : State) :
    ((read_packet s).2).nitems_written = s.nitems_written := by
  rw [read_packet_frame]

@[simp]
theorem read_packet_tags (s : State) :
    ((read_packet s).2).tags = s.tags := by
  rw [read_packet_frame]

@[simp]
theorem sequence_check_d_stream_number (s : State) (header : header_data) (size_gotten : Int) :
    (sequence_check s header size_gotten).d_stream_number = s.d_stream_number := by
  rw [sequence_check_frame]

@[simp]
theorem sequence_check_d_behavior (s : State) (header : header_data) (size_gotten : Int) :
    (sequence_check s header size_gotten).d_behavior = s.d_behavior := by
  rw [sequence_check_frame]

@[simp]
theorem sequence_check_d_unpack_idx_size (s : State) (header : header_data) (size_gotten : Int) :
    (sequence_check s header size_gotten).d_unpack_idx_size = s.d_unpack_idx_size := by
  rw [sequence_check_frame]

@[simp]
theorem sequence_check_d_send (s : State) (header : header_data) (size_gotten : Int) :
    (sequence_check s header size_gotten).d_send = s.d_send := by
  rw [sequence_check_frame]

@[simp]
theorem sequence_check_d_context (s : State) (header : header_data) (size_gotten : Int) :
    (sequence_check s header size_gotten).d_context = s.d_context := by
  rw [sequence_check_frame]

@[simp]
theorem sequence_check_d_last_pkt_n (s : State) (header : header_data) (size_gotten : Int) :
    (sequence_check s header size_gotten).d_last_pkt_n = s.d_last_pkt_n := by
  rw [sequence_check_frame]

@[simp]
theorem sequence_check_d_static_bits (s : State) (header : header_data) (size_gotten : Int) :
    (sequence_check s header size_gotten).d_static_bits = s.d_static_bits := by
  rw [sequence_check_frame]

@[simp]
theorem sequence_check_d_last_full (s : State) (header : header_data) (size_gotten : Int) :
    (sequence_check s header size_gotten).d_last_full = s.d_last_full := by
  rw [sequence_check_frame]

@[simp]
theorem sequence_check_d_last_frac (s : State) (header : header_data) (size_gotten : Int) :
    (sequence_check s header size_gotten).d_last_frac = s.d_last_frac := by
  rw [sequence_check_frame]

@[simp]
theorem sequence_check_d_packet_buffer (s : State) (header : header_data) (size_gotten : Int) :
    (sequence_check s header size_gotten).d_packet_buffer = s.d_packet_buffer := by
  rw [sequence_check_frame]

@[simp]
theorem sequence_check_d_deque_size (s : State) (header : header_data) (size_gotten : Int) :
    (sequence_check s header size_gotten).d_deque_size = s.d_deque_size := by
  rw [sequence_check_frame]

@[simp]
theorem sequence_check_CONTEXT_PACKET_OFFSETS (s : State) (header : header_data) (size_gotten : Int) :
    (sequence_check s header size_gotten).CONTEXT_PACKET_OFFSETS = s.CONTEXT_PACKET_OFFSETS := by
  rw [sequence_check_frame]

@[simp]
theorem sequence_check_CONTEXT_PACKET_ALT_OFFSETS (s : State) (header : header_data) (size_gotten : Int) :
    (sequence_check s header size_gotten).CONTEXT_PACKET_ALT_OFFSETS = s.CONTEXT_PACKET_ALT_OFFSETS := by
  rw [sequence_check_frame]

@[simp]
theorem sequence_check_indeterminate_context (s : State) (header : header_data) (size_gotten : Int) :
    (sequence_check s header size_gotten).indeterminate_context = s.indeterminate_context := by
  rw [sequence_check_frame]

@[simp]
theorem sequence_check_transport (s : State) (header : header_data) (size_gotten : Int) :
    (sequence_check s header size_gotten).transport = s.transport := by
  rw [sequence_check_frame]

@[simp]
theorem sequence_check_nitems_written (s : State) (header : header_data) (size_gotten : Int) :
    (sequence_check s header size_gotten).nitems_written = s.nitems_written := by
  rw [sequence_check_frame]

/-! ### Termination of the recursion -/

theorem make_context_dict_frame (s : State) (header : header_data) (size_gotten : Int)
    (d : Option PmtDict) (s1 : State)
    (h : make_context_dict s header size_gotten = DictResult.value d s1) :
    s1 = { s with d_send := s1.d_send } := by
  unfold make_context_dict at h
  simp only [] at h
  split at h
  · split at h
    · cases h
    · cases h; rfl
  · cases h; rfl

theorem store_context_frame (s : State) (header : header_data) (size_gotten : Int) :
    (store_context s header size_gotten).state = { s with
      d_send := (store_context s header size_gotten).state.d_send
      d_context := (store_context s header size_gotten).state.d_context } := by
  unfold store_context
  split
  · simp only []
    split <;> rfl
  · split
    · rfl
    · rename_i d s1 h
      have h1 := make_context_dict_frame s header size_gotten d s1 h
      simp only []
      split
      · simp only [Step.state]
        rw [h1]
      · simp only [Step.state]
        rw [h1]

theorem send_data_not_recurse (s : State) (header : header_data) (size_gotten n : Int)
    (s1 : State) : send_data s header size_gotten n ≠ Step.recurse s1 := by
  unfold send_data
  simp

theorem body_recurse_pending (s : State) (n : Int) (s1 : State)
    (h : buffer_and_send_body s n = Step.recurse s1) :
    s1.transport.pending < s.transport.pending := by
  unfold buffer_and_send_body at h
  simp only [] at h
  split at h
  · cases h
  · rename_i hsize
    split at h
    · cases h
    · split at h
      · exact absurd h (send_data_not_recurse _ _ _ _ _)
      · have h1 := store_context_frame
          (sequence_check (parse_header (read_packet s).2).2 (parse_header (read_packet s).2).1
            (read_packet s).1) (parse_header (read_packet s).2).1 (read_packet s).1
        rw [h] at h1
        simp only [Step.state] at h1
        rw [h1]
        simp only [sequence_check_transport, parse_header_transport]
        exact read_packet_pending_lt s (by omega)

theorem buffer_and_send_fuel_enough (fuel : Nat) : ∀ (s : State) (n : Int),
    s.transport.pending < fuel →
    buffer_and_send_fuel fuel s n = buffer_and_send s n := by
  induction fuel using Nat.strong_induction_on with
  | _ fuel ih =>
    intro s n hlt
    unfold buffer_and_send
    cases fuel with
    | zero => omega
    | succ k =>
      simp only [buffer_and_send_fuel]
      cases hb : buffer_and_send_body s n with
      | ret m out s1 => rfl
      | runtime_error s1 => rfl
      | recurse s1 =>
        simp only []
        have hp := body_recurse_pending s n s1 hb
        rw [ih k (by omega) s1 n (by omega), ih s.transport.pending (by omega) s1 n hp]

theorem buffer_and_send_fuel_total (fuel : Nat) : ∀ (s : State) (n : Int),
    s.transport.pending < fuel → buffer_and_send_fuel fuel s n ≠ Outcome.out_of_fuel := by
  induction fuel with
  | zero => intro s n h; omega
  | succ k ih =>
    intro s n hlt
    simp only [buffer_and_send_fuel]
    cases hb : buffer_and_send_body s n with
    | ret m out s1 => simp
    | runtime_error s1 => simp
    | recurse s1 =>
      simp only []
      have hp := body_recurse_pending s n s1 hb
      exact ih s1 n (by omega)

/-- A call of `buffer_and_send` never runs out of recursion depth: it returns or throws. -/
theorem buffer_and_send_total (s : State) (n : Int) :
    buffer_and_send s n ≠ Outcome.out_of_fuel :=
  buffer_and_send_fuel_total _ s n (Nat.lt_succ_self _)

theorem buffer_and_send_unfold (s : State) (n : Int) :
    buffer_and_send s n =
      match buffer_and_send_body s n with
      | Step.ret m out s1 => Outcome.returned m out s1
      | Step.recurse s1 => buffer_and_send s1 n
      | Step.runtime_error s1 => Outcome.runtime_error s1 := by
  conv => lhs; unfold buffer_and_send
  simp only [buffer_and_send_fuel]
  cases hb : buffer_and_send_body s n with
  | ret m out s1 => rfl
  | runtime_error s1 => rfl
  | recurse s1 =>
    simp only []
    exact buffer_and_send_fuel_enough _ s1 n (body_recurse_pending s n s1 hb)

/-! ### The samples do not depend on the sequence number or the tags -/

theorem read_packet_erase (s : State) :
    read_packet s.erase_seq = ((read_packet s).1, (read_packet s).2.erase_seq) := by
  unfold read_packet State.erase_seq
  simp only []
  split
  · split
    · split
      · split <;> rfl
      · rfl
    · rfl
  · rfl

theorem parse_header_erase (s : State) :
    (parse_header s.erase_seq).1 = (parse_header s).1
    ∧ (parse_header s.erase_seq).2.erase_seq = (parse_header s).2.erase_seq := by
  unfold parse_header State.erase_seq
  simp only []
  split
  · split <;> simp
  · simp

theorem unpack_loop_congr (s s1 : State) (hb : s1.d_packet_buffer = s.d_packet_buffer)
    (hu : s1.d_unpack_idx_size = s.d_unpack_idx_size) (a b : Nat) :
    ∀ (fuel i idx : Nat) (out : List Sample),
      unpack_loop s1 a b fuel i idx out = unpack_loop s a b fuel i idx out := by
  intro fuel
  induction fuel with
  | zero => intro i idx out; rfl
  | succ k ih =>
    intro i idx out
    simp only [unpack_loop, State.d_unpacker, hb, hu, ih]

theorem send_data_erase (s : State) (header : header_data) (size_gotten n : Int) :
    (send_data s header size_gotten n).erase_seq
      = (send_data s.erase_seq header size_gotten n).erase_seq := by
  unfold send_data
  simp only []
  cases hc : s.d_context with
  | none =>
    have hc1 : s.erase_seq.d_context = none := by simp [State.erase_seq, hc]
    simp only [hc, hc1, Step.erase_seq]
    congr 1
    · congr 2
      apply unpack_loop_congr <;> rfl
    · congr 1
      apply unpack_loop_congr <;> rfl
  | some c =>
    have hc1 : s.erase_seq.d_context = some c := by simp [State.erase_seq, hc]
    simp only [hc, hc1, Step.erase_seq]
    congr 1
    · congr 2
      apply unpack_loop_congr <;> rfl
    · congr 1
      apply unpack_loop_congr <;> rfl

theorem make_context_dict_erase (s : State) (header : header_data) (size_gotten : Int) :
    make_context_dict s.erase_seq header size_gotten
      = (make_context_dict s header size_gotten).erase_seq := by
  unfold make_context_dict
  have hd : decode_context s.erase_seq header size_gotten = decode_context s header size_gotten := by
    unfold decode_context
    rfl
  simp only [hd]
  have h1 : s.erase_seq.d_unpack_idx_size = s.d_unpack_idx_size := rfl
  have h2 : s.erase_seq.d_behavior = s.d_behavior := rfl
  simp only [h1, h2]
  split
  · split
    · rfl
    · rfl
  · rfl

theorem store_context_erase (s : State) (header : header_data) (size_gotten : Int) :
    (store_context s header size_gotten).erase_seq
      = (store_context s.erase_seq header size_gotten).erase_seq := by
  unfold store_context
  rw [make_context_dict_erase]
  have h2 : s.erase_seq.d_behavior = s.d_behavior := rfl
  have h3 : s.erase_seq.d_send = s.d_send := rfl
  simp only [h2]
  split
  · simp only [h3]
    split <;> rfl
  · cases hm : make_context_dict s header size_gotten with
    | runtime_error => rfl
    | value d s1 =>
      simp only [DictResult.erase_seq]
      have h4 : s1.erase_seq.d_send = s1.d_send := rfl
      simp only [h4]
      split <;> rfl

theorem sequence_check_erase (s : State) (header : header_data) (size_gotten : Int) :
    (sequence_check s header size_gotten).erase_seq = s.erase_seq := by
  rw [sequence_check_frame]
  rfl

theorem erase_seq_idem (s : State) : s.erase_seq.erase_seq = s.erase_seq := rfl

theorem body_erase (s : State) (n : Int) :
    (buffer_and_send_body s n).erase_seq = (buffer_and_send_body s.erase_seq n).erase_seq := by
  unfold buffer_and_send_body
  simp only [read_packet_erase]
  split
  · rfl
  · have hp := parse_header_erase (read_packet s).2
    simp only [hp.1]
    have e1 : (parse_header (read_packet s).2.erase_seq).2.d_stream_number
        = (parse_header (read_packet s).2).2.d_stream_number := by
      simp [State.erase_seq]
    simp only [e1]
    split
    · simp only [Step.erase_seq, hp.2]
    · have e2 : ∀ (t : State) (h : header_data) (z : Int),
          (sequence_check t h z).d_send = t.d_send := fun t h z => by simp
      have e3 : (parse_header (read_packet s).2.erase_seq).2.d_send
          = (parse_header (read_packet s).2).2.d_send := by
        simp [State.erase_seq]
      simp only [e2, e3]
      split
      · rw [send_data_erase, sequence_check_erase, ← hp.2, ← sequence_check_erase
          (parse_header (read_packet s).2.erase_seq).2 (parse_header (read_packet s).2).1
          (read_packet s).1, ← send_data_erase]
      · rw [store_context_erase, sequence_check_erase, ← hp.2, ← sequence_check_erase
          (parse_header (read_packet s).2.erase_seq).2 (parse_header (read_packet s).2).1
          (read_packet s).1, ← store_context_erase]

theorem buffer_and_send_fuel_erase (fuel : Nat) : ∀ (s t : State) (n : Int),
    s.erase_seq = t.erase_seq →
    (buffer_and_send_fuel fuel s n).erase_seq = (buffer_and_send_fuel fuel t n).erase_seq := by
  induction fuel with
  | zero => intro s t n _; rfl
  | succ k ih =>
    intro s t n hst
    simp only [buffer_and_send_fuel]
    have hb : (buffer_and_send_body s n).erase_seq = (buffer_and_send_body t n).erase_seq := by
      rw [body_erase s, body_erase t, hst]
    cases hs : buffer_and_send_body s n with
    | ret m out s1 =>
      cases ht : buffer_and_send_body t n with
      | ret m2 out2 t1 =>
        rw [hs, ht] at hb
        simp only [Step.erase_seq, Step.ret.injEq] at hb
        simp only [Outcome.erase_seq, hb]
      | recurse t1 => rw [hs, ht] at hb; simp [Step.erase_seq] at hb
      | runtime_error t1 => rw [hs, ht] at hb; simp [Step.erase_seq] at hb
    | recurse s1 =>
      cases ht : buffer_and_send_body t n with
      | ret m2 out2 t1 => rw [hs, ht] at hb; simp [Step.erase_seq] at hb
      | recurse t1 =>
        rw [hs, ht] at hb
        simp only [Step.erase_seq, Step.recurse.injEq] at hb
        exact ih s1 t1 n hb
      | runtime_error t1 => rw [hs, ht] at hb; simp [Step.erase_seq] at hb
    | runtime_error s1 =>
      cases ht : buffer_and_send_body t n with
      | ret m2 out2 t1 => rw [hs, ht] at hb; simp [Step.erase_seq] at hb
      | recurse t1 => rw [hs, ht] at hb; simp [Step.erase_seq] at hb
      | runtime_error t1 =>
        rw [hs, ht] at hb
        simp only [Step.erase_seq, Step.runtime_error.injEq] at hb
        simp only [Outcome.erase_seq, hb]

/-! ### The tags of one pass -/

theorem parse_header_tags (s : State) :
    ∃ l, (parse_header s).2.tags = s.tags ++ l ∧ tags_with_key "pck_n" l = []
      ∧ tags_with_key "context" l = [] := by
  unfold parse_header
  simp only []
  split
  · split
    · exact ⟨_, rfl, by simp [tags_with_key], by simp [tags_with_key]⟩
    · exact ⟨[], by simp, rfl, rfl⟩
  · exact ⟨[], by simp, rfl, rfl⟩

theorem make_pkt_n_dict_congr (s t : State) (h : t.d_packet_buffer = s.d_packet_buffer)
    (a b : Int) : make_pkt_n_dict t a b = make_pkt_n_dict s a b := by
  unfold make_pkt_n_dict
  rw [h]

theorem sequence_check_tags (s : State) (header : header_data) (size_gotten : Int) :
    (sequence_check s header size_gotten).tags = s.tags ++
      (if header.type = 1 ∧ (s.d_last_pkt_n = -1
            ∨ Int.tmod (s.d_last_pkt_n + 1) VITA_PKT_MOD ≠ header.pkt_n) then
        [⟨s.nitems_written, "pck_n",
          TagValue.dict (make_pkt_n_dict s header.pkt_n size_gotten)⟩]
       else []) := by
  unfold sequence_check
  simp only []
  by_cases ht : header.type = 1
  · by_cases hl : s.d_last_pkt_n = -1
    · simp [ht, hl]
    · by_cases hg : Int.tmod (s.d_last_pkt_n + 1) VITA_PKT_MOD = header.pkt_n
      · simp [ht, hl, hg]
      · simp [ht, hl, hg]
  · simp [ht]

theorem send_data_tags (s : State) (header : header_data) (size_gotten n : Int) :
    ∃ l, (send_data s header size_gotten n).state.tags = s.tags ++ l
      ∧ tags_with_key "pck_n" l = [] := by
  unfold send_data
  simp only [Step.state]
  cases s.d_context with
  | none => exact ⟨[], by simp, rfl⟩
  | some c => exact ⟨_, rfl, by simp [tags_with_key]⟩

theorem store_context_tags (s : State) (header : header_data) (size_gotten : Int) :
    (store_context s header size_gotten).state.tags = s.tags := by
  rw [store_context_frame]

theorem body_eq (s : State) (n : Int) (hsize : 0 < framed_size s)
    (hfilter : passes_stream_filter s) :
    buffer_and_send_body s n =
      if (framed_header s).type = 1 ∧ s.d_send = true then
        send_data (sequence_check (parse_header (read_packet s).2).2 (framed_header s)
          (framed_size s)) (framed_header s) (framed_size s) n
      else
        store_context (sequence_check (parse_header (read_packet s).2).2 (framed_header s)
          (framed_size s)) (framed_header s) (framed_size s) := by
  unfold buffer_and_send_body
  unfold framed_size at hsize
  unfold passes_stream_filter framed_header at hfilter
  simp only [framed_size, framed_header]
  rw [if_neg (by omega)]
  rw [if_neg (by
    simp only [parse_header_d_stream_number, read_packet_d_stream_number]
    intro h
    rcases hfilter with h1 | h1
    · exact h.1 h1
    · exact h.2 h1)]
  simp only [sequence_check_d_send, parse_header_d_send, read_packet_d_send]

theorem body_pck_n_tags (s : State) (n : Int) (hsize : 0 < framed_size s)
    (hfilter : passes_stream_filter s) :
    tags_with_key "pck_n" (new_tags s (buffer_and_send_body s n).state) =
      if (framed_header s).type = 1 ∧ (s.d_last_pkt_n = -1
          ∨ Int.tmod (s.d_last_pkt_n + 1) VITA_PKT_MOD ≠ (framed_header s).pkt_n) then
        [pck_n_tag s]
      else [] := by
  rw [body_eq s n hsize hfilter]
  obtain ⟨l1, hl1, hk1, _⟩ := parse_header_tags (read_packet s).2
  have hseq := sequence_check_tags (parse_header (read_packet s).2).2 (framed_header s)
    (framed_size s)
  simp only [parse_header_d_last_pkt_n, read_packet_d_last_pkt_n, parse_header_nitems_written,
    read_packet_nitems_written] at hseq
  rw [make_pkt_n_dict_congr (read_packet s).2 (parse_header (read_packet s).2).2
    (parse_header_d_packet_buffer _)] at hseq
  rw [hl1, read_packet_tags] at hseq
  split
  · obtain ⟨l2, hl2, hk2⟩ := send_data_tags (sequence_check (parse_header (read_packet s).2).2
      (framed_header s) (framed_size s)) (framed_header s) (framed_size s) n
    rw [hseq] at hl2
    simp only [new_tags, hl2, List.append_assoc, List.drop_left]
    simp only [tags_with_key, List.filter_append] at hk1 hk2 ⊢
    rw [hk1, hk2]
    split <;> simp [pck_n_tag]
  · have hl2 := store_context_tags (sequence_check (parse_header (read_packet s).2).2
      (framed_header s) (framed_size s)) (framed_header s) (framed_size s)
    rw [hseq] at hl2
    simp only [new_tags, hl2, List.append_assoc, List.drop_left]
    simp only [tags_with_key, List.filter_append] at hk1 ⊢
    rw [hk1]
    split <;> simp [pck_n_tag]

theorem body_data (s : State) (n : Int) (hsize : 0 < framed_size s)
    (htype : (framed_header s).type = 1) (hfilter : passes_stream_filter s)
    (hsend : s.d_send = true) :
    ∃ m out, buffer_and_send_body s n = Step.ret m out (buffer_and_send_body s n).state
      ∧ buffer_and_send s n = Outcome.returned m out (buffer_and_send_body s n).state := by
  have hb := body_eq s n hsize hfilter
  rw [if_pos ⟨htype, hsend⟩] at hb
  rw [buffer_and_send_unfold, hb]
  unfold send_data
  exact ⟨_, _, rfl, rfl⟩

theorem to_u64_pkt_n (s : State) :
    to_u64 ((framed_header s).pkt_n : Int) = (framed_header s).pkt_n := by
  have h : (framed_header s).pkt_n ≤ 15 := by
    unfold framed_header
    rw [parse_header_fst]
    exact Nat.and_le_right
  unfold to_u64
  omega

/-! ### The context branch -/

theorem sequence_check_non_data (s : State) (header : header_data) (size_gotten : Int)
    (h : header.type ≠ 1) : sequence_check s header size_gotten = s := by
  unfold sequence_check
  simp [h]

theorem body_non_data (s : State) (n : Int) (hsize : 0 < framed_size s)
    (htype : (framed_header s).type ≠ 1) (hfilter : passes_stream_filter s) :
    buffer_and_send_body s n
      = store_context (read_packet s).2 (framed_header s) (framed_size s) := by
  rw [body_eq s n hsize hfilter, if_neg (fun h => htype h.1),
    sequence_check_non_data _ _ _ htype, parse_header_non_data _ htype]

theorem body_filtered (s : State) (n : Int) (hsize : 0 < framed_size s)
    (hfilter : ¬ passes_stream_filter s) :
    buffer_and_send_body s n = Step.ret 0 [] (parse_header (read_packet s).2).2 := by
  unfold buffer_and_send_body
  unfold framed_size at hsize
  unfold passes_stream_filter framed_header at hfilter
  simp only []
  rw [if_neg (by omega)]
  rw [if_pos (by
    simp only [parse_header_d_stream_number, read_packet_d_stream_number]
    exact ⟨fun h => hfilter (Or.inl h), fun h => hfilter (Or.inr h)⟩)]

theorem make_context_dict_eq (s : State) (header : header_data) (size_gotten : Int) :
    make_context_dict s header size_gotten =
      if size_gotten ≠ 44 ∧ ((size_gotten ≠ 72 ∧ size_gotten ≠ 108)
          ∨ r_bit_depth (decode_context s header size_gotten).1 ≠ s.d_unpack_idx_size * 8) then
        (if s.d_behavior = throw_exe then DictResult.runtime_error
         else DictResult.value none
          { s with d_send := decide (s.d_behavior = warnings_forward) })
      else DictResult.value (some (decode_context s header size_gotten).2)
        { s with d_send := true } := by
  unfold make_context_dict
  simp only []
  have e : (size_gotten ≠ 44 ∧ (r_bit_depth (decode_context s header size_gotten).1
        ≠ s.d_unpack_idx_size * 8 ∨ (size_gotten ≠ 108 ∧ size_gotten ≠ 72)))
      ↔ (size_gotten ≠ 44 ∧ ((size_gotten ≠ 72 ∧ size_gotten ≠ 108)
          ∨ r_bit_depth (decode_context s header size_gotten).1 ≠ s.d_unpack_idx_size * 8)) := by
    tauto
  simp only [e]

theorem store_context_value (s : State) (header : header_data) (size_gotten : Int)
    (d : Option PmtDict) (s1 : State) (hb : s.d_behavior ≠ ignore)
    (hm : make_context_dict s header size_gotten = DictResult.value d s1) :
    store_context s header size_gotten =
      if s1.d_send = true then Step.recurse { s1 with d_context := d }
      else Step.ret 0 [] { s1 with d_context := d } := by
  unfold store_context
  rw [if_neg hb, hm]

theorem store_context_error (s : State) (header : header_data) (size_gotten : Int)
    (hb : s.d_behavior ≠ ignore)
    (hm : make_context_dict s header size_gotten = DictResult.runtime_error) :
    store_context s header size_gotten = Step.runtime_error s := by
  unfold store_context
  rw [if_neg hb, hm]

theorem store_context_ignore (s : State) (header : header_data) (size_gotten : Int)
    (hb : s.d_behavior = ignore) :
    store_context s header size_gotten =
      if s.d_send = true then Step.recurse { s with d_context := none }
      else Step.ret 0 [] { s with d_context := none } := by
  unfold store_context
  rw [if_pos hb]

theorem send_data_transport (s : State) (header : header_data) (size_gotten n : Int) :
    (send_data s header size_gotten n).state.transport = s.transport := by
  unfold send_data
  simp only [Step.state]
  cases s.d_context <;> rfl

theorem store_context_cases (s : State) (header : header_data) (size_gotten : Int) :
    ∃ s1, s1.transport = s.transport
      ∧ ((store_context s header size_gotten = Step.runtime_error s1
            ∧ s.d_behavior = throw_exe)
        ∨ (store_context s header size_gotten = Step.ret 0 [] s1 ∧ s1.d_send = false)
        ∨ (store_context s header size_gotten = Step.recurse s1 ∧ s1.d_send = true)) := by
  by_cases hb : s.d_behavior = ignore
  · rw [store_context_ignore _ _ _ hb]
    by_cases hs : s.d_send = true
    · rw [if_pos hs]
      exact ⟨{ s with d_context := none }, rfl, Or.inr (Or.inr ⟨rfl, hs⟩)⟩
    · rw [if_neg hs]
      exact ⟨{ s with d_context := none }, rfl, Or.inr (Or.inl ⟨rfl, by simpa using hs⟩)⟩
  · cases hm : make_context_dict s header size_gotten with
    | runtime_error =>
      rw [store_context_error _ _ _ hb hm]
      refine ⟨s, rfl, Or.inl ⟨rfl, ?_⟩⟩
      rw [make_context_dict_eq] at hm
      by_contra hne
      rw [if_neg hne] at hm
      split at hm <;> cases hm
    | value d s2 =>
      rw [store_context_value _ _ _ _ _ hb hm]
      have hf := make_context_dict_frame _ _ _ _ _ hm
      have ht : s2.transport = s.transport := by rw [hf]
      by_cases hs : s2.d_send = true
      · rw [if_pos hs]
        exact ⟨{ s2 with d_context := d }, ht, Or.inr (Or.inr ⟨rfl, hs⟩)⟩
      · rw [if_neg hs]
        exact ⟨{ s2 with d_context := d }, ht, Or.inr (Or.inl ⟨rfl, by simpa using hs⟩)⟩

/-! ### The sample loop -/

theorem unpack_loop_count (s : State) (a b : Nat) (hsz : 1 ≤ s.d_unpack_idx_size) :
    ∀ (fuel i idx : Nat) (out : List Sample),
      b ≤ idx + 2 * s.d_unpack_idx_size * fuel →
      (unpack_loop s a b fuel i idx out).1
        = i + min (a - i)
            ((b - idx + (2 * s.d_unpack_idx_size - 1)) / (2 * s.d_unpack_idx_size)) := by
  generalize hd : 2 * s.d_unpack_idx_size = d
  have hd2 : 2 ≤ d := by omega
  intro fuel
  induction fuel with
  | zero =>
    intro i idx out h
    have h0 : b - idx = 0 := by omega
    simp only [unpack_loop, h0, Nat.zero_add]
    rw [Nat.div_eq_of_lt (by omega)]
    simp
  | succ k ih =>
    intro i idx out h
    simp only [unpack_loop]
    by_cases hg : i < a ∧ idx < b
    · rw [if_pos hg, hd, ih (i + 1) (idx + d) _ (by rw [Nat.mul_succ] at h; omega)]
      by_cases hlt : b - idx < d
      · have e1 : b - (idx + d) = 0 := by omega
        have e2 : (b - idx + (d - 1)) / d = 1 := by
          have : b - idx + (d - 1) = (b - idx - 1) + d := by omega
          rw [this, Nat.add_div_right _ (by omega), Nat.div_eq_of_lt (by omega)]
        rw [e1, e2, Nat.zero_add, Nat.div_eq_of_lt (by omega)]
        omega
      · have e2 : b - idx + (d - 1) = (b - (idx + d) + (d - 1)) + d := by omega
        rw [e2, Nat.add_div_right _ (by omega)]
        omega
    · rw [if_neg hg]
      by_cases h1 : i < a
      · have h2 : b - idx = 0 := by
          have : ¬ idx < b := fun h3 => hg ⟨h1, h3⟩
          omega
        rw [h2, Nat.zero_add, Nat.div_eq_of_lt (by omega)]
        simp
      · have : a - i = 0 := by omega
        rw [this]
        simp

theorem unpack_loop_length (s : State) (a b : Nat) :
    ∀ (fuel i idx : Nat) (out : List Sample),
      (unpack_loop s a b fuel i idx out).2.length
        = out.length + ((unpack_loop s a b fuel i idx out).1 - i)
      ∧ i ≤ (unpack_loop s a b fuel i idx out).1 := by
  intro fuel
  induction fuel with
  | zero => intro i idx out; simp [unpack_loop]
  | succ k ih =>
    intro i idx out
    simp only [unpack_loop]
    split
    · have h := ih (i + 1) (idx + 2 * s.d_unpack_idx_size) (out ++ [s.d_unpacker idx])
      rw [h.1]
      simp only [List.length_append, List.length_singleton]
      omega
    · simp

theorem unpack_loop_result (t : State) (a b : Nat) (hsz : 1 ≤ t.d_unpack_idx_size) :
    (unpack_loop t a b b 0 DATA_START_IDX []).1
        = min a ((b - 28 + (2 * t.d_unpack_idx_size - 1)) / (2 * t.d_unpack_idx_size))
    ∧ (unpack_loop t a b b 0 DATA_START_IDX []).2.length
        = min a ((b - 28 + (2 * t.d_unpack_idx_size - 1)) / (2 * t.d_unpack_idx_size)) := by
  have hfuel : b ≤ DATA_START_IDX + 2 * t.d_unpack_idx_size * b := by
    have := Nat.le_mul_of_pos_left b (show 0 < 2 * t.d_unpack_idx_size by omega)
    omega
  have h1 := unpack_loop_count t a b hsz b 0 DATA_START_IDX [] hfuel
  have h2 := (unpack_loop_length t a b b 0 DATA_START_IDX []).1
  simp only [DATA_START_IDX, Nat.zero_add, Nat.sub_zero, List.length_nil] at h1 h2 ⊢
  rw [h2, h1]
  exact ⟨rfl, rfl⟩

theorem send_data_eq (s : State) (header : header_data) (size_gotten n : Int) :
    send_data s header size_gotten n
      = Step.ret
          (unpack_loop s (to_u32 (min (Int.tdiv (size_gotten - DATA_START_IDX) 2) n))
            (to_u32 size_gotten) (to_u32 size_gotten) 0 DATA_START_IDX []).1
          (unpack_loop s (to_u32 (min (Int.tdiv (size_gotten - DATA_START_IDX) 2) n))
            (to_u32 size_gotten) (to_u32 size_gotten) 0 DATA_START_IDX []).2
          (send_data s header size_gotten n).state := by
  unfold send_data
  simp only [Step.state]
  cases s.d_context with
  | none =>
    simp only []
    congr 1
    · congr 2
      apply unpack_loop_congr <;> rfl
    · congr 1
      apply unpack_loop_congr <;> rfl
  | some c =>
    simp only []
    congr 1
    · congr 2
      apply unpack_loop_congr <;> rfl
    · congr 1
      apply unpack_loop_congr <;> rfl

theorem send_data_count (s : State) (header : header_data) (L N : Int)
    (hL : 28 ≤ L) (hL2 : L < 2 ^ 32) (hN : 0 ≤ N) (hN2 : N < 2 ^ 32)
    (hsz : 1 ≤ s.d_unpack_idx_size) :
    ∃ out s1, send_data s header L N
        = Step.ret ((min (min ((L.toNat - 28) / 2) N.toNat)
            ((L.toNat - 28 + (2 * s.d_unpack_idx_size - 1)) / (2 * s.d_unpack_idx_size)) : Nat))
          out s1
      ∧ out.length = min (min ((L.toNat - 28) / 2) N.toNat)
            ((L.toNat - 28 + (2 * s.d_unpack_idx_size - 1)) / (2 * s.d_unpack_idx_size)) := by
  have e1 : to_u32 L = L.toNat := by unfold to_u32; omega
  have e0 : Int.tdiv (L - (DATA_START_IDX : Nat)) 2 = (L - 28) / 2 := by
    unfold DATA_START_IDX
    rw [Int.tdiv_eq_ediv (by omega) (by omega)]
    rfl
  have e2 : to_u32 (min (Int.tdiv (L - (DATA_START_IDX : Nat)) 2) N)
      = min ((L.toNat - 28) / 2) N.toNat := by
    rw [e0]
    unfold to_u32
    omega
  have key := unpack_loop_result s (min ((L.toNat - 28) / 2) N.toNat) L.toNat hsz
  rw [send_data_eq, e1, e2, key.1]
  exact ⟨_, _, rfl, key.2⟩

/-- The number of samples a data packet yields while `d_send` holds: the loop of lines
178-184 runs until `out_items` samples are stored or `idx` has reached `size_gotten`. -/
theorem data_packet_count (s : State) (n : Int) (hsize : 28 ≤ framed_size s)
    (hsize2 : framed_size s < 2 ^ 31) (hn : 0 ≤ n) (hn2 : n < 2 ^ 31)
    (htype : (framed_header s).type = 1) (hfilter : passes_stream_filter s)
    (hsend : s.d_send = true) (hsz : 1 ≤ s.d_unpack_idx_size) :
    ∃ out s1, buffer_and_send s n
        = Outcome.returned ((min (min (((framed_size s).toNat - 28) / 2) n.toNat)
            (((framed_size s).toNat - 28 + (2 * s.d_unpack_idx_size - 1))
              / (2 * s.d_unpack_idx_size)) : Nat)) out s1
      ∧ out.length = min (min (((framed_size s).toNat - 28) / 2) n.toNat)
            (((framed_size s).toNat - 28 + (2 * s.d_unpack_idx_size - 1))
              / (2 * s.d_unpack_idx_size)) := by
  have hb := body_eq s n (by omega) hfilter
  rw [if_pos ⟨htype, hsend⟩] at hb
  obtain ⟨out, s1, h1, h2⟩ := send_data_count
    (sequence_check (parse_header (read_packet s).2).2 (framed_header s) (framed_size s))
    (framed_header s) (framed_size s) n hsize (by omega) hn (by omega) (by simpa using hsz)
  simp only [sequence_check_d_unpack_idx_size, parse_header_d_unpack_idx_size,
    read_packet_d_unpack_idx_size] at h1 h2
  rw [h1] at hb
  exact ⟨out, s1, by rw [buffer_and_send_unfold, hb], h2⟩

/-- In 8-bit mode a data packet of length L yields min(N, floor((L - 28) / 2)) samples. -/
theorem data_packet_count_8bit (s : State) (n : Int) (hsize : 28 ≤ framed_size s)
    (hsize2 : framed_size s < 2 ^ 31) (hn : 0 ≤ n) (hn2 : n < 2 ^ 31)
    (htype : (framed_header s).type = 1) (hfilter : passes_stream_filter s)
    (hsend : s.d_send = true) (hsz : s.d_unpack_idx_size = 1) :
    ∃ out s1, buffer_and_send s n
        = Outcome.returned (min n ((framed_size s - 28) / (2 * 1))) out s1
      ∧ (out.length : Int) = min n ((framed_size s - 28) / (2 * 1)) := by
  obtain ⟨out, s1, h1, h2⟩ := data_packet_count s n hsize hsize2 hn hn2 htype hfilter hsend
    (by omega)
  rw [hsz] at h1 h2
  have e : ((min (min (((framed_size s).toNat - 28) / 2) n.toNat)
      (((framed_size s).toNat - 28 + (2 * 1 - 1)) / (2 * 1)) : Nat) : Int)
      = min n ((framed_size s - 28) / (2 * 1)) := by
    omega
  rw [e] at h1
  exact ⟨out, s1, h1, by rw [h2, e]⟩

theorem body_ignore (s : State) (n : Int) (hsize : 0 < framed_size s)
    (htype : (framed_header s).type ≠ 1) (hfilter : passes_stream_filter s)
    (hb : s.d_behavior = ignore) :
    (buffer_and_send_body s n).state = { (read_packet s).2 with d_context := none }
    ∧ (buffer_and_send_body s n).state.d_send = s.d_send
    ∧ (s.d_send = true →
        buffer_and_send_body s n = Step.recurse { (read_packet s).2 with d_context := none })
    ∧ (s.d_send = false →
        buffer_and_send_body s n = Step.ret 0 [] { (read_packet s).2 with d_context := none }) := by
  have hb2 : (read_packet s).2.d_behavior = ignore := by rw [read_packet_d_behavior]; exact hb
  have hbody := body_non_data s n hsize htype hfilter
  rw [store_context_ignore _ _ _ hb2] at hbody
  have hs2 : (read_packet s).2.d_send = s.d_send := read_packet_d_send s
  cases hs : s.d_send with
  | true =>
    rw [if_pos (by rw [hs2]; exact hs)] at hbody
    rw [hbody]
    refine ⟨rfl, ?_, fun _ => rfl, fun h => Bool.noConfusion h⟩
    simp [Step.state, hs]
  | false =>
    rw [if_neg (by rw [hs2, hs]; decide)] at hbody
    rw [hbody]
    refine ⟨rfl, ?_, fun h => Bool.noConfusion h, fun _ => rfl⟩
    simp [Step.state, hs]

theorem body_abort (s : State) (n : Int) (hsize : 0 < framed_size s)
    (htype : (framed_header s).type ≠ 1) (hfilter : passes_stream_filter s)
    (hb : s.d_behavior = throw_exe) :
    ((∃ s1, buffer_and_send_body s n = Step.runtime_error s1)
      ↔ (framed_size s ≠ 44 ∧ ((framed_size s ≠ 72 ∧ framed_size s ≠ 108)
          ∨ (((decode_context (read_packet s).2 (framed_header s)
                (framed_size s)).1.payload_format >>> 32) &&& 0x1f) + 1
              ≠ s.d_unpack_idx_size * 8)))
    ∧ ∀ s1, buffer_and_send_body s n = Step.runtime_error s1 →
        buffer_and_send s n = Outcome.runtime_error s1
        ∧ new_tags s s1 = [] ∧ s1.d_send = s.d_send ∧ s1.d_context = s.d_context := by
  have hm := make_context_dict_eq (read_packet s).2 (framed_header s) (framed_size s)
  have hb2 : (read_packet s).2.d_behavior = throw_exe := by rw [read_packet_d_behavior]; exact hb
  have hb3 : (read_packet s).2.d_behavior ≠ ignore := by rw [hb2]; decide
  have hbody := body_non_data s n hsize htype hfilter
  rw [read_packet_d_unpack_idx_size] at hm
  have hr : r_bit_depth (decode_context (read_packet s).2 (framed_header s) (framed_size s)).1
      = (((decode_context (read_packet s).2 (framed_header s) (framed_size s)).1.payload_format
              >>> 32) &&& 0x1f) + 1 := rfl
  rw [hr] at hm
  by_cases hc : framed_size s ≠ 44 ∧ ((framed_size s ≠ 72 ∧ framed_size s ≠ 108)
          ∨ (((decode_context (read_packet s).2 (framed_header s)
                (framed_size s)).1.payload_format >>> 32) &&& 0x1f) + 1
              ≠ s.d_unpack_idx_size * 8)
  · rw [if_pos hc, if_pos hb2] at hm
    have hbody2 : buffer_and_send_body s n = Step.runtime_error (read_packet s).2 := by
      rw [hbody, store_context_error _ _ _ hb3 hm]
    constructor
    · exact ⟨fun _ => hc, fun _ => ⟨_, hbody2⟩⟩
    · intro s1 h1
      rw [hbody2] at h1
      cases h1
      refine ⟨?_, ?_, ?_, ?_⟩
      · rw [buffer_and_send_unfold, hbody2]
      · simp [new_tags]
      · simp
      · simp
  · rw [if_neg hc] at hm
    have hbody2 := hbody
    rw [store_context_value _ _ _ _ _ hb3 hm] at hbody2
    constructor
    · constructor
      · rintro ⟨s1, h1⟩
        rw [hbody2] at h1
        split at h1 <;> cases h1
      · intro h
        exact absurd h hc
    · intro s1 h1
      rw [hbody2] at h1
      split at h1 <;> cases h1

/-- Under the default policy a packet of another type than 1 that fails the validation ends
the call: it returns 0, with `d_send` false and no pending dictionary. -/
theorem warn_drop_pauses (s : State) (n : Int) (hsize : 0 < framed_size s)
    (htype : (framed_header s).type ≠ 1) (hfilter : passes_stream_filter s)
    (hb : s.d_behavior = warnings_no_forward) (h44 : framed_size s ≠ 44)
    (hfail : (framed_size s ≠ 72 ∧ framed_size s ≠ 108)
      ∨ (((decode_context (read_packet s).2 (framed_header s)
            (framed_size s)).1.payload_format >>> 32) &&& 0x1f) + 1
          ≠ s.d_unpack_idx_size * 8) :
    buffer_and_send s n
      = Outcome.returned 0 [] { (read_packet s).2 with d_send := false, d_context := none } := by
  have hm := make_context_dict_eq (read_packet s).2 (framed_header s) (framed_size s)
  have hb2 : (read_packet s).2.d_behavior = warnings_no_forward := by
    rw [read_packet_d_behavior]; exact hb
  have hb3 : (read_packet s).2.d_behavior ≠ ignore := by rw [hb2]; decide
  have hb4 : (read_packet s).2.d_behavior ≠ throw_exe := by rw [hb2]; decide
  have hd : decide ((read_packet s).2.d_behavior = warnings_forward) = false := by
    rw [hb2]
    rfl
  rw [if_pos (by
    rw [read_packet_d_unpack_idx_size]
    exact ⟨h44, hfail⟩), if_neg hb4, hd] at hm
  rw [buffer_and_send_unfold, body_non_data s n hsize htype hfilter,
    store_context_value _ _ _ _ _ hb3 hm]
  rfl

/-- Under the default policy, while `d_send` is false, a data packet whose length is none of
44, 72, 108 yields no sample and leaves `d_send` false. -/
theorem paused_data_packet (s : State) (n : Int) (hsize : 0 < framed_size s)
    (hfilter : passes_stream_filter s) (hb : s.d_behavior = warnings_no_forward)
    (hsend : s.d_send = false)
    (hlen : framed_size s ≠ 44 ∧ framed_size s ≠ 72 ∧ framed_size s ≠ 108) :
    ∃ s1, buffer_and_send s n = Outcome.returned 0 [] s1 ∧ s1.d_send = false
      ∧ s1.d_context = none := by
  have hbody := body_eq s n hsize hfilter
  rw [if_neg (by rw [hsend]; simp)] at hbody
  have hm := make_context_dict_eq
    (sequence_check (parse_header (read_packet s).2).2 (framed_header s) (framed_size s))
    (framed_header s) (framed_size s)
  have hb2 : (sequence_check (parse_header (read_packet s).2).2 (framed_header s)
      (framed_size s)).d_behavior = warnings_no_forward := by
    simp only [sequence_check_d_behavior, parse_header_d_behavior, read_packet_d_behavior]
    exact hb
  have hb3 : (sequence_check (parse_header (read_packet s).2).2 (framed_header s)
      (framed_size s)).d_behavior ≠ ignore := by rw [hb2]; decide
  have hb4 : (sequence_check (parse_header (read_packet s).2).2 (framed_header s)
      (framed_size s)).d_behavior ≠ throw_exe := by rw [hb2]; decide
  have hd : decide ((sequence_check (parse_header (read_packet s).2).2 (framed_header s)
      (framed_size s)).d_behavior = warnings_forward) = false := by
    rw [hb2]
    rfl
  rw [if_pos ⟨hlen.1, Or.inl hlen.2⟩, if_neg hb4, hd] at hm
  rw [buffer_and_send_unfold, hbody, store_context_value _ _ _ _ _ hb3 hm]
  exact ⟨_, rfl, rfl, rfl⟩

/-! ### A packet the stream filter drops -/

/-- A packet that the stream filter drops ends the call with 0 samples; `d_last_pkt_n`,
`d_send` and `d_context` are unchanged, and for a packet of another type than 1 only the
packet buffer and the transport have changed. -/
theorem filtered_packet (s : State) (n : Int) (hsize : 0 < framed_size s)
    (hfilter : ¬ passes_stream_filter s) :
    buffer_and_send s n = Outcome.returned 0 [] (parse_header (read_packet s).2).2
    ∧ (parse_header (read_packet s).2).2.d_last_pkt_n = s.d_last_pkt_n
    ∧ (parse_header (read_packet s).2).2.d_send = s.d_send
    ∧ (parse_header (read_packet s).2).2.d_context = s.d_context
    ∧ ((framed_header s).type ≠ 1 →
        (parse_header (read_packet s).2).2 = (read_packet s).2
        ∧ (read_packet s).2.tags = s.tags
        ∧ (read_packet s).2.d_static_bits = s.d_static_bits
        ∧ (read_packet s).2.d_last_full = s.d_last_full
        ∧ (read_packet s).2.d_last_frac = s.d_last_frac) := by
  refine ⟨?_, by simp, by simp, by simp, ?_⟩
  · rw [buffer_and_send_unfold, body_filtered s n hsize hfilter]
  · intro htype
    exact ⟨parse_header_non_data _ htype, by simp, by simp, by simp, by simp⟩

/-! ### A call that finds no data -/

theorem read_script_bytes_nil (script : List ReadResult) (len : Nat)
    (h : (read_script script len).ret ≤ 0) : (read_script script len).bytes = [] := by
  cases script with
  | nil => rfl
  | cons r rest =>
    cases r with
    | error => rfl
    | data bytes =>
      simp only [read_script] at h ⊢
      have : (List.take len bytes).length = 0 := by omega
      exact List.length_eq_zero.mp this

theorem read_script_ret_ge (script : List ReadResult) (len : Nat) :
    -1 ≤ (read_script script len).ret := by
  cases script with
  | nil => simp [read_script]
  | cons r rest =>
    cases r with
    | error => simp [read_script]
    | data bytes => simp only [read_script]; omega

theorem write_at_nil (buf : List Nat) : write_at buf 0 [] = buf := by
  simp [write_at]

theorem read_packet_idle_buffer (s : State) (h : framed_size s ≤ 0) :
    (read_packet s).2.d_packet_buffer = s.d_packet_buffer := by
  unfold framed_size at h
  unfold read_packet at h ⊢
  cases ht : s.transport with
  | udp script =>
    simp only [ht] at h ⊢
    rw [read_script_bytes_nil _ _ h, write_at_nil]
  | tcp c script =>
    simp only [ht] at h ⊢
    by_cases hc : c = true
    · simp only [hc, if_true] at h ⊢
      by_cases h4 : (read_script script NUM_BYTES_PER_WORD).ret = (NUM_BYTES_PER_WORD : Int)
      · simp only [h4, if_true] at h
        exfalso
        split at h
        · have := read_script_ret_ge (read_script script NUM_BYTES_PER_WORD).rest
            (NUM_BYTES_PER_WORD * ((unpack_u32 (write_at s.d_packet_buffer 0
              (read_script script NUM_BYTES_PER_WORD).bytes) 0 &&& 0xffff : Nat) : Int)
              - NUM_BYTES_PER_WORD).toNat
          simp only [NUM_BYTES_PER_WORD] at h this
          omega
        · simp [NUM_BYTES_PER_WORD] at h
      · simp only [h4, if_false] at h ⊢
        rw [read_script_bytes_nil _ _ h, write_at_nil]
    · simp [hc]

/-- A call that finds no data returns 0 and changes no member; only the transport has seen a
`read`. -/
theorem idle_call (s : State) (n : Int) (h : framed_size s ≤ 0) :
    buffer_and_send_body s n
      = Step.ret 0 [] { s with transport := (read_packet s).2.transport }
    ∧ buffer_and_send s n
      = Outcome.returned 0 [] { s with transport := (read_packet s).2.transport } := by
  have hb : buffer_and_send_body s n
      = Step.ret 0 [] { s with transport := (read_packet s).2.transport } := by
    have h1 : (read_packet s).2 = { s with transport := (read_packet s).2.transport } := by
      have h3 := read_packet_frame s
      rw [read_packet_idle_buffer s h] at h3
      exact h3
    unfold buffer_and_send_body
    simp only []
    rw [if_pos (show (read_packet s).1 ≤ 0 from h)]
    exact congrArg (Step.ret 0 []) h1
  exact ⟨hb, by rw [buffer_and_send_unfold, hb]⟩

theorem run_calls_idle (k : Nat) : ∀ (s : State) (n : Int),
    (∀ j, j < k → framed_size (run_calls j s n) ≤ 0) →
    run_calls k s n = { s with transport := (run_calls k s n).transport } := by
  induction k with
  | zero => intro s n _; rfl
  | succ k ih =>
    intro s n h
    have h0 : framed_size s ≤ 0 := h 0 (Nat.succ_pos k)
    have hstep : run_calls (k + 1) s n
        = run_calls k { s with transport := (read_packet s).2.transport } n := by
      simp only [run_calls, work, (idle_call s n h0).2]
      rfl
    have hj : ∀ j, j < k →
        framed_size (run_calls j { s with transport := (read_packet s).2.transport } n) ≤ 0 := by
      intro j hjk
      have := h (j + 1) (by omega)
      simp only [run_calls, work, (idle_call s n h0).2] at this
      exact this
    rw [hstep]
    have := ih { s with transport := (read_packet s).2.transport } n hj
    rw [this]

theorem framed_size_no_peer (s : State) (script : List ReadResult)
    (h : s.transport = Transport.tcp false script) : framed_size s = -1 := by
  unfold framed_size read_packet
  rw [h]
  rfl

/-! ### The static bits and the latched timestamp -/

theorem and_static_mask_mod (x : Nat) : (x &&& 0xfff00000) % 2 ^ 20 = 0 := by
  apply Nat.eq_of_testBit_eq
  intro i
  rw [Nat.testBit_mod_two_pow, Nat.testBit_and, Nat.zero_testBit]
  by_cases hi : i < 20
  · have hm : Nat.testBit 0xfff00000 i = false := by
      have e : (0xfff00000 : Nat) = 2 ^ 20 * 4095 := by norm_num
      rw [e, Nat.testBit_mul_pow_two]
      simp
      omega
    simp [hm]
  · simp [hi]

theorem and_static_mask_lt (x : Nat) : x &&& 0xfff00000 < 2 ^ 32 :=
  lt_of_le_of_lt Nat.and_le_right (by norm_num)

theorem static_part_ne_neg_one (x : Nat) : to_int32 (x &&& 0xfff00000) ≠ -1 := by
  have h1 := and_static_mask_mod x
  have h2 := and_static_mask_lt x
  unfold to_int32
  split <;> omega

theorem parse_header_data (s : State) (h : (parse_header s).1.type = 1) :
    (parse_header s).2.tags = s.tags ++
        (if s.d_static_bits ≠ to_int32 (unpack_u32 s.d_packet_buffer 0 &&& 0xfff00000) then
          [⟨s.nitems_written, "static_change", TagValue.value (Pmt.from_uint64
            (to_u64 (to_int32 (unpack_u32 s.d_packet_buffer 0 &&& 0xfff00000))))⟩]
         else [])
    ∧ (parse_header s).2.d_static_bits
        = to_int32 (unpack_u32 s.d_packet_buffer 0 &&& 0xfff00000)
    ∧ (parse_header s).2.d_last_full = unpack_u32 s.d_packet_buffer 16
    ∧ (parse_header s).2.d_last_frac = unpack_u64 s.d_packet_buffer 20 := by
  rw [parse_header_fst] at h
  unfold parse_header
  simp only [] at h ⊢
  rw [if_pos h]
  by_cases hs : s.d_static_bits = to_int32 (unpack_u32 s.d_packet_buffer 0 &&& 0xfff00000)
  · simp [hs]
  · simp [hs]

theorem framed_header_header (s : State) :
    (framed_header s).header = unpack_u32 (read_packet s).2.d_packet_buffer 0 := by
  unfold framed_header
  rw [parse_header_fst]

/-- The fields only `parse_header` writes are, after a pass that framed a packet, what
`parse_header` left, and the tags of the pass behind those of `parse_header` carry other keys
than `static_change`. -/
theorem body_after_parse (s : State) (n : Int) (hsize : 0 < framed_size s) :
    (buffer_and_send_body s n).state.d_static_bits
        = (parse_header (read_packet s).2).2.d_static_bits
    ∧ (buffer_and_send_body s n).state.d_last_full
        = (parse_header (read_packet s).2).2.d_last_full
    ∧ (buffer_and_send_body s n).state.d_last_frac
        = (parse_header (read_packet s).2).2.d_last_frac
    ∧ ∃ l, (buffer_and_send_body s n).state.tags = (parse_header (read_packet s).2).2.tags ++ l
        ∧ tags_with_key "static_change" l = [] := by
  by_cases hfilter : passes_stream_filter s
  · rw [body_eq s n hsize hfilter]
    have hseq := sequence_check_tags (parse_header (read_packet s).2).2 (framed_header s)
      (framed_size s)
    have hk : tags_with_key "static_change"
        (if (framed_header s).type = 1 ∧ ((parse_header (read_packet s).2).2.d_last_pkt_n = -1
            ∨ Int.tmod ((parse_header (read_packet s).2).2.d_last_pkt_n + 1) VITA_PKT_MOD
              ≠ (framed_header s).pkt_n) then
          [(⟨(parse_header (read_packet s).2).2.nitems_written, "pck_n",
            TagValue.dict (make_pkt_n_dict (parse_header (read_packet s).2).2
              (framed_header s).pkt_n (framed_size s))⟩ : Tag)]
         else []) = [] := by
      split <;> simp [tags_with_key]
    obtain ⟨l1, hl1, hk1⟩ : ∃ l1, (sequence_check (parse_header (read_packet s).2).2
        (framed_header s) (framed_size s)).tags = (parse_header (read_packet s).2).2.tags ++ l1
        ∧ tags_with_key "static_change" l1 = [] := ⟨_, hseq, hk⟩
    split
    · unfold send_data
      simp only [Step.state]
      cases hc : (sequence_check (parse_header (read_packet s).2).2 (framed_header s)
          (framed_size s)).d_context with
      | none =>
        simp only []
        exact ⟨by simp, by simp, by simp, l1, hl1, hk1⟩
      | some c =>
        simp only []
        refine ⟨by simp, by simp, by simp, l1 ++ [⟨(sequence_check
          (parse_header (read_packet s).2).2 (framed_header s) (framed_size s)).nitems_written
          + (sequence_check (parse_header (read_packet s).2).2 (framed_header s)
            (framed_size s)).d_deque_size, "context", TagValue.dict c⟩], ?_, ?_⟩
        · rw [hl1, List.append_assoc]
        · simp only [tags_with_key, List.filter_append] at hk1 ⊢
          rw [hk1]
          simp
    · have hf := store_context_frame (sequence_check (parse_header (read_packet s).2).2
        (framed_header s) (framed_size s)) (framed_header s) (framed_size s)
      rw [hf]
      exact ⟨by simp, by simp, by simp, l1, hl1, hk1⟩
  · rw [body_filtered s n hsize hfilter]
    exact ⟨rfl, rfl, rfl, [], by simp [Step.state], rfl⟩

theorem body_static_change (s : State) (n : Int) (hsize : 0 < framed_size s)
    (htype : (framed_header s).type = 1) :
    tags_with_key "static_change" (new_tags s (buffer_and_send_body s n).state)
        = (if s.d_static_bits ≠ to_int32 ((framed_header s).header &&& 0xfff00000) then
            [⟨s.nitems_written, "static_change", TagValue.value (Pmt.from_uint64
              (to_u64 (to_int32 ((framed_header s).header &&& 0xfff00000))))⟩]
           else [])
    ∧ (buffer_and_send_body s n).state.d_static_bits
        = to_int32 ((framed_header s).header &&& 0xfff00000) := by
  obtain ⟨h1, _, _, l, hl, hk⟩ := body_after_parse s n hsize
  have hp := parse_header_data (read_packet s).2 htype
  rw [framed_header_header]
  constructor
  · unfold new_tags
    rw [hl, hp.1]
    simp only [read_packet_tags, read_packet_d_static_bits, read_packet_nitems_written,
      List.append_assoc, List.drop_left]
    simp only [tags_with_key, List.filter_append] at hk ⊢
    rw [hk]
    split <;> simp
  · rw [h1, hp.2.1]

/-- A data packet handled while `d_send` holds sets `d_last_pkt_n` to its number. -/
theorem data_packet_sets_last_pkt_n (s : State) (n : Int) (hsize : 0 < framed_size s)
    (htype : (framed_header s).type = 1) (hfilter : passes_stream_filter s)
    (hsend : s.d_send = true) :
    ∃ m out s1, buffer_and_send s n = Outcome.returned m out s1
      ∧ s1.d_last_pkt_n = (framed_header s).pkt_n := by
  have hb := body_eq s n hsize hfilter
  rw [if_pos ⟨htype, hsend⟩] at hb
  rw [buffer_and_send_unfold, hb]
  unfold send_data
  simp only []
  split <;> exact ⟨_, _, _, rfl, rfl⟩

/-! ### Big-endian decoding -/

theorem byte_at_lt (buf : List Nat) (i : Nat) : byte_at buf i < 256 := by
  unfold byte_at
  omega

theorem unpack_u32_lt (buf : List Nat) (i : Nat) : unpack_u32 buf i < 2 ^ 32 := by
  have h0 := byte_at_lt buf i
  have h1 := byte_at_lt buf (i + 1)
  have h2 := byte_at_lt buf (i + 2)
  have h3 := byte_at_lt buf (i + 3)
  unfold unpack_u32
  omega

theorem unpack_u64_lt (buf : List Nat) (i : Nat) : unpack_u64 buf i < 2 ^ 64 := by
  have h0 := unpack_u32_lt buf i
  have h1 := unpack_u32_lt buf (i + 4)
  unfold unpack_u64
  omega

theorem byte_at_eq_getD (buf : List Nat) (i : Nat) (h : i < buf.length)
    (hb : ∀ b ∈ buf, b < 256) : byte_at buf i = buf.getD i 0 := by
  unfold byte_at
  apply Nat.mod_eq_of_lt
  rw [List.getD_eq_getElem _ _ h]
  exact hb _ (List.getElem_mem h)

theorem big_endian_at_four (buf : List Nat) (i : Nat) :
    big_endian_at buf i 4
      = buf.getD i 0 * 2 ^ 24 + buf.getD (i + 1) 0 * 2 ^ 16 + buf.getD (i + 2) 0 * 2 ^ 8
        + buf.getD (i + 3) 0 := by
  have e : big_endian_at buf i 4
      = (((0 * 256 + buf.getD (i + 0) 0) * 256 + buf.getD (i + 1) 0) * 256
          + buf.getD (i + 2) 0) * 256 + buf.getD (i + 3) 0 := rfl
  rw [e, Nat.add_zero]
  omega

theorem big_endian_at_eight (buf : List Nat) (i : Nat) :
    big_endian_at buf i 8 = big_endian_at buf i 4 * 2 ^ 32 + big_endian_at buf (i + 4) 4 := by
  have e : big_endian_at buf i 8
      = (((((((0 * 256 + buf.getD (i + 0) 0) * 256 + buf.getD (i + 1) 0) * 256
          + buf.getD (i + 2) 0) * 256 + buf.getD (i + 3) 0) * 256 + buf.getD (i + 4) 0) * 256
          + buf.getD (i + 5) 0) * 256 + buf.getD (i + 6) 0) * 256 + buf.getD (i + 7) 0 := rfl
  rw [e, big_endian_at_four, big_endian_at_four]
  simp only [Nat.add_assoc, Nat.add_zero]
  norm_num
  omega

theorem unpack_u32_eq_big_endian (buf : List Nat) (i : Nat) (h : i + 4 ≤ buf.length)
    (hb : ∀ b ∈ buf, b < 256) : unpack_u32 buf i = big_endian_at buf i 4 := by
  rw [big_endian_at_four]
  unfold unpack_u32
  rw [byte_at_eq_getD buf i (by omega) hb, byte_at_eq_getD buf (i + 1) (by omega) hb,
    byte_at_eq_getD buf (i + 2) (by omega) hb, byte_at_eq_getD buf (i + 3) (by omega) hb]

theorem unpack_u64_eq_big_endian (buf : List Nat) (i : Nat) (h : i + 8 ≤ buf.length)
    (hb : ∀ b ∈ buf, b < 256) : unpack_u64 buf i = big_endian_at buf i 8 := by
  rw [big_endian_at_eight, ← unpack_u32_eq_big_endian buf i (by omega) hb,
    ← unpack_u32_eq_big_endian buf (i + 4) (by omega) hb]
  rfl

theorem header_type_bits (w : Nat) (h : w < 2 ^ 32) :
    w >>> 28 = w / 2 ^ 28 % 2 ^ 4 ∧ (w >>> 16) &&& 0xf = w / 2 ^ 16 % 2 ^ 4 := by
  constructor
  · rw [Nat.shiftRight_eq_div_pow]
    omega
  · rw [Nat.shiftRight_eq_div_pow]
    exact Nat.and_pow_two_sub_one_eq_mod _ 4

/-! ### The latched timestamp -/

theorem context_dict_alt_timestamp (s : State) (header : header_data) (context : context_packet)
    (size_gotten : Int) :
    dict_ref (context_dict_alt s header context size_gotten) "full"
        = some (Pmt.from_long s.d_last_full)
    ∧ dict_ref (context_dict_alt s header context size_gotten) "frac"
        = some (Pmt.from_uint64 s.d_last_frac) := by
  constructor <;> rfl

theorem body_latch (s : State) (n : Int) :
    ((buffer_and_send_body s n).state.d_last_full, (buffer_and_send_body s n).state.d_last_frac)
      = if 0 < framed_size s ∧ (framed_header s).type = 1 then
          (unpack_u32 (read_packet s).2.d_packet_buffer 16,
            unpack_u64 (read_packet s).2.d_packet_buffer 20)
        else (s.d_last_full, s.d_last_frac) := by
  by_cases hsize : 0 < framed_size s
  · obtain ⟨_, h2, h3, _⟩ := body_after_parse s n hsize
    rw [h2, h3]
    by_cases htype : (framed_header s).type = 1
    · rw [if_pos ⟨hsize, htype⟩]
      have hp := parse_header_data (read_packet s).2 htype
      rw [hp.2.2.1, hp.2.2.2]
    · rw [if_neg (fun h => htype h.2), parse_header_non_data _ htype]
      simp
  · rw [if_neg (fun h => hsize h.1), (idle_call s n (by omega)).1]
    rfl

theorem body_delivers (s : State) (n : Int) (hsize : 0 < framed_size s)
    (htype : (framed_header s).type ≠ 1) (hfilter : passes_stream_filter s)
    (hb : s.d_behavior ≠ ignore) (hlen : framed_size s = 72 ∨ framed_size s = 108)
    (hdepth : (((decode_context (read_packet s).2 (framed_header s)
          (framed_size s)).1.payload_format >>> 32) &&& 0x1f) + 1 = s.d_unpack_idx_size * 8) :
    buffer_and_send_body s n = Step.recurse { (read_packet s).2 with
        d_send := true
        d_context := some (decode_context (read_packet s).2 (framed_header s)
          (framed_size s)).2 } := by
  have hm := make_context_dict_eq (read_packet s).2 (framed_header s) (framed_size s)
  have hb2 : (read_packet s).2.d_behavior ≠ ignore := by simpa using hb
  rw [if_neg (by
    rw [read_packet_d_unpack_idx_size]
    intro h
    rcases h.2 with h1 | h1
    · omega
    · exact h1 hdepth)] at hm
  rw [body_non_data s n hsize htype hfilter, store_context_value _ _ _ _ _ hb2 hm]
  rfl

/-! ### Framing on the TCP transport -/

theorem write_at_length (buf bytes : List Nat) (off : Nat) :
    (write_at buf off bytes).length = buf.length := by
  unfold write_at
  simp only [List.length_append, List.length_take, List.length_drop]
  omega

theorem read_packet_buffer_length (s : State) :
    (read_packet s).2.d_packet_buffer.length = s.d_packet_buffer.length := by
  unfold read_packet
  cases s.transport with
  | udp script => exact write_at_length _ _ _
  | tcp c script =>
    simp only []
    split
    · split
      · split
        · simp only [write_at_length]
        · exact write_at_length _ _ _
      · exact write_at_length _ _ _
    · rfl

theorem write_at_getD_inside (buf bytes : List Nat) (off i : Nat)
    (hfit : off + bytes.length ≤ buf.length) (hi : i < bytes.length) :
    (write_at buf off bytes).getD (off + i) 0 = bytes.getD i 0 := by
  unfold write_at
  have hoff : off ≤ buf.length := by omega
  rw [List.take_of_length_le (show bytes.length ≤ buf.length - off by omega)]
  have h1 : (List.take off buf).length = off := by
    rw [List.length_take]; omega
  rw [List.append_assoc, List.getD_eq_getElem?_getD, List.getD_eq_getElem?_getD,
    List.getElem?_append_right (by omega), h1, Nat.add_sub_cancel_left,
    List.getElem?_append_left hi]

theorem write_at_getD_before (buf bytes : List Nat) (off i : Nat) (hoff : off ≤ buf.length)
    (hi : i < off) :
    (write_at buf off bytes).getD i 0 = buf.getD i 0 := by
  unfold write_at
  have h1 : (List.take off buf).length = off := by
    rw [List.length_take]; omega
  rw [List.append_assoc, List.getD_eq_getElem?_getD, List.getD_eq_getElem?_getD,
    List.getElem?_append_left (by omega), List.getElem?_take_of_lt hi]

theorem unpack_u32_congr (buf buf2 : List Nat) (i : Nat)
    (h : ∀ k, k < 4 → buf2.getD (i + k) 0 = buf.getD (i + k) 0) :
    unpack_u32 buf2 i = unpack_u32 buf i := by
  unfold unpack_u32 byte_at
  have h0 := h 0 (by omega)
  have h1 := h 1 (by omega)
  have h2 := h 2 (by omega)
  have h3 := h 3 (by omega)
  rw [Nat.add_zero] at h0
  rw [h0, h1, h2, h3]

theorem read_header_word (s : State) (hdr : List Nat) (hhdr : 4 ≤ hdr.length)
    (hbuf : 4 ≤ s.d_packet_buffer.length) :
    unpack_u32 (write_at s.d_packet_buffer 0 (hdr.take 4)) 0 = unpack_u32 hdr 0 := by
  apply unpack_u32_congr
  intro k hk
  have hl : (hdr.take 4).length = 4 := by rw [List.length_take]; omega
  rw [write_at_getD_inside _ _ 0 k (by omega) (by omega), Nat.zero_add,
    List.getD_eq_getElem?_getD, List.getD_eq_getElem?_getD, List.getElem?_take_of_lt hk]

theorem read_packet_tcp (s : State) (hdr : List Nat) (script : List ReadResult)
    (ht : s.transport = Transport.tcp true (ReadResult.data hdr :: script))
    (hhdr : 4 ≤ hdr.length) (hbuf : 4 ≤ s.d_packet_buffer.length) :
    read_packet s =
      if 2 ≤ (unpack_u32 hdr 0 &&& 0xffff) then
        (4 + (read_script script (4 * (unpack_u32 hdr 0 &&& 0xffff) - 4)).ret,
          { s with
            d_packet_buffer := write_at (write_at s.d_packet_buffer 0 (hdr.take 4)) 4
              (read_script script (4 * (unpack_u32 hdr 0 &&& 0xffff) - 4)).bytes
            transport := Transport.tcp true
              (read_script script (4 * (unpack_u32 hdr 0 &&& 0xffff) - 4)).rest })
      else
        (4, { s with
          d_packet_buffer := write_at s.d_packet_buffer 0 (hdr.take 4)
          transport := Transport.tcp true script }) := by
  have hl : (hdr.take 4).length = 4 := by rw [List.length_take]; omega
  unfold read_packet
  rw [ht]
  simp only [if_true, read_script, NUM_BYTES_PER_WORD, hl, Nat.cast_ofNat,
    read_header_word s hdr hhdr hbuf]
  by_cases hw : 2 ≤ (unpack_u32 hdr 0 &&& 0xffff)
  · have e : ((4 : Int) * ((unpack_u32 hdr 0 &&& 0xffff : Nat) : Int) - 4).toNat
        = 4 * (unpack_u32 hdr 0 &&& 0xffff) - 4 := by omega
    rw [if_pos hw, if_pos (by omega), e]
  · rw [if_neg hw, if_neg (by omega)]

/-! ### Fixed-point gains -/

theorem to_int16_low_half (g : Nat) : to_int16 (0xffff &&& g) = signed16 (g % 2 ^ 16) := by
  have e : 0xffff &&& g = g % 2 ^ 16 := by
    rw [Nat.and_comm]
    exact Nat.and_pow_two_sub_one_eq_mod g 16
  rw [e]
  unfold to_int16 signed16
  rw [Nat.mod_mod]

theorem to_int16_high_half (g : Nat) (h : g < 2 ^ 32) :
    to_int16 (g >>> 16) = signed16 (g / 2 ^ 16) := by
  rw [Nat.shiftRight_eq_div_pow]
  unfold to_int16 signed16
  rw [Nat.mod_eq_of_lt (by omega)]

/-! ### The policy state machine -/

theorem store_context_send (s : State) (header : header_data) (size_gotten : Int)
    (h : s.d_send = true) (hne : s.d_behavior ≠ warnings_no_forward) :
    (store_context s header size_gotten).state.d_send = true := by
  by_cases hb : s.d_behavior = ignore
  · rw [store_context_ignore _ _ _ hb]
    split <;> exact h
  · have hm := make_context_dict_eq s header size_gotten
    by_cases hc : size_gotten ≠ 44 ∧ ((size_gotten ≠ 72 ∧ size_gotten ≠ 108)
        ∨ r_bit_depth (decode_context s header size_gotten).1 ≠ s.d_unpack_idx_size * 8)
    · rw [if_pos hc] at hm
      by_cases ht : s.d_behavior = throw_exe
      · rw [if_pos ht] at hm
        rw [store_context_error _ _ _ hb hm]
        exact h
      · rw [if_neg ht] at hm
        have hwf : s.d_behavior = warnings_forward := by
          cases hbeh : s.d_behavior with
          | ignore => exact absurd hbeh hb
          | throw_exe => exact absurd hbeh ht
          | warnings_forward => rfl
          | warnings_no_forward => exact absurd hbeh hne
        rw [store_context_value _ _ _ _ _ hb hm]
        have hd : decide (s.d_behavior = warnings_forward) = true := by
          rw [hwf]
          rfl
        simp only [hd, if_true, Step.state]
    · rw [if_neg hc] at hm
      rw [store_context_value _ _ _ _ _ hb hm]
      simp only [if_true, Step.state]

theorem body_keeps_send (s : State) (n : Int)
    (h : s.d_behavior ≠ warnings_no_forward → s.d_send = true) :
    (buffer_and_send_body s n).state.d_behavior = s.d_behavior
    ∧ ((buffer_and_send_body s n).state.d_behavior ≠ warnings_no_forward →
        (buffer_and_send_body s n).state.d_send = true) := by
  by_cases hsize : 0 < framed_size s
  · by_cases hfilter : passes_stream_filter s
    · rw [body_eq s n hsize hfilter]
      split
      · unfold send_data
        simp only [Step.state]
        split
        · simp only [sequence_check_d_behavior, sequence_check_d_send, parse_header_d_behavior,
            parse_header_d_send, read_packet_d_behavior, read_packet_d_send]
          exact ⟨trivial, h⟩
        · simp only [sequence_check_d_behavior, sequence_check_d_send, parse_header_d_behavior,
            parse_header_d_send, read_packet_d_behavior, read_packet_d_send]
          exact ⟨trivial, h⟩
      · obtain ⟨s1, _, hc⟩ := store_context_cases
          (sequence_check (parse_header (read_packet s).2).2 (framed_header s) (framed_size s))
          (framed_header s) (framed_size s)
        have hf := store_context_frame
          (sequence_check (parse_header (read_packet s).2).2 (framed_header s) (framed_size s))
          (framed_header s) (framed_size s)
        have hbeh : (store_context (sequence_check (parse_header (read_packet s).2).2
            (framed_header s) (framed_size s)) (framed_header s)
            (framed_size s)).state.d_behavior = s.d_behavior := by
          rw [hf]
          simp
        refine ⟨hbeh, ?_⟩
        rw [hbeh]
        intro hne
        exact store_context_send _ _ _ (by simpa using h hne) (by simpa using hne)
    · rw [body_filtered s n hsize hfilter]
      simp only [Step.state, parse_header_d_behavior, parse_header_d_send,
        read_packet_d_behavior, read_packet_d_send]
      exact ⟨trivial, h⟩
  · rw [(idle_call s n (by omega)).1]
    exact ⟨rfl, h⟩

theorem buffer_and_send_fuel_keeps_send (fuel : Nat) : ∀ (s : State) (n : Int) (s1 : State),
    (s.d_behavior ≠ warnings_no_forward → s.d_send = true) →
    ((∃ m out, buffer_and_send_fuel fuel s n = Outcome.returned m out s1)
      ∨ buffer_and_send_fuel fuel s n = Outcome.runtime_error s1) →
    s1.d_behavior = s.d_behavior ∧ (s1.d_behavior ≠ warnings_no_forward → s1.d_send = true) := by
  induction fuel with
  | zero =>
    intro s n s1 _ h
    rcases h with ⟨m, out, h⟩ | h <;> cases h
  | succ k ih =>
    intro s n s1 hinv h
    have hb := body_keeps_send s n hinv
    simp only [buffer_and_send_fuel] at h
    cases hs : buffer_and_send_body s n with
    | ret m2 out2 s2 =>
      rw [hs] at h hb
      rcases h with ⟨m, out, h⟩ | h <;> cases h
      exact hb
    | recurse s2 =>
      rw [hs] at h hb
      simp only [Step.state] at hb
      have := ih s2 n s1 hb.2 h
      exact ⟨this.1.trans hb.1, this.2⟩
    | runtime_error s2 =>
      rw [hs] at h hb
      rcases h with ⟨m, out, h⟩ | h <;> cases h
      exact hb

theorem reachable_send (s : State) (h : Reachable s) :
    s.d_behavior ≠ warnings_no_forward → s.d_send = true := by
  induction h with
  | constructed => intro _; rfl
  | returned s n m out s1 _ hw ih =>
    exact (buffer_and_send_fuel_keeps_send _ s n s1 ih (Or.inl ⟨m, out, hw⟩)).2
  | raised s n s1 _ hw ih =>
    exact (buffer_and_send_fuel_keeps_send _ s n s1 ih (Or.inr hw)).2
  | host s k _ ih => exact ih

theorem reachable_run_calls (k : Nat) : ∀ (s : State) (n : Int), Reachable s →
    Reachable (run_calls k s n) := by
  induction k with
  | zero => intro s n h; exact h
  | succ k ih =>
    intro s n h
    simp only [run_calls]
    cases hw : work s n with
    | returned m out s1 =>
      exact ih _ n (Reachable.host s1 _ (Reachable.returned s n m out s1 h hw))
    | runtime_error s1 => exact Reachable.raised s n s1 h hw
    | out_of_fuel => exact h

/-! ## The claims -/

/-- C1 (defect of the code).  The claim: a data packet of length L >= 28 that passes the
stream filter while `d_send` holds yields min(N, floor((L - 28) / (2 * b))) samples, so a
trailing incomplete I/Q pair never yields a sample.  The code bounds the loop of lines 178-184
by `(size_gotten - 28) / 2` and by `idx < size_gotten`, not by the number of whole pairs.  In
16-bit mode (b = 2) a 30-byte data packet, whose payload is the two bytes 1, 2 (half a pair),
with N = 1 makes `buffer_and_send` return 1 sample, (258, 0), built from these two bytes and
the two stale buffer bytes behind the packet; the formula of the claim gives 0. -/
theorem c1_trailing_half_pair_is_unpacked :
    framed_size (example_state 16 warnings_no_forward [example_data_packet 0 [1, 2]]) = 30
    ∧ (framed_header (example_state 16 warnings_no_forward [example_data_packet 0 [1, 2]])).type = 1
    ∧ Outcome.samples
        (buffer_and_send (example_state 16 warnings_no_forward [example_data_packet 0 [1, 2]]) 1)
      = some (1, [(258, 0)])
    ∧ min (1 : Int) ((30 - 28) / (2 * 2)) = 0 := by
  decide

/-- C2.  For a data packet that passes the stream filter while `d_last_pkt_n` holds the number
of an earlier data packet (0 <= d_last_pkt_n), the pass through `buffer_and_send` adds a
`pck_n` tag if and only if (d_last_pkt_n + 1) mod 16 differs from the packet number, and then
exactly one; while `d_send` holds the call ends with this pass; and the count and the samples
the call returns are the same for every other value of `d_last_pkt_n`, so a gap changes
nothing in the samples. -/
theorem c2_sequence_gap_event (s : State) (n : Int) (hsize : 0 < framed_size s)
    (htype : (framed_header s).type = 1) (hfilter : passes_stream_filter s)
    (hlast : 0 ≤ s.d_last_pkt_n) :
    tags_with_key "pck_n" (new_tags s (buffer_and_send_body s n).state)
        = (if (s.d_last_pkt_n + 1) % 16 ≠ (framed_header s).pkt_n then [pck_n_tag s] else [])
    ∧ (s.d_send = true → ∃ m out,
        buffer_and_send s n = Outcome.returned m out (buffer_and_send_body s n).state)
    ∧ ∀ l : Int, Outcome.samples (buffer_and_send { s with d_last_pkt_n := l } n)
        = Outcome.samples (buffer_and_send s n) := by
  refine ⟨?_, ?_, ?_⟩
  · rw [body_pck_n_tags s n hsize hfilter]
    have h1 : Int.tmod (s.d_last_pkt_n + 1) VITA_PKT_MOD = (s.d_last_pkt_n + 1) % 16 := by
      unfold VITA_PKT_MOD
      rw [Int.tmod_eq_emod (by omega) (by omega)]
    have h2 : s.d_last_pkt_n ≠ -1 := by omega
    simp only [htype, h1, h2, true_and, false_or]
  · intro hsend
    obtain ⟨m, out, _, h⟩ := body_data s n hsize htype hfilter hsend
    exact ⟨m, out, h⟩
  · intro l
    have h := buffer_and_send_fuel_erase (s.transport.pending + 1)
      { s with d_last_pkt_n := l } s n rfl
    have e : buffer_and_send { s with d_last_pkt_n := l } n
        = buffer_and_send_fuel (s.transport.pending + 1) { s with d_last_pkt_n := l } n := rfl
    rw [e]
    unfold buffer_and_send
    revert h
    cases buffer_and_send_fuel (s.transport.pending + 1) { s with d_last_pkt_n := l } n <;>
      cases buffer_and_send_fuel (s.transport.pending + 1) s n <;>
      simp [Outcome.erase_seq, Outcome.samples]
    intro h1 h2 _
    exact ⟨h1, h2⟩

/-- C2, witness.  The stream 0, 1, 2, 4 from a fresh block: in the state after the packets
0, 1, 2 the fourth packet gets exactly one `pck_n` tag; over the three calls after the first
one that is the only `pck_n` tag, it sits at item 6 and carries the number 4, and all 8
samples are delivered; in the stream 15, 0 the second packet gets none. -/
theorem c2_sequence_gap_event_witness :
    (0 < framed_size (run_calls 3 example_stream_0124 10)
      ∧ (framed_header (run_calls 3 example_stream_0124 10)).type = 1
      ∧ passes_stream_filter (run_calls 3 example_stream_0124 10)
      ∧ (run_calls 3 example_stream_0124 10).d_last_pkt_n = 2
      ∧ (framed_header (run_calls 3 example_stream_0124 10)).pkt_n = 4)
    ∧ tags_with_key "pck_n" (new_tags (run_calls 3 example_stream_0124 10)
        (buffer_and_send_body (run_calls 3 example_stream_0124 10) 10).state)
      = [pck_n_tag (run_calls 3 example_stream_0124 10)]
    ∧ (∀ l : Int, Outcome.samples
          (buffer_and_send { run_calls 3 example_stream_0124 10 with d_last_pkt_n := l } 10)
        = Outcome.samples (buffer_and_send (run_calls 3 example_stream_0124 10) 10))
    ∧ tags_with_key "pck_n" (new_tags (run_calls 1 example_stream_0124 10)
        (run_calls 4 example_stream_0124 10))
      = [⟨6, "pck_n", TagValue.dict [("pck_n", Pmt.from_uint64 4),
          ("data_len", Pmt.from_uint64 32), ("full", Pmt.from_long 5),
          ("frac", Pmt.from_uint64 9)]⟩]
    ∧ (run_calls 4 example_stream_0124 10).nitems_written = 8
    ∧ tags_with_key "pck_n" (new_tags (run_calls 1 example_stream_15_0 10)
        (run_calls 2 example_stream_15_0 10)) = [] := by
  have h := c2_sequence_gap_event (run_calls 3 example_stream_0124 10) 10 (by decide)
    (by decide) (by decide) (by decide)
  have h1 := h.1
  rw [if_pos (by decide)] at h1
  exact ⟨by decide, h1, h.2.2, by decide, by decide, by decide⟩

/-- C3.  When no data packet has been seen (`d_last_pkt_n = -1`), the pass through
`buffer_and_send` for a data packet that passes the stream filter adds exactly one `pck_n`
tag; its dictionary holds the packet number, the byte length `size_gotten` and the timestamp
words at bytes [16:20] and [20:28] of the packet; while `d_send` holds (as in the state the
constructor builds) the call ends with this pass. -/
theorem c3_first_data_packet_event (s : State) (n : Int) (hsize : 0 < framed_size s)
    (htype : (framed_header s).type = 1) (hfilter : passes_stream_filter s)
    (hlast : s.d_last_pkt_n = -1) :
    tags_with_key "pck_n" (new_tags s (buffer_and_send_body s n).state) = [pck_n_tag s]
    ∧ pck_n_tag s = ⟨s.nitems_written, "pck_n", TagValue.dict
        [("pck_n", Pmt.from_uint64 (framed_header s).pkt_n),
         ("data_len", Pmt.from_uint64 (to_u64 (framed_size s))),
         ("full", Pmt.from_long (unpack_u32 (read_packet s).2.d_packet_buffer 16)),
         ("frac", Pmt.from_uint64 (unpack_u64 (read_packet s).2.d_packet_buffer 20))]⟩
    ∧ (s.d_send = true → ∃ m out,
        buffer_and_send s n = Outcome.returned m out (buffer_and_send_body s n).state) := by
  refine ⟨?_, ?_, ?_⟩
  · rw [body_pck_n_tags s n hsize hfilter]
    simp only [htype, hlast, true_or, and_self, if_true]
  · simp only [pck_n_tag, make_pkt_n_dict, make_dict, dict_add, to_u64_pkt_n, List.nil_append,
      List.cons_append]
  · intro hsend
    obtain ⟨m, out, _, h⟩ := body_data s n hsize htype hfilter hsend
    exact ⟨m, out, h⟩

/-- C3, witness.  The first data packet of a fresh block: one `pck_n` tag with the packet
number 0, the length 32 and the timestamp (5, 9), and the call returns after this pass. -/
theorem c3_first_data_packet_event_witness :
    (0 < framed_size example_stream_0124 ∧ (framed_header example_stream_0124).type = 1
      ∧ passes_stream_filter example_stream_0124 ∧ example_stream_0124.d_last_pkt_n = -1
      ∧ example_stream_0124.d_send = true)
    ∧ tags_with_key "pck_n" (new_tags example_stream_0124
        (buffer_and_send_body example_stream_0124 10).state) = [pck_n_tag example_stream_0124]
    ∧ pck_n_tag example_stream_0124 = ⟨0, "pck_n", TagValue.dict
        [("pck_n", Pmt.from_uint64 0), ("data_len", Pmt.from_uint64 32),
         ("full", Pmt.from_long 5), ("frac", Pmt.from_uint64 9)]⟩
    ∧ ∃ m out, buffer_and_send example_stream_0124 10
        = Outcome.returned m out (buffer_and_send_body example_stream_0124 10).state :=
  have h := c3_first_data_packet_event example_stream_0124 10 (by decide) (by decide)
    (by decide) (by decide)
  ⟨by decide, h.1, by decide, h.2.2 (by decide)⟩

/-- C4, counterexample.  A paused block with the stream filter set to 8 receives, under the
default policy, a 72-byte packet of type 4 that declares the configured 8 bits but carries
the stream number 7.  The validation condition does not fail, yet the packet is dropped by
the test of line 151 before `make_context_dict` is reached: the call returns 0, `d_context`
stays empty and `d_send` stays false. -/
theorem c4_filtered_packet_counterexample :
    framed_size example_filtered_context = 72
    ∧ (framed_header example_filtered_context).type ≠ 1
    ∧ example_filtered_context.d_behavior ≠ ignore
    ∧ (((decode_context (read_packet example_filtered_context).2
          (framed_header example_filtered_context) 72).1.payload_format >>> 32) &&& 0x1f) + 1
        = example_filtered_context.d_unpack_idx_size * 8
    ∧ DictResult.failed (make_context_dict (read_packet example_filtered_context).2
        (framed_header example_filtered_context) (framed_size example_filtered_context)) = false
    ∧ ¬ passes_stream_filter example_filtered_context
    ∧ ∃ s1, buffer_and_send example_filtered_context 10 = Outcome.returned 0 [] s1
        ∧ s1.d_send = false ∧ s1.d_context = none := by
  refine ⟨by decide, by decide, by decide, by decide, by decide, by decide, _, rfl, by decide,
    by decide⟩

/-- C4, amended.  For a packet whose length is not 44, `make_context_dict` takes its failure
branch (lines 284-296) if and only if the length is neither 72 nor 108 or
((payload_format >> 32) & 0x1f) + 1 differs from `d_unpack_idx_size * 8`, the configured bit
depth.  When it does not, and the packet is not a data packet, passes the stream filter and
arrives under a policy other than `ignore`, the pass through `buffer_and_send` stores the
decoded dictionary (that of the 72-byte or of the 108-byte layout) in `d_context` and sets
`d_send` to true, whatever `d_send` was before. -/
theorem c4_bit_depth_validation (s : State) (n : Int) (h44 : framed_size s ≠ 44) :
    (DictResult.failed (make_context_dict (read_packet s).2 (framed_header s) (framed_size s))
        = true
      ↔ ((framed_size s ≠ 72 ∧ framed_size s ≠ 108)
        ∨ (((decode_context (read_packet s).2 (framed_header s) (framed_size s)).1.payload_format
              >>> 32) &&& 0x1f) + 1 ≠ s.d_unpack_idx_size * 8))
    ∧ (0 < framed_size s → (framed_header s).type ≠ 1 → passes_stream_filter s →
      s.d_behavior ≠ ignore →
      DictResult.failed (make_context_dict (read_packet s).2 (framed_header s) (framed_size s))
        = false →
      buffer_and_send_body s n = Step.recurse { (read_packet s).2 with
          d_send := true
          d_context := some (decode_context (read_packet s).2 (framed_header s)
            (framed_size s)).2 }
      ∧ (framed_size s = 72 →
          (decode_context (read_packet s).2 (framed_header s) (framed_size s)).2
            = context_dict_alt (read_packet s).2 (framed_header s)
                (unpack_context_alt (read_packet s).2 s.indeterminate_context) 72)
      ∧ (framed_size s = 108 →
          (decode_context (read_packet s).2 (framed_header s) (framed_size s)).2
            = context_dict_full (read_packet s).2 (framed_header s)
                (unpack_context (read_packet s).2 s.indeterminate_context) 108)) := by
  have hm := make_context_dict_eq (read_packet s).2 (framed_header s) (framed_size s)
  have hcond : (framed_size s ≠ 44 ∧ ((framed_size s ≠ 72 ∧ framed_size s ≠ 108)
        ∨ r_bit_depth (decode_context (read_packet s).2 (framed_header s) (framed_size s)).1
          ≠ (read_packet s).2.d_unpack_idx_size * 8))
      ↔ ((framed_size s ≠ 72 ∧ framed_size s ≠ 108)
        ∨ (((decode_context (read_packet s).2 (framed_header s) (framed_size s)).1.payload_format
              >>> 32) &&& 0x1f) + 1 ≠ s.d_unpack_idx_size * 8) := by
    rw [read_packet_d_unpack_idx_size]
    unfold r_bit_depth
    constructor
    · intro h; exact h.2
    · intro h; exact ⟨h44, h⟩
  by_cases hc : (framed_size s ≠ 72 ∧ framed_size s ≠ 108)
        ∨ (((decode_context (read_packet s).2 (framed_header s) (framed_size s)).1.payload_format
              >>> 32) &&& 0x1f) + 1 ≠ s.d_unpack_idx_size * 8
  · rw [if_pos (hcond.2 hc)] at hm
    have hf : DictResult.failed
        (make_context_dict (read_packet s).2 (framed_header s) (framed_size s)) = true := by
      rw [hm]
      split <;> rfl
    constructor
    · exact ⟨fun _ => hc, fun _ => hf⟩
    · intro _ _ _ _ h
      rw [hf] at h
      cases h
  · rw [if_neg (fun h => hc (hcond.1 h))] at hm
    have hf : DictResult.failed
        (make_context_dict (read_packet s).2 (framed_header s) (framed_size s)) = false := by
      rw [hm]
      rfl
    constructor
    · rw [hf]
      exact ⟨fun h => Bool.noConfusion h, fun h => absurd h hc⟩
    · intro hsize htype hfilter hb _
      have hb2 : (read_packet s).2.d_behavior ≠ ignore := by simpa using hb
      refine ⟨?_, ?_, ?_⟩
      · rw [body_non_data s n hsize htype hfilter, store_context_value _ _ _ _ _ hb2 hm]
        rfl
      · intro h72
        unfold decode_context
        simp [h72]
      · intro h108
        unfold decode_context
        simp [h108]

/-- C4, witness.  A paused block (`d_send` false, default policy, 8-bit mode) receives a
72-byte context packet that declares 8 bits: the validation does not fail, the pass ends
with the decoded dictionary in `d_context` and with `d_send` true. -/
theorem c4_bit_depth_validation_witness :
    (0 < framed_size
        (example_paused (example_state 8 warnings_no_forward [example_context_72 8]))
      ∧ (framed_header
        (example_paused (example_state 8 warnings_no_forward [example_context_72 8]))).type ≠ 1
      ∧ passes_stream_filter
        (example_paused (example_state 8 warnings_no_forward [example_context_72 8]))
      ∧ framed_size
        (example_paused (example_state 8 warnings_no_forward [example_context_72 8])) = 72
      ∧ (example_paused (example_state 8 warnings_no_forward [example_context_72 8])).d_behavior
        ≠ ignore
      ∧ (example_paused (example_state 8 warnings_no_forward [example_context_72 8])).d_send
        = false)
    ∧ DictResult.failed (make_context_dict
        (read_packet
          (example_paused (example_state 8 warnings_no_forward [example_context_72 8]))).2
        (framed_header
          (example_paused (example_state 8 warnings_no_forward [example_context_72 8])))
        (framed_size
          (example_paused (example_state 8 warnings_no_forward [example_context_72 8]))))
      = false
    ∧ buffer_and_send_body
          (example_paused (example_state 8 warnings_no_forward [example_context_72 8])) 10
        = Step.recurse { (read_packet
            (example_paused (example_state 8 warnings_no_forward [example_context_72 8]))).2 with
          d_send := true
          d_context := some (decode_context
            (read_packet
              (example_paused (example_state 8 warnings_no_forward [example_context_72 8]))).2
            (framed_header
              (example_paused (example_state 8 warnings_no_forward [example_context_72 8])))
            (framed_size
              (example_paused
                (example_state 8 warnings_no_forward [example_context_72 8])))).2 } :=
  ⟨by decide, by decide,
    ((c4_bit_depth_validation
      (example_paused (example_state 8 warnings_no_forward [example_context_72 8])) 10
      (by decide)).2 (by decide) (by decide) (by decide) (by decide) (by decide)).1⟩

/-- C5, counterexample.  Policy `warnings_forward`, 8-bit mode, one 72-byte context packet
that declares 16 bits: after the call `d_send` is true, not false, and `d_context` is `NULL`,
so no record is delivered. -/
theorem c5_warn_forward_counterexample :
    framed_size (example_state 8 warnings_forward [example_context_72 16]) = 72
    ∧ (framed_header (example_state 8 warnings_forward [example_context_72 16])).type ≠ 1
    ∧ r_bit_depth (decode_context
          (read_packet (example_state 8 warnings_forward [example_context_72 16])).2
          (framed_header (example_state 8 warnings_forward [example_context_72 16])) 72).1 = 16
    ∧ (example_state 8 warnings_forward [example_context_72 16]).d_unpack_idx_size * 8 = 8
    ∧ ∃ s1, buffer_and_send (example_state 8 warnings_forward [example_context_72 16]) 10
          = Outcome.returned 0 [] s1
        ∧ s1.d_send = true ∧ s1.d_context = none := by
  refine ⟨by decide, by decide, by decide, by decide, _, rfl, by decide, by decide⟩

/-- C5, amended.  Under policy `warnings_forward`, for a 72- or 108-byte packet that is not a
data packet, passes the stream filter and declares a bit depth other than the configured
one, the pass through `buffer_and_send` leaves `d_send` true and `d_context` empty (no record
is delivered), and the call goes on with the next packet from that state. -/
theorem c5_warn_forward_mismatch (s : State) (n : Int) (hsize : 0 < framed_size s)
    (htype : (framed_header s).type ≠ 1) (hfilter : passes_stream_filter s)
    (hb : s.d_behavior = warnings_forward)
    (hlen : framed_size s = 72 ∨ framed_size s = 108)
    (hdepth : (((decode_context (read_packet s).2 (framed_header s)
          (framed_size s)).1.payload_format >>> 32) &&& 0x1f) + 1 ≠ s.d_unpack_idx_size * 8) :
    buffer_and_send_body s n
        = Step.recurse { (read_packet s).2 with d_send := true, d_context := none }
    ∧ buffer_and_send s n
        = buffer_and_send { (read_packet s).2 with d_send := true, d_context := none } n := by
  have hm := make_context_dict_eq (read_packet s).2 (framed_header s) (framed_size s)
  have hb2 : (read_packet s).2.d_behavior = warnings_forward := by simpa using hb
  have hb3 : (read_packet s).2.d_behavior ≠ ignore := by rw [hb2]; decide
  have hb4 : (read_packet s).2.d_behavior ≠ throw_exe := by rw [hb2]; decide
  have hd : decide ((read_packet s).2.d_behavior = warnings_forward) = true := by
    rw [hb2]
    rfl
  rw [if_pos (by
    rw [read_packet_d_unpack_idx_size]
    refine ⟨by omega, Or.inr ?_⟩
    exact hdepth), if_neg hb4, hd] at hm
  have hbody : buffer_and_send_body s n
      = Step.recurse { (read_packet s).2 with d_send := true, d_context := none } := by
    rw [body_non_data s n hsize htype hfilter, store_context_value _ _ _ _ _ hb3 hm]
    rfl
  refine ⟨hbody, ?_⟩
  rw [buffer_and_send_unfold, hbody]

/-- C5, witness.  Policy `warnings_forward`, 8-bit mode, a 108-byte context packet that
declares 16 bits. -/
theorem c5_warn_forward_mismatch_witness :
    (0 < framed_size (example_state 8 warnings_forward [example_context_108 16])
      ∧ (framed_header (example_state 8 warnings_forward [example_context_108 16])).type ≠ 1
      ∧ passes_stream_filter (example_state 8 warnings_forward [example_context_108 16])
      ∧ framed_size (example_state 8 warnings_forward [example_context_108 16]) = 108
      ∧ r_bit_depth (decode_context
          (read_packet (example_state 8 warnings_forward [example_context_108 16])).2
          (framed_header (example_state 8 warnings_forward [example_context_108 16]))
          (framed_size (example_state 8 warnings_forward [example_context_108 16]))).1 = 16)
    ∧ buffer_and_send_body (example_state 8 warnings_forward [example_context_108 16]) 10
        = Step.recurse { (read_packet
            (example_state 8 warnings_forward [example_context_108 16])).2 with
          d_send := true, d_context := none }
    ∧ buffer_and_send (example_state 8 warnings_forward [example_context_108 16]) 10
        = buffer_and_send { (read_packet
            (example_state 8 warnings_forward [example_context_108 16])).2 with
          d_send := true, d_context := none } 10 :=
  ⟨by decide,
    c5_warn_forward_mismatch (example_state 8 warnings_forward [example_context_108 16]) 10
      (by decide) (by decide) (by decide) (by decide) (by decide) (by decide)⟩

/-- C6 (defect of the code).  The claim: under the default policy a packet that fails the
bit-depth validation switches the output off, and every later data packet yields zero samples
until a context packet passes the validation.  Default policy, 8-bit mode, datagrams: a
50-byte packet of type 4, a 44-byte data packet, a 32-byte data packet.  The first call
returns 0 with `d_send` false and no pending dictionary, as claimed.  The second call reads
the 44-byte data packet; because `d_send` is false the `else` branch of line 187 hands it to
`make_context_dict`, which for length 44 sets `d_send` to true; the call recurses, reads the
third packet, a data packet, and returns its 2 samples, although no context packet has passed
the validation. -/
theorem c6_data_packet_resumes_output :
    framed_size example_paused_stream = 50
    ∧ (framed_header example_paused_stream).type ≠ 1
    ∧ (∃ s1, buffer_and_send example_paused_stream 10 = Outcome.returned 0 [] s1
        ∧ s1.d_send = false ∧ s1.d_context = none)
    ∧ (framed_header (run_calls 1 example_paused_stream 10)).type = 1
    ∧ framed_size (run_calls 1 example_paused_stream 10) = 44
    ∧ (buffer_and_send_body (run_calls 1 example_paused_stream 10) 10).state.d_send = true
    ∧ (framed_header (buffer_and_send_body (run_calls 1 example_paused_stream 10) 10).state).type
        = 1
    ∧ Outcome.samples (buffer_and_send (run_calls 1 example_paused_stream 10) 10)
        = some (2, [(1, 2), (3, 4)]) := by
  refine ⟨by decide, by decide, ⟨_, rfl, by decide, by decide⟩, by decide, by decide, by decide,
    by decide, by decide⟩

/-- C7, counterexample.  Under policy `throw_exe` a block with the stream filter set to 8
receives a 50-byte packet of type 4 with the stream number 7: the length is neither 44, 72
nor 108, so the validation would fail, but the packet is dropped by the test of line 151 and
the call returns 0 without throwing. -/
theorem c7_filtered_packet_counterexample :
    example_filtered_abort.d_behavior = throw_exe
    ∧ framed_size example_filtered_abort = 50
    ∧ (framed_header example_filtered_abort).type ≠ 1
    ∧ DictResult.failed (make_context_dict (read_packet example_filtered_abort).2
        (framed_header example_filtered_abort) (framed_size example_filtered_abort)) = true
    ∧ ¬ passes_stream_filter example_filtered_abort
    ∧ (∀ s1, buffer_and_send_body example_filtered_abort 10 ≠ Step.runtime_error s1)
    ∧ ∃ s1, buffer_and_send example_filtered_abort 10 = Outcome.returned 0 [] s1 := by
  refine ⟨by decide, by decide, by decide, by decide, by decide, ?_, _, rfl⟩
  intro s1 h
  rw [body_filtered example_filtered_abort 10 (by decide) (by decide)] at h
  cases h

/-- C7, amended.  Under policy `throw_exe`, the pass through `buffer_and_send` for a packet
that is not a data packet throws if and only if the packet reaches the context decoder (it passes the
stream filter), its length is not 44, and the validation fails (the length is neither 72 nor
108, or the declared bit depth differs from the configured one).  When it throws, the call
throws, no tag has been added, no sample has been stored, and `d_send` and `d_context` are
what they were before the call. -/
theorem c7_abort_raises (s : State) (n : Int) (hsize : 0 < framed_size s)
    (htype : (framed_header s).type ≠ 1) (hb : s.d_behavior = throw_exe) :
    ((∃ s1, buffer_and_send_body s n = Step.runtime_error s1)
      ↔ (passes_stream_filter s ∧ framed_size s ≠ 44
          ∧ ((framed_size s ≠ 72 ∧ framed_size s ≠ 108)
            ∨ (((decode_context (read_packet s).2 (framed_header s)
                  (framed_size s)).1.payload_format >>> 32) &&& 0x1f) + 1
                ≠ s.d_unpack_idx_size * 8)))
    ∧ ∀ s1, buffer_and_send_body s n = Step.runtime_error s1 →
        buffer_and_send s n = Outcome.runtime_error s1
        ∧ new_tags s s1 = [] ∧ s1.d_send = s.d_send ∧ s1.d_context = s.d_context := by
  by_cases hfilter : passes_stream_filter s
  · have h := body_abort s n hsize htype hfilter hb
    refine ⟨?_, h.2⟩
    rw [h.1]
    exact ⟨fun hc => ⟨hfilter, hc⟩, fun hc => hc.2⟩
  · have hbody := body_filtered s n hsize hfilter
    constructor
    · constructor
      · rintro ⟨s1, h1⟩
        rw [hbody] at h1
        cases h1
      · intro h
        exact absurd h.1 hfilter
    · intro s1 h1
      rw [hbody] at h1
      cases h1

/-- C7, witness.  Policy `throw_exe`, 8-bit mode, a 108-byte context packet that declares 16
bits: the call throws, without a tag and with `d_send` and `d_context` untouched. -/
theorem c7_abort_raises_witness :
    (0 < framed_size (example_state 8 throw_exe [example_context_108 16])
      ∧ (framed_header (example_state 8 throw_exe [example_context_108 16])).type ≠ 1
      ∧ (example_state 8 throw_exe [example_context_108 16]).d_behavior = throw_exe)
    ∧ ∃ s1, buffer_and_send (example_state 8 throw_exe [example_context_108 16]) 10
        = Outcome.runtime_error s1
      ∧ new_tags (example_state 8 throw_exe [example_context_108 16]) s1 = []
      ∧ s1.d_send = (example_state 8 throw_exe [example_context_108 16]).d_send
      ∧ s1.d_context = (example_state 8 throw_exe [example_context_108 16]).d_context :=
  have h := c7_abort_raises (example_state 8 throw_exe [example_context_108 16]) 10
    (by decide) (by decide) (by decide)
  match h.1.2 ⟨by decide, by decide, Or.inr (by decide)⟩ with
  | ⟨s1, h1⟩ => ⟨by decide, s1, h.2 s1 h1⟩

/-- C8, counterexample.  Policy `ignore`, 8-bit mode, a 72-byte context packet that declares
8 bits followed by a data packet: the pass for the context packet leaves `d_context` empty,
and the call, which goes on to the data packet and returns its 2 samples, adds no `context`
tag. -/
theorem c8_ignore_counterexample :
    framed_size (example_state 8 ignore [example_context_72 8, example_data_packet 0 [1, 2, 3, 4]])
        = 72
    ∧ (framed_header
        (example_state 8 ignore [example_context_72 8, example_data_packet 0 [1, 2, 3, 4]])).type
        ≠ 1
    ∧ (buffer_and_send_body
        (example_state 8 ignore [example_context_72 8, example_data_packet 0 [1, 2, 3, 4]])
        10).state.d_context = none
    ∧ ∃ out s1, buffer_and_send
          (example_state 8 ignore [example_context_72 8, example_data_packet 0 [1, 2, 3, 4]]) 10
          = Outcome.returned 2 out s1
        ∧ s1.transport.pending = 0
        ∧ tags_with_key "context" s1.tags = [] := by
  refine ⟨by decide, by decide, by decide, _, _, rfl, by decide, by decide⟩

/-- C8, amended.  Under policy `ignore`, for every packet that is not a data packet and
passes the stream filter (a 72- or 108-byte context packet of any declared bit depth among
them), `make_context_dict` is not run: the pass only sets `d_context` to `NULL`, so no record
is delivered, and leaves `d_send` as it was; the call goes on with the next packet when
`d_send` is true and returns 0 otherwise. -/
theorem c8_ignore_skips_context (s : State) (n : Int) (hsize : 0 < framed_size s)
    (htype : (framed_header s).type ≠ 1) (hfilter : passes_stream_filter s)
    (hb : s.d_behavior = ignore) :
    (buffer_and_send_body s n).state = { (read_packet s).2 with d_context := none }
    ∧ (buffer_and_send_body s n).state.d_send = s.d_send
    ∧ (s.d_send = true →
        buffer_and_send_body s n = Step.recurse { (read_packet s).2 with d_context := none })
    ∧ (s.d_send = false →
        buffer_and_send_body s n = Step.ret 0 [] { (read_packet s).2 with d_context := none }) :=
  body_ignore s n hsize htype hfilter hb

/-- C8, witness.  Policy `ignore`, 16-bit mode, a 108-byte context packet that declares 8
bits: no exception, `d_context` stays empty, `d_send` stays true, the call goes on. -/
theorem c8_ignore_skips_context_witness :
    (0 < framed_size (example_state 16 ignore [example_context_108 8])
      ∧ (framed_header (example_state 16 ignore [example_context_108 8])).type ≠ 1
      ∧ passes_stream_filter (example_state 16 ignore [example_context_108 8])
      ∧ (example_state 16 ignore [example_context_108 8]).d_behavior = ignore)
    ∧ (buffer_and_send_body (example_state 16 ignore [example_context_108 8]) 10).state
        = { (read_packet (example_state 16 ignore [example_context_108 8])).2 with
            d_context := none }
    ∧ (buffer_and_send_body (example_state 16 ignore [example_context_108 8]) 10).state.d_send
        = true
    ∧ buffer_and_send_body (example_state 16 ignore [example_context_108 8]) 10
        = Step.recurse { (read_packet (example_state 16 ignore [example_context_108 8])).2 with
            d_context := none } :=
  have h := c8_ignore_skips_context (example_state 16 ignore [example_context_108 8]) 10
    (by decide) (by decide) (by decide) (by decide)
  ⟨by decide, h.1, h.2.1, h.2.2.1 (by decide)⟩

/-- C9, counterexample.  Default policy, 8-bit mode: for a 44-byte packet of type 4 followed
by a data packet the call returns 2 samples, not 0, and attaches a `context` tag with the
empty dictionary the 44-byte packet left in `d_context`; and from a state with `d_send` false
the pass for a 44-byte packet sets `d_send` to true. -/
theorem c9_flow_signal_counterexample :
    framed_size (example_state 8 warnings_no_forward
        [example_flow_signal, example_data_packet 0 [1, 2, 3, 4]]) = 44
    ∧ (framed_header (example_state 8 warnings_no_forward
        [example_flow_signal, example_data_packet 0 [1, 2, 3, 4]])).type ≠ 1
    ∧ (∃ out s1, buffer_and_send (example_state 8 warnings_no_forward
          [example_flow_signal, example_data_packet 0 [1, 2, 3, 4]]) 10
          = Outcome.returned 2 out s1
        ∧ tags_with_key "context" s1.tags = [⟨0, "context", TagValue.dict []⟩])
    ∧ (example_paused (example_state 8 warnings_no_forward [example_flow_signal])).d_send = false
    ∧ (buffer_and_send_body
        (example_paused (example_state 8 warnings_no_forward [example_flow_signal]))
        10).state.d_send = true := by
  refine ⟨by decide, by decide, ⟨_, _, rfl, by decide⟩, by decide, by decide⟩

/-- C9, amended.  For every 44-byte packet that is not a data packet, under every policy and
from every state, the pass through `buffer_and_send` ends in the recursive call or in
`return 0`, never in an exception; it adds no tag and stores no sample and leaves
`d_last_pkt_n`, `d_static_bits` and the latched timestamp unchanged; it ends in the recursive
call, which reads the next packet, exactly when the packet passes the stream filter and
`d_send` is true after it; under policy `ignore` it leaves `d_send` unchanged. -/
theorem c9_flow_signal_packet (s : State) (n : Int) (h44 : framed_size s = 44)
    (htype : (framed_header s).type ≠ 1) :
    ∃ s1, (buffer_and_send_body s n = Step.recurse s1
          ∨ buffer_and_send_body s n = Step.ret 0 [] s1)
      ∧ new_tags s s1 = []
      ∧ s1.d_last_pkt_n = s.d_last_pkt_n ∧ s1.d_static_bits = s.d_static_bits
      ∧ s1.d_last_full = s.d_last_full ∧ s1.d_last_frac = s.d_last_frac
      ∧ (buffer_and_send_body s n = Step.recurse s1
          ↔ (passes_stream_filter s ∧ s1.d_send = true))
      ∧ (s.d_behavior = ignore → s1.d_send = s.d_send) := by
  have hsize : 0 < framed_size s := by omega
  by_cases hfilter : passes_stream_filter s
  · have hbody := body_non_data s n hsize htype hfilter
    by_cases hb : s.d_behavior = ignore
    · have h8 := body_ignore s n hsize htype hfilter hb
      cases hs : s.d_send with
      | true =>
        refine ⟨_, Or.inl (h8.2.2.1 hs), ?_, ?_, ?_, ?_, ?_, ?_, ?_⟩
        · simp [new_tags]
        · simp
        · simp
        · simp
        · simp
        · exact ⟨fun _ => ⟨hfilter, by simp [hs]⟩, fun _ => h8.2.2.1 hs⟩
        · intro _; simp [hs]
      | false =>
        refine ⟨_, Or.inr (h8.2.2.2 hs), ?_, ?_, ?_, ?_, ?_, ?_, ?_⟩
        · simp [new_tags]
        · simp
        · simp
        · simp
        · simp
        · rw [h8.2.2.2 hs]
          constructor
          · intro h; cases h
          · intro h
            have := h.2
            simp [hs] at this
        · intro _; simp [hs]
    · have hb2 : (read_packet s).2.d_behavior ≠ ignore := by
        rw [read_packet_d_behavior]; exact hb
      have hm := make_context_dict_eq (read_packet s).2 (framed_header s) (framed_size s)
      rw [if_neg (fun h => h.1 h44)] at hm
      rw [store_context_value _ _ _ _ _ hb2 hm, if_pos rfl] at hbody
      refine ⟨_, Or.inl hbody, ?_, ?_, ?_, ?_, ?_, ?_, ?_⟩
      · simp [new_tags]
      · simp
      · simp
      · simp
      · simp
      · exact ⟨fun _ => ⟨hfilter, rfl⟩, fun _ => hbody⟩
      · intro h; exact absurd h hb
  · have hbody := body_filtered s n hsize hfilter
    rw [parse_header_non_data _ htype] at hbody
    refine ⟨_, Or.inr hbody, ?_, ?_, ?_, ?_, ?_, ?_, ?_⟩
    · simp [new_tags]
    · simp
    · simp
    · simp
    · simp
    · rw [hbody]
      constructor
      · intro h; cases h
      · intro h; exact absurd h.1 hfilter
    · intro _; simp

/-- C9, witness.  Default policy, 8-bit mode, one 44-byte packet of type 4. -/
theorem c9_flow_signal_packet_witness :
    (framed_size (example_state 8 warnings_no_forward [example_flow_signal]) = 44
      ∧ (framed_header (example_state 8 warnings_no_forward [example_flow_signal])).type ≠ 1)
    ∧ ∃ s1, (buffer_and_send_body (example_state 8 warnings_no_forward [example_flow_signal]) 10
            = Step.recurse s1
          ∨ buffer_and_send_body (example_state 8 warnings_no_forward [example_flow_signal]) 10
            = Step.ret 0 [] s1)
      ∧ new_tags (example_state 8 warnings_no_forward [example_flow_signal]) s1 = []
      ∧ s1.d_last_pkt_n = (example_state 8 warnings_no_forward [example_flow_signal]).d_last_pkt_n
      ∧ s1.d_static_bits
          = (example_state 8 warnings_no_forward [example_flow_signal]).d_static_bits
      ∧ s1.d_last_full = (example_state 8 warnings_no_forward [example_flow_signal]).d_last_full
      ∧ s1.d_last_frac = (example_state 8 warnings_no_forward [example_flow_signal]).d_last_frac
      ∧ (buffer_and_send_body (example_state 8 warnings_no_forward [example_flow_signal]) 10
            = Step.recurse s1
          ↔ (passes_stream_filter (example_state 8 warnings_no_forward [example_flow_signal])
              ∧ s1.d_send = true))
      ∧ ((example_state 8 warnings_no_forward [example_flow_signal]).d_behavior = ignore →
          s1.d_send = (example_state 8 warnings_no_forward [example_flow_signal]).d_send) :=
  ⟨by decide,
    c9_flow_signal_packet (example_state 8 warnings_no_forward [example_flow_signal]) 10
      (by decide) (by decide)⟩

/-- C10, counterexample.  Default policy, 8-bit mode, a valid 72-byte context packet followed
by a data packet: one call of `buffer_and_send` takes both datagrams off the transport and
returns the 2 samples of the data packet. -/
theorem c10_two_packets_counterexample :
    (example_state 8 warnings_no_forward
        [example_context_72 8, example_data_packet 0 [1, 2, 3, 4]]).transport.pending = 2
    ∧ (framed_header (example_state 8 warnings_no_forward
        [example_context_72 8, example_data_packet 0 [1, 2, 3, 4]])).type ≠ 1
    ∧ ∃ out s1, buffer_and_send (example_state 8 warnings_no_forward
          [example_context_72 8, example_data_packet 0 [1, 2, 3, 4]]) 10
          = Outcome.returned 2 out s1
        ∧ s1.transport.pending = 0 := by
  refine ⟨by decide, by decide, _, _, rfl, by decide⟩

/-- C10, amended.  A call of `buffer_and_send` that frames a packet reads exactly this one
packet when the packet is dropped by the stream filter or is a data packet handled while
`d_send` holds.  Otherwise the `else` branch of line 187 runs, and the call throws (only under
policy `throw_exe`), or returns 0 with `d_send` false after this one packet, or, with
`d_send` true, goes on by the recursive call of line 190 to read further packets: its result
is that of a call from the state after the first packet. -/
theorem c10_packets_per_call (s : State) (n : Int) (hsize : 0 < framed_size s) :
    ((¬ passes_stream_filter s ∨ ((framed_header s).type = 1 ∧ s.d_send = true)) →
      ∃ m out s1, buffer_and_send s n = Outcome.returned m out s1
        ∧ s1.transport = (read_packet s).2.transport)
    ∧ ((passes_stream_filter s ∧ ¬ ((framed_header s).type = 1 ∧ s.d_send = true)) →
      ∃ s1, s1.transport = (read_packet s).2.transport
        ∧ ((buffer_and_send_body s n = Step.runtime_error s1 ∧ s.d_behavior = throw_exe
              ∧ buffer_and_send s n = Outcome.runtime_error s1)
          ∨ (buffer_and_send_body s n = Step.ret 0 [] s1 ∧ s1.d_send = false
              ∧ buffer_and_send s n = Outcome.returned 0 [] s1)
          ∨ (buffer_and_send_body s n = Step.recurse s1 ∧ s1.d_send = true
              ∧ buffer_and_send s n = buffer_and_send s1 n))) := by
  constructor
  · intro h
    by_cases hfilter : passes_stream_filter s
    · rcases h with h | h
      · exact absurd hfilter h
      · have hb := body_eq s n hsize hfilter
        rw [if_pos h] at hb
        obtain ⟨m, out, h1, h2⟩ := body_data s n hsize h.1 hfilter h.2
        refine ⟨m, out, _, h2, ?_⟩
        rw [hb, send_data_transport]
        simp
    · have hb := body_filtered s n hsize hfilter
      refine ⟨0, [], (parse_header (read_packet s).2).2, ?_, ?_⟩
      · rw [buffer_and_send_unfold, hb]
      · simp
  · intro h
    have hb := body_eq s n hsize h.1
    rw [if_neg h.2] at hb
    obtain ⟨s1, ht, hc⟩ := store_context_cases
      (sequence_check (parse_header (read_packet s).2).2 (framed_header s) (framed_size s))
      (framed_header s) (framed_size s)
    rw [← hb] at hc
    refine ⟨s1, by rw [ht]; simp, ?_⟩
    rcases hc with hc | hc | hc
    · refine Or.inl ⟨hc.1, by simpa using hc.2, ?_⟩
      rw [buffer_and_send_unfold, hc.1]
    · refine Or.inr (Or.inl ⟨hc.1, hc.2, ?_⟩)
      rw [buffer_and_send_unfold, hc.1]
    · refine Or.inr (Or.inr ⟨hc.1, hc.2, ?_⟩)
      rw [buffer_and_send_unfold, hc.1]

/-- C10, witness.  Default policy, 8-bit mode, a valid 72-byte context packet followed by a
data packet: the pass for the context packet ends in the recursive call, with one datagram
left on the transport, and the call is the call from that state. -/
theorem c10_packets_per_call_witness :
    (0 < framed_size (example_state 8 warnings_no_forward
        [example_context_72 8, example_data_packet 0 [1, 2, 3, 4]])
      ∧ passes_stream_filter (example_state 8 warnings_no_forward
        [example_context_72 8, example_data_packet 0 [1, 2, 3, 4]])
      ∧ (framed_header (example_state 8 warnings_no_forward
        [example_context_72 8, example_data_packet 0 [1, 2, 3, 4]])).type ≠ 1)
    ∧ ∃ s1, s1.transport = (read_packet (example_state 8 warnings_no_forward
          [example_context_72 8, example_data_packet 0 [1, 2, 3, 4]])).2.transport
      ∧ s1.transport.pending = 1
      ∧ buffer_and_send_body (example_state 8 warnings_no_forward
          [example_context_72 8, example_data_packet 0 [1, 2, 3, 4]]) 10 = Step.recurse s1
      ∧ s1.d_send = true
      ∧ buffer_and_send (example_state 8 warnings_no_forward
          [example_context_72 8, example_data_packet 0 [1, 2, 3, 4]]) 10
        = buffer_and_send s1 10 :=
  match (c10_packets_per_call (example_state 8 warnings_no_forward
      [example_context_72 8, example_data_packet 0 [1, 2, 3, 4]]) 10 (by decide)).2
      ⟨by decide, by decide⟩ with
  | ⟨_, _, Or.inl h⟩ => absurd h.2.1 (by decide)
  | ⟨_, _, Or.inr (Or.inl h)⟩ =>
    absurd (congrArg Step.state h.1 ▸ h.2.1 :
      (buffer_and_send_body (example_state 8 warnings_no_forward
        [example_context_72 8, example_data_packet 0 [1, 2, 3, 4]]) 10).state.d_send = false)
      (by decide)
  | ⟨s1, ht, Or.inr (Or.inr h)⟩ =>
    ⟨by decide, s1, ht, by rw [ht]; decide, h.1, h.2.1, h.2.2⟩

/-- C11 (defect of the code).  The claim: a packet whose stream number differs from the
configured one is dropped without a metadata event and without any change of state.  The code
runs `parse_header`, which latches the timestamp and tags a change of the static bits of a
data packet, before it tests the stream number (line 151).  Stream filter 8, a fresh block, a
data packet of stream 7 with the timestamp (5, 9): the call returns 0 samples, as claimed, but
it adds a `static_change` tag, and the latched timestamp and `d_static_bits` go from
(0, 0, -1) to (5, 9, 0x10000000). -/
theorem c11_filtered_data_packet_changes_state :
    (example_filtered_state 8 warnings_no_forward [example_data_packet 0 [1, 2, 3, 4]]).d_stream_number
        = 8
    ∧ (framed_header (example_filtered_state 8 warnings_no_forward
        [example_data_packet 0 [1, 2, 3, 4]])).stream_num = 7
    ∧ (framed_header (example_filtered_state 8 warnings_no_forward
        [example_data_packet 0 [1, 2, 3, 4]])).type = 1
    ∧ ((example_filtered_state 8 warnings_no_forward
          [example_data_packet 0 [1, 2, 3, 4]]).d_last_full,
        (example_filtered_state 8 warnings_no_forward
          [example_data_packet 0 [1, 2, 3, 4]]).d_last_frac,
        (example_filtered_state 8 warnings_no_forward
          [example_data_packet 0 [1, 2, 3, 4]]).d_static_bits) = (0, 0, -1)
    ∧ ∃ s1, buffer_and_send (example_filtered_state 8 warnings_no_forward
          [example_data_packet 0 [1, 2, 3, 4]]) 10 = Outcome.returned 0 [] s1
        ∧ s1.tags = [⟨0, "static_change", TagValue.value (Pmt.from_uint64 0x10000000)⟩]
        ∧ (s1.d_last_full, s1.d_last_frac, s1.d_static_bits) = (5, 9, 0x10000000) := by
  refine ⟨by decide, by decide, by decide, by decide, _, rfl, by decide, by decide⟩

/-- C12.  When the transport yields no data (`size_gotten <= 0`: the read result of the
datagram socket or of the header word, or -1 without a connected peer), `buffer_and_send`
returns 0 samples, adds no tag and leaves every member as it was; only the transport has seen
a `read`.  Hence any number of such calls in a row leaves every member as it was. -/
theorem c12_idle_call_is_no_op (s : State) (n : Int) (h : framed_size s ≤ 0) :
    buffer_and_send s n
      = Outcome.returned 0 [] { s with transport := (read_packet s).2.transport }
    ∧ ∀ k : Nat, (∀ j, j < k → framed_size (run_calls j s n) ≤ 0) →
        run_calls k s n = { s with transport := (run_calls k s n).transport } :=
  ⟨(idle_call s n h).2, fun k hk => run_calls_idle k s n hk⟩

/-- C12, witness.  A TCP server without a peer: `size_gotten` is -1 and three calls leave the
state as it was.  A UDP socket whose next reads fail or are empty: after three calls only the
script of the transport is used up. -/
theorem c12_idle_call_is_no_op_witness :
    (framed_size (example_tcp_state 8 warnings_no_forward false
        [example_data_packet 0 [1, 2, 3, 4]]) = -1
      ∧ buffer_and_send (example_tcp_state 8 warnings_no_forward false
          [example_data_packet 0 [1, 2, 3, 4]]) 10
        = Outcome.returned 0 [] (example_tcp_state 8 warnings_no_forward false
          [example_data_packet 0 [1, 2, 3, 4]])
      ∧ run_calls 3 (example_tcp_state 8 warnings_no_forward false
          [example_data_packet 0 [1, 2, 3, 4]]) 10
        = example_tcp_state 8 warnings_no_forward false [example_data_packet 0 [1, 2, 3, 4]])
    ∧ (framed_size (example_state 8 warnings_no_forward [ReadResult.error, ReadResult.data []])
        = -1
      ∧ run_calls 3 (example_state 8 warnings_no_forward [ReadResult.error, ReadResult.data []])
          10
        = example_state 8 warnings_no_forward []) := by
  have h1 := c12_idle_call_is_no_op (example_tcp_state 8 warnings_no_forward false
    [example_data_packet 0 [1, 2, 3, 4]]) 10 (by decide)
  have h2 := c12_idle_call_is_no_op
    (example_state 8 warnings_no_forward [ReadResult.error, ReadResult.data []]) 10 (by decide)
  refine ⟨⟨by decide, ?_, ?_⟩, by decide, ?_⟩
  · rw [h1.1]
    rfl
  · rw [h1.2 3 (by decide)]
    rfl
  · rw [h2.2 3 (by decide)]
    rfl

/-- C13, counterexample.  The first data packet a fresh block sees (`d_static_bits = -1`, no
earlier value) gets a `static_change` tag. -/
theorem c13_first_packet_counterexample :
    example_static_stream.d_static_bits = -1
    ∧ (framed_header example_static_stream).type = 1
    ∧ example_static_stream.tags = []
    ∧ tags_with_key "static_change" (buffer_and_send_body example_static_stream 10).state.tags
        = [⟨0, "static_change", TagValue.value (Pmt.from_uint64 0x10000000)⟩] := by
  decide

/-- C13, amended.  For every data packet the pass through `buffer_and_send` adds a
`static_change` tag, from `parse_header`, if and only if the stored `d_static_bits` differ
from the top 12 bits of the header word (`header & 0xfff00000`), and exactly one then; after
the pass `d_static_bits` holds these bits, so the next data packet is compared with them.  The
start value -1 differs from the bits of every header, so the very first data packet always
gets the tag. -/
theorem c13_static_change (s : State) (n : Int) (hsize : 0 < framed_size s)
    (htype : (framed_header s).type = 1) :
    tags_with_key "static_change" (new_tags s (buffer_and_send_body s n).state)
        = (if s.d_static_bits ≠ to_int32 ((framed_header s).header &&& 0xfff00000) then
            [⟨s.nitems_written, "static_change", TagValue.value (Pmt.from_uint64
              (to_u64 (to_int32 ((framed_header s).header &&& 0xfff00000))))⟩]
           else [])
    ∧ (buffer_and_send_body s n).state.d_static_bits
        = to_int32 ((framed_header s).header &&& 0xfff00000)
    ∧ (s.d_static_bits = -1 →
        tags_with_key "static_change" (new_tags s (buffer_and_send_body s n).state)
          = [⟨s.nitems_written, "static_change", TagValue.value (Pmt.from_uint64
              (to_u64 (to_int32 ((framed_header s).header &&& 0xfff00000))))⟩]) := by
  have h := body_static_change s n hsize htype
  refine ⟨h.1, h.2, ?_⟩
  intro h1
  rw [h.1, if_pos]
  rw [h1]
  exact fun e => static_part_ne_neg_one _ e.symm

/-- C13, witness.  Two consecutive data packets with the header words 0x10000000 and
0x10110000: the second gets exactly one `static_change` tag, with the value 0x10100000. -/
theorem c13_static_change_witness :
    (0 < framed_size (run_calls 1 example_static_stream 10)
      ∧ (framed_header (run_calls 1 example_static_stream 10)).type = 1
      ∧ (framed_header example_static_stream).header = 0x10000000
      ∧ (framed_header (run_calls 1 example_static_stream 10)).header = 0x10110000
      ∧ (run_calls 1 example_static_stream 10).d_static_bits = 0x10000000)
    ∧ tags_with_key "static_change" (new_tags (run_calls 1 example_static_stream 10)
        (buffer_and_send_body (run_calls 1 example_static_stream 10) 10).state)
      = [⟨2, "static_change", TagValue.value (Pmt.from_uint64 0x10100000)⟩]
    ∧ (buffer_and_send_body (run_calls 1 example_static_stream 10) 10).state.d_static_bits
      = 0x10100000 := by
  have h := c13_static_change (run_calls 1 example_static_stream 10) 10 (by decide) (by decide)
  refine ⟨by decide, ?_, ?_⟩
  · rw [h.1]
    decide
  · rw [h.2.1]
    decide

/-- C14 (defect of the code).  The claim: after every data packet that passes the stream
filter `d_last_pkt_n` is its number, also while `d_send` is false.  The assignment of line 170
sits in the branch `header.type == 1 and d_send`.  Default policy: a 50-byte packet of type 4
pauses the output; the data packets 5 and 6 that follow return 0 samples each and leave
`d_last_pkt_n` at -1, so each of them is announced by a `pck_n` tag as if it were the first
data packet. -/
theorem c14_paused_data_packet_keeps_last_pkt_n :
    (framed_header (run_calls 1 example_paused_data 10)).type = 1
    ∧ (framed_header (run_calls 1 example_paused_data 10)).pkt_n = 5
    ∧ passes_stream_filter (run_calls 1 example_paused_data 10)
    ∧ (run_calls 1 example_paused_data 10).d_send = false
    ∧ (∃ s1, buffer_and_send (run_calls 1 example_paused_data 10) 10
          = Outcome.returned 0 [] s1 ∧ s1.d_last_pkt_n = -1)
    ∧ (run_calls 2 example_paused_data 10).d_last_pkt_n = -1
    ∧ tags_with_key "pck_n" (run_calls 3 example_paused_data 10).tags
        = [⟨0, "pck_n", TagValue.dict [("pck_n", Pmt.from_uint64 5),
            ("data_len", Pmt.from_uint64 32), ("full", Pmt.from_long 5),
            ("frac", Pmt.from_uint64 9)]⟩,
           ⟨0, "pck_n", TagValue.dict [("pck_n", Pmt.from_uint64 6),
            ("data_len", Pmt.from_uint64 32), ("full", Pmt.from_long 5),
            ("frac", Pmt.from_uint64 9)]⟩] := by
  refine ⟨by decide, by decide, by decide, by decide, ⟨_, rfl, by decide⟩, by decide, by decide⟩

/-- C15: `parse_header` decodes the header big-endian at fixed offsets.  For every state the
returned `pkt_n` and `type` lie in 0..15.  For every packet buffer of at least 28 bytes
(each a byte value), the returned `header` is the big-endian 32-bit word at bytes [0:4],
`type` is its bits 31..28, `pkt_n` its bits 19..16, `stream_num` is the big-endian 32-bit
word at bytes [4:8], and the timestamp that a data packet latches is the big-endian u32 at
[16:20] and the big-endian u64 at [20:28]. -/
theorem c15_parse_header_fields (s : State) :
    ((parse_header s).1.pkt_n ≤ 15 ∧ (parse_header s).1.type ≤ 15)
    ∧ (28 ≤ s.d_packet_buffer.length → (∀ b ∈ s.d_packet_buffer, b < 256) →
        (parse_header s).1.header = big_endian_at s.d_packet_buffer 0 4
        ∧ (parse_header s).1.type = big_endian_at s.d_packet_buffer 0 4 / 2 ^ 28 % 2 ^ 4
        ∧ (parse_header s).1.pkt_n = big_endian_at s.d_packet_buffer 0 4 / 2 ^ 16 % 2 ^ 4
        ∧ (parse_header s).1.stream_num = big_endian_at s.d_packet_buffer 4 4
        ∧ ((parse_header s).1.type = 1 →
            (parse_header s).2.d_last_full = big_endian_at s.d_packet_buffer 16 4
            ∧ (parse_header s).2.d_last_frac = big_endian_at s.d_packet_buffer 20 8)) := by
  have hw := unpack_u32_lt s.d_packet_buffer 0
  have hbits := header_type_bits _ hw
  have hf := parse_header_fst s
  refine ⟨⟨?_, ?_⟩, ?_⟩
  · rw [hf]
    simp only []
    rw [hbits.2]
    omega
  · rw [hf]
    simp only []
    rw [hbits.1]
    omega
  · intro hlen hbytes
    have e0 := unpack_u32_eq_big_endian s.d_packet_buffer 0 (by omega) hbytes
    have e4 := unpack_u32_eq_big_endian s.d_packet_buffer 4 (by omega) hbytes
    have e16 := unpack_u32_eq_big_endian s.d_packet_buffer 16 (by omega) hbytes
    have e20 := unpack_u64_eq_big_endian s.d_packet_buffer 20 (by omega) hbytes
    refine ⟨?_, ?_, ?_, ?_, ?_⟩
    · rw [hf]; exact e0
    · rw [hf, ← e0]; exact hbits.1
    · rw [hf, ← e0]; exact hbits.2
    · rw [hf]; exact e4
    · intro ht
      have hp := parse_header_data s ht
      rw [hp.2.2.1, hp.2.2.2]
      exact ⟨e16, e20⟩

/-- Witness of C15: the packet with the first word 0x1AC30008 has type 1 and sequence number
3, the stream number 0x01020304 and the timestamp (256, 513). -/
theorem c15_parse_header_fields_witness :
    (28 ≤ (read_packet example_header_fields).2.d_packet_buffer.length
      ∧ ∀ b ∈ (read_packet example_header_fields).2.d_packet_buffer, b < 256)
    ∧ (parse_header (read_packet example_header_fields).2).1
        = ⟨1, 3, 0x1AC30008, 0x01020304⟩
    ∧ big_endian_at (read_packet example_header_fields).2.d_packet_buffer 0 4 = 0x1AC30008
    ∧ (parse_header (read_packet example_header_fields).2).1.stream_num
        = big_endian_at (read_packet example_header_fields).2.d_packet_buffer 4 4
    ∧ (parse_header (read_packet example_header_fields).2).2.d_last_full = 256
    ∧ (parse_header (read_packet example_header_fields).2).2.d_last_frac = 513 := by
  have h := (c15_parse_header_fields (read_packet example_header_fields).2).2
    (by decide) (by decide)
  exact ⟨by decide, by decide, by decide, h.2.2.2.1, by decide, by decide⟩

/-- C16: the latched timestamp (`d_last_full`, `d_last_frac`) is changed only by parsing a
data packet, and the record of a 72-byte context packet carries it.  (1) `parse_header`
leaves the latch unchanged for every packet of a type other than 1.  (2) After one pass of
`buffer_and_send` the latch holds the timestamp words of the framed packet if a packet was
framed and it is a data packet, and is unchanged otherwise.  (3) For every header and every
buffer contents, the record decoded from a 72-byte packet has `full` and `frac` equal to the
latch, whatever the buffer holds at bytes [16:28].  (4) When a 72-byte packet of another type
than 1 passes the stream filter and the validation under a policy other than Ignore, the
record stored in `d_context` has `full` and `frac` equal to the latch before the call. -/
theorem c16_latched_timestamp (s : State) (n : Int) :
    ((parse_header s).1.type ≠ 1 →
      (parse_header s).2.d_last_full = s.d_last_full
      ∧ (parse_header s).2.d_last_frac = s.d_last_frac)
    ∧ (((buffer_and_send_body s n).state.d_last_full,
          (buffer_and_send_body s n).state.d_last_frac)
        = if 0 < framed_size s ∧ (framed_header s).type = 1 then
            (unpack_u32 (read_packet s).2.d_packet_buffer 16,
              unpack_u64 (read_packet s).2.d_packet_buffer 20)
          else (s.d_last_full, s.d_last_frac))
    ∧ (∀ (header : header_data) (buffer : List Nat),
        dict_ref (decode_context { s with d_packet_buffer := buffer } header 72).2 "full"
            = some (Pmt.from_long s.d_last_full)
        ∧ dict_ref (decode_context { s with d_packet_buffer := buffer } header 72).2 "frac"
            = some (Pmt.from_uint64 s.d_last_frac))
    ∧ (framed_size s = 72 → (framed_header s).type ≠ 1 → passes_stream_filter s →
        s.d_behavior ≠ ignore →
        (((decode_context (read_packet s).2 (framed_header s) 72).1.payload_format
            >>> 32) &&& 0x1f) + 1 = s.d_unpack_idx_size * 8 →
        ∃ dict, (buffer_and_send_body s n).state.d_context = some dict
          ∧ dict_ref dict "full" = some (Pmt.from_long s.d_last_full)
          ∧ dict_ref dict "frac" = some (Pmt.from_uint64 s.d_last_frac)) := by
  refine ⟨?_, body_latch s n, ?_, ?_⟩
  · intro h
    rw [parse_header_non_data s h]
    exact ⟨rfl, rfl⟩
  · intro header buffer
    have e : (decode_context { s with d_packet_buffer := buffer } header 72).2
        = context_dict_alt { s with d_packet_buffer := buffer } header
            (unpack_context_alt { s with d_packet_buffer := buffer } s.indeterminate_context)
            72 := by
      unfold decode_context
      simp
    rw [e]
    exact context_dict_alt_timestamp _ _ _ _
  · intro h72 htype hfilter hb hdepth
    have hd : (((decode_context (read_packet s).2 (framed_header s)
          (framed_size s)).1.payload_format >>> 32) &&& 0x1f) + 1 = s.d_unpack_idx_size * 8 := by
      rw [h72]; exact hdepth
    have hbody := body_delivers s n (by omega) htype hfilter hb (Or.inl h72) hd
    rw [hbody]
    refine ⟨_, rfl, ?_⟩
    have e : (decode_context (read_packet s).2 (framed_header s) (framed_size s)).2
        = context_dict_alt (read_packet s).2 (framed_header s)
            (unpack_context_alt (read_packet s).2 (read_packet s).2.indeterminate_context)
            72 := by
      unfold decode_context
      simp [h72]
    rw [e]
    have := context_dict_alt_timestamp (read_packet s).2 (framed_header s)
      (unpack_context_alt (read_packet s).2 (read_packet s).2.indeterminate_context) 72
    simpa using this

/-- Witness of C16: after a data packet with the timestamp (5, 9), a 72-byte context packet
whose bytes [16:28] hold 77 and 88 leaves the latch at (5, 9) and delivers a record with
`full` 5 and `frac` 9. -/
theorem c16_latched_timestamp_witness :
    (example_latched.d_last_full = 5 ∧ example_latched.d_last_frac = 9)
    ∧ (unpack_u32 (read_packet example_latched).2.d_packet_buffer 16 = 77
      ∧ unpack_u64 (read_packet example_latched).2.d_packet_buffer 20 = 88)
    ∧ ((parse_header (read_packet example_latched).2).2.d_last_full = 5
      ∧ (parse_header (read_packet example_latched).2).2.d_last_frac = 9)
    ∧ ∃ dict, (buffer_and_send_body example_latched 10).state.d_context = some dict
        ∧ dict_ref dict "full" = some (Pmt.from_long example_latched.d_last_full)
        ∧ dict_ref dict "frac" = some (Pmt.from_uint64 example_latched.d_last_frac) :=
  ⟨by decide, by decide,
   (c16_latched_timestamp (read_packet example_latched).2 10).1 (by decide),
   (c16_latched_timestamp example_latched 10).2.2.2 (by decide) (by decide) (by decide)
     (by decide) (by decide)⟩

/-- C17, counterexample: on a connected TCP transport a header word with the word count 0
(bytes 16, 0, 0, 0) gives the framed length 4, not 4 * 0: the guard
`num_bytes_to_read > 0` skips the second read and `size_gotten` keeps the 4 bytes of the
header word. -/
theorem c17_zero_word_count_counterexample :
    (example_tcp_state 8 warnings_no_forward true
        [ReadResult.data [16, 0, 0, 0], example_data_packet 0 [1, 2, 3, 4]]).transport
      = Transport.tcp true [ReadResult.data [16, 0, 0, 0], example_data_packet 0 [1, 2, 3, 4]]
    ∧ unpack_u32 [16, 0, 0, 0] 0 &&& 0xffff = 0
    ∧ framed_size (example_tcp_state 8 warnings_no_forward true
        [ReadResult.data [16, 0, 0, 0], example_data_packet 0 [1, 2, 3, 4]]) = 4
    ∧ (4 : Int) ≠ 4 * ((unpack_u32 [16, 0, 0, 0] 0 &&& 0xffff : Nat) : Int) := by
  decide

/-- C17, amended: framing on a connected TCP transport whose first read delivers the 4-byte
header word `hdr`, into a packet buffer of at least 4 bytes; W is the word count
`header & 0xffff`.  The buffer keeps its length, and the header word is stored in its bytes
[0:4].  For W of 0 or 1 the framed length is 4 and nothing more is read (for W = 1 that is
4 * W).  For W of at least 2, when the packet fits the buffer (4 * W is at most the length of
the buffer) and the peer supplies the 4 * W - 4 bytes asked for, the framed length is 4 * W,
the remainder is stored in the buffer right behind the header word, and exactly that one
further read is consumed.  A packet that does not fit the buffer is left open. -/
theorem c17_stream_framing (s : State) (hdr : List Nat) (script : List ReadResult)
    (ht : s.transport = Transport.tcp true (ReadResult.data hdr :: script))
    (hhdr : 4 ≤ hdr.length) (hbuf : 4 ≤ s.d_packet_buffer.length) :
    (read_packet s).2.d_packet_buffer.length = s.d_packet_buffer.length
    ∧ (∀ i, i < 4 → (read_packet s).2.d_packet_buffer.getD i 0 = hdr.getD i 0)
    ∧ (unpack_u32 hdr 0 &&& 0xffff ≤ 1 →
        framed_size s = 4 ∧ (read_packet s).2.transport = Transport.tcp true script)
    ∧ (unpack_u32 hdr 0 &&& 0xffff = 1 →
        framed_size s = 4 * ((unpack_u32 hdr 0 &&& 0xffff : Nat) : Int))
    ∧ ∀ (rest : List Nat) (script2 : List ReadResult),
        2 ≤ (unpack_u32 hdr 0 &&& 0xffff) →
        4 * (unpack_u32 hdr 0 &&& 0xffff) ≤ s.d_packet_buffer.length →
        script = ReadResult.data rest :: script2 →
        4 * (unpack_u32 hdr 0 &&& 0xffff) - 4 ≤ rest.length →
        framed_size s = 4 * ((unpack_u32 hdr 0 &&& 0xffff : Nat) : Int)
        ∧ (∀ i, i < 4 * (unpack_u32 hdr 0 &&& 0xffff) - 4 →
            (read_packet s).2.d_packet_buffer.getD (4 + i) 0 = rest.getD i 0)
        ∧ (read_packet s).2.transport = Transport.tcp true script2 := by
  have hrp := read_packet_tcp s hdr script ht hhdr hbuf
  have hl : (hdr.take 4).length = 4 := by rw [List.length_take]; omega
  have hfirst : ∀ i, i < 4 →
      (write_at s.d_packet_buffer 0 (hdr.take 4)).getD i 0 = hdr.getD i 0 := by
    intro i hi
    have := write_at_getD_inside s.d_packet_buffer (hdr.take 4) 0 i (by omega) (by omega)
    rw [Nat.zero_add] at this
    rw [this, List.getD_eq_getElem?_getD, List.getD_eq_getElem?_getD,
      List.getElem?_take_of_lt hi]
  have hlen1 : (write_at s.d_packet_buffer 0 (hdr.take 4)).length = s.d_packet_buffer.length :=
    write_at_length _ _ _
  refine ⟨read_packet_buffer_length s, ?_, ?_, ?_, ?_⟩
  · intro i hi
    rw [hrp]
    split
    · simp only []
      rw [write_at_getD_before _ _ 4 i (by omega) hi]
      exact hfirst i hi
    · exact hfirst i hi
  · intro hw
    unfold framed_size
    rw [hrp, if_neg (by omega)]
    exact ⟨rfl, rfl⟩
  · intro hw
    unfold framed_size
    rw [hrp, if_neg (by omega), hw]
    rfl
  · intro rest script2 hw hfit hs hrest
    unfold framed_size
    rw [hrp, if_pos hw, hs]
    have hl2 : (rest.take (4 * (unpack_u32 hdr 0 &&& 0xffff) - 4)).length
        = 4 * (unpack_u32 hdr 0 &&& 0xffff) - 4 := by
      rw [List.length_take]; omega
    simp only [read_script, hl2]
    refine ⟨by omega, ?_, trivial⟩
    intro i hi
    rw [write_at_getD_inside _ _ 4 i (by omega) (by omega), List.getD_eq_getElem?_getD,
      List.getD_eq_getElem?_getD, List.getElem?_take_of_lt hi]

/-- Witness of C17: the header word 16, 0, 0, 8 (word count 8) followed by 28 bytes, read
into a buffer of 128 bytes, gives the framed length 32 with the 28 bytes stored from index 4
on. -/
theorem c17_stream_framing_witness :
    unpack_u32 [16, 0, 0, 8] 0 &&& 0xffff = 8
    ∧ (example_tcp_state 8 warnings_no_forward true
        [ReadResult.data [16, 0, 0, 8],
          ReadResult.data (List.range 28 ++ [99])]).d_packet_buffer.length = 128
    ∧ framed_size (example_tcp_state 8 warnings_no_forward true
        [ReadResult.data [16, 0, 0, 8], ReadResult.data (List.range 28 ++ [99])]) = 32
    ∧ (∀ i, i < 28 → List.getD (read_packet (example_tcp_state 8 warnings_no_forward true
          [ReadResult.data [16, 0, 0, 8], ReadResult.data (List.range 28 ++ [99])])).2.d_packet_buffer
            (4 + i) 0 = i)
    ∧ (read_packet (example_tcp_state 8 warnings_no_forward true
          [ReadResult.data [16, 0, 0, 8], ReadResult.data (List.range 28 ++ [99])])).2.transport
        = Transport.tcp true [] := by
  have h := (c17_stream_framing (example_tcp_state 8 warnings_no_forward true
      [ReadResult.data [16, 0, 0, 8], ReadResult.data (List.range 28 ++ [99])])
    [16, 0, 0, 8] [ReadResult.data (List.range 28 ++ [99])] rfl (by decide)
    (by decide)).2.2.2.2
    (List.range 28 ++ [99]) [] (by decide) (by decide) rfl (by decide)
  refine ⟨by decide, by decide, ?_, ?_, h.2.2⟩
  · rw [h.1]
    decide
  · intro i hi
    rw [h.2.1 i hi]
    revert hi
    revert i
    decide

/-- C18, counterexample: a UDP datagram of 10 bytes and a short read of 2 bytes of the header
word on TCP are both handed to `parse_header`: the call returns 0 samples, but the static
bits are set and a `static_change` tag is added from the partly stale buffer (for the
datagram also a `pck_n` tag with `data_len` 10 and `d_last_pkt_n` 3). -/
theorem c18_short_packet_counterexample :
    (framed_size (example_state 8 warnings_no_forward
        [ReadResult.data [16, 3, 0, 0, 0, 0, 0, 7, 0, 0]]) = 10
      ∧ ∃ s1, buffer_and_send (example_state 8 warnings_no_forward
            [ReadResult.data [16, 3, 0, 0, 0, 0, 0, 7, 0, 0]]) 10 = Outcome.returned 0 [] s1
          ∧ s1.tags = [⟨0, "static_change", TagValue.value (Pmt.from_uint64 0x10000000)⟩,
              ⟨0, "pck_n", TagValue.dict [("pck_n", Pmt.from_uint64 3),
                ("data_len", Pmt.from_uint64 10), ("full", Pmt.from_long 0),
                ("frac", Pmt.from_uint64 0)]⟩]
          ∧ s1.d_static_bits = 0x10000000 ∧ s1.d_last_pkt_n = 3)
    ∧ (framed_size (example_tcp_state 8 warnings_no_forward true [ReadResult.data [16, 3]]) = 2
      ∧ ∃ s1, buffer_and_send (example_tcp_state 8 warnings_no_forward true
            [ReadResult.data [16, 3]]) 10 = Outcome.returned 0 [] s1
          ∧ tags_with_key "static_change" s1.tags
              = [⟨0, "static_change", TagValue.value (Pmt.from_uint64 0x10000000)⟩]
          ∧ s1.d_static_bits = 0x10000000) := by
  refine ⟨⟨by decide, _, rfl, by decide, by decide, by decide⟩,
    ⟨by decide, _, rfl, by decide, by decide⟩⟩

/-- C18, amended: the only test between the read and `parse_header` is `size_gotten <= 0`.
When the framed length is at most 0 the pass returns 0 with every member unchanged (only
the transport has been asked), so the parser is not run.  For every framed length above 0,
also one below 28, the parser is run on the buffer: the static bits, the latched timestamp
and the leading tags after the pass are those `parse_header` leaves, and for a header of
type 1 they are the values decoded from the buffer. -/
theorem c18_parser_runs_on_every_packet (s : State) (n : Int) :
    (framed_size s ≤ 0 →
      buffer_and_send_body s n
        = Step.ret 0 [] { s with transport := (read_packet s).2.transport })
    ∧ (0 < framed_size s →
      (buffer_and_send_body s n).state.d_static_bits
          = (parse_header (read_packet s).2).2.d_static_bits
      ∧ (buffer_and_send_body s n).state.d_last_full
          = (parse_header (read_packet s).2).2.d_last_full
      ∧ (buffer_and_send_body s n).state.d_last_frac
          = (parse_header (read_packet s).2).2.d_last_frac
      ∧ ∃ l, (buffer_and_send_body s n).state.tags
          = (parse_header (read_packet s).2).2.tags ++ l)
    ∧ (0 < framed_size s → (framed_header s).type = 1 →
      (buffer_and_send_body s n).state.d_static_bits
          = to_int32 ((framed_header s).header &&& 0xfff00000)
      ∧ (buffer_and_send_body s n).state.d_last_full
          = unpack_u32 (read_packet s).2.d_packet_buffer 16
      ∧ (buffer_and_send_body s n).state.d_last_frac
          = unpack_u64 (read_packet s).2.d_packet_buffer 20) := by
  refine ⟨fun h => (idle_call s n h).1, ?_, ?_⟩
  · intro h
    obtain ⟨h1, h2, h3, l, hl, _⟩ := body_after_parse s n h
    exact ⟨h1, h2, h3, l, hl⟩
  · intro h ht
    obtain ⟨h1, h2, h3, _⟩ := body_after_parse s n h
    have hp := parse_header_data (read_packet s).2 ht
    rw [h1, h2, h3, framed_header_header]
    exact ⟨hp.2.1, hp.2.2.1, hp.2.2.2⟩

/-- Witness of C18: a 10-byte datagram of type 1 has its static bits stored, and a call
without a datagram returns 0 with the members unchanged. -/
theorem c18_parser_runs_on_every_packet_witness :
    (0 < framed_size (example_state 8 warnings_no_forward
        [ReadResult.data [16, 3, 0, 0, 0, 0, 0, 7, 0, 0]])
      ∧ framed_size (example_state 8 warnings_no_forward
        [ReadResult.data [16, 3, 0, 0, 0, 0, 0, 7, 0, 0]]) < 28
      ∧ (framed_header (example_state 8 warnings_no_forward
        [ReadResult.data [16, 3, 0, 0, 0, 0, 0, 7, 0, 0]])).type = 1)
    ∧ (buffer_and_send_body (example_state 8 warnings_no_forward
        [ReadResult.data [16, 3, 0, 0, 0, 0, 0, 7, 0, 0]]) 10).state.d_static_bits
      = to_int32 ((framed_header (example_state 8 warnings_no_forward
        [ReadResult.data [16, 3, 0, 0, 0, 0, 0, 7, 0, 0]])).header &&& 0xfff00000)
    ∧ framed_size (example_state 8 warnings_no_forward []) ≤ 0
    ∧ buffer_and_send_body (example_state 8 warnings_no_forward []) 10
      = Step.ret 0 [] { example_state 8 warnings_no_forward [] with
          transport := (read_packet (example_state 8 warnings_no_forward [])).2.transport } :=
  ⟨by decide,
    ((c18_parser_runs_on_every_packet (example_state 8 warnings_no_forward
      [ReadResult.data [16, 3, 0, 0, 0, 0, 0, 7, 0, 0]]) 10).2.2 (by decide) (by decide)).1,
    by decide,
    (c18_parser_runs_on_every_packet (example_state 8 warnings_no_forward []) 10).1
      (by decide)⟩

/-- C19: for every buffer, with g the 32-bit gain word and w the 32-bit reference-level
word that `unpack_context` reads at their offsets, `rf_gain` is the 7-fractional-bit
fixed-point value of the low half of g, signed16(g mod 2^16) / 2^7, `if_gain` is that of
the high half, signed16(g div 2^16) / 2^7, and `ref_lvl` is signed16(w mod 2^16) / 2^7, as
exact rationals; the pattern 0xFF80 decodes to -1 and 0x0080 to 1. -/
theorem c19_gain_decoding (s : State) (context : context_packet) :
    (unpack_context s context).rf_gain
        = (signed16 (unpack_u32 s.d_packet_buffer (s.CONTEXT_PACKET_OFFSETS.getD 10 0)
            % 2 ^ 16) : ℚ) / 2 ^ 7
    ∧ (unpack_context s context).if_gain
        = (signed16 (unpack_u32 s.d_packet_buffer (s.CONTEXT_PACKET_OFFSETS.getD 10 0)
            / 2 ^ 16) : ℚ) / 2 ^ 7
    ∧ (unpack_context s context).ref_lvl
        = (signed16 (unpack_u32 s.d_packet_buffer (s.CONTEXT_PACKET_OFFSETS.getD 9 0)
            % 2 ^ 16) : ℚ) / 2 ^ 7
    ∧ parse_vita_fixed_float (to_int16 (0xffff &&& 0xFF80)) = -1
    ∧ parse_vita_fixed_float (to_int16 (0xffff &&& 0x0080)) = 1
    ∧ (signed16 0xFF80 : ℚ) / 2 ^ 7 = -1 ∧ (signed16 0x0080 : ℚ) / 2 ^ 7 = 1 := by
  refine ⟨?_, ?_, ?_, ?_, ?_, ?_, ?_⟩
  · unfold unpack_context parse_vita_fixed_float
    simp only []
    rw [to_int16_low_half]
  · unfold unpack_context parse_vita_fixed_float
    simp only []
    rw [to_int16_high_half _ (unpack_u32_lt _ _)]
  · unfold unpack_context parse_vita_fixed_float
    simp only []
    rw [to_int16_low_half]
  · rw [to_int16_low_half]
    norm_num [parse_vita_fixed_float, signed16]
  · rw [to_int16_low_half]
    norm_num [parse_vita_fixed_float, signed16]
  · norm_num [signed16]
  · norm_num [signed16]

/-- C20: invariant of the policy state machine.  In every state reachable from a constructed
block by calls of `work` (calls that return normally, and also calls that throw),
`d_send` can be false only when the configured policy is `warnings_no_forward` (WarnDrop);
under `ignore`, `warnings_forward` and `throw_exe` (Abort) it is true. -/
theorem c20_send_enabled_invariant (s : State) (h : Reachable s) :
    (s.d_send = false → s.d_behavior = warnings_no_forward)
    ∧ (s.d_behavior = ignore ∨ s.d_behavior = warnings_forward ∨ s.d_behavior = throw_exe →
        s.d_send = true) := by
  have hr := reachable_send s h
  constructor
  · intro hs
    by_contra hne
    rw [hr hne] at hs
    cases hs
  · intro hb
    apply hr
    rcases hb with hb | hb | hb <;> rw [hb] <;> decide

/-- Witness of C20: under WarnDrop a 50-byte packet of type 4 leaves `d_send` false; under
WarnForward a context packet with a mismatching bit depth followed by a data packet leaves
it true. -/
theorem c20_send_enabled_invariant_witness :
    (run_calls 1 example_paused_stream 10).d_send = false
    ∧ (run_calls 1 example_paused_stream 10).d_behavior = warnings_no_forward
    ∧ (run_calls 2 (example_state 8 warnings_forward
        [example_context_72 16, example_data_packet 0 [1, 2, 3, 4]]) 10).d_send = true :=
  ⟨by decide,
   (c20_send_enabled_invariant _
      (reachable_run_calls 1 _ 10 (Reachable.constructed _ _ _ _ _ _ _))).1 (by decide),
   (c20_send_enabled_invariant _
      (reachable_run_calls 2 _ 10 (Reachable.constructed _ _ _ _ _ _ _))).2
      (Or.inr (Or.inl (by decide)))⟩

end Difi
